import Mathlib

/-!
# GStreamer/VA video memory: map/unmap state machine and strategy selection

A shallow embedding of `gst/vaapi/gstvaapivideomemory.c`.

* A `GstVaapiVideoMemory` is a record of the C structure's fields.  The two
  coherency flags kept in the mini-object flag word are two booleans.
* Everything the file calls but does not define (the surface provider of the
  display, the object pools, the image accessors, GStreamer's video-info
  helpers) is a field of the record `Provider`: the answer the collaborator
  gives to that call.  Every operation takes the `Provider` of that call as an
  argument, so answers may differ from one call to the next, and a theorem
  quantified over `Provider` holds whatever the collaborator answers.
* The calls with an effect on a shared resource (pool get/put, reference
  drops, image map/unmap, pixel transfers) are appended to `State.trace`, and
  the pixel contents of surfaces and images are kept in two stores.
-/

namespace GstVaapi

/-! ## Data model -/

/-- The `GstVideoFormat` enumeration, as its integer value. -/
abbrev GstVideoFormat := Nat

/-- The value of `GST_VIDEO_FORMAT_ENCODED` in GStreamer's enumeration. -/
def GST_VIDEO_FORMAT_ENCODED : GstVideoFormat := 1

/-- The enumeration `GstVaapiImageUsageFlags`. -/
inductive GstVaapiImageUsageFlags
  | GST_VAAPI_IMAGE_USAGE_FLAG_NATIVE_FORMATS
  | GST_VAAPI_IMAGE_USAGE_FLAG_DIRECT_RENDER
  | GST_VAAPI_IMAGE_USAGE_FLAG_DIRECT_UPLOAD
  deriving DecidableEq, Repr

open GstVaapiImageUsageFlags

/-- The values of `mem->map_type`: `0` (no map outstanding) and the three
constants of `GstVaapiVideoMemoryMapType`. -/
inductive GstVaapiVideoMemoryMapType
  | MAP_TYPE_NONE
  | GST_VAAPI_VIDEO_MEMORY_MAP_TYPE_SURFACE
  | GST_VAAPI_VIDEO_MEMORY_MAP_TYPE_PLANAR
  | GST_VAAPI_VIDEO_MEMORY_MAP_TYPE_LINEAR
  deriving DecidableEq, Repr

open GstVaapiVideoMemoryMapType

/-- The two bits of `GstMapFlags` that the file inspects: `GST_MAP_READ` and
`GST_MAP_WRITE` (`GST_MAP_READWRITE` is their union). -/
structure GstMapFlags where
  read : Bool
  write : Bool
  deriving DecidableEq, Repr

/-- The flags value `0`. -/
def GST_MAP_NOFLAGS : GstMapFlags := ⟨false, false⟩
/-- The flags value `GST_MAP_READ`. -/
def GST_MAP_READ : GstMapFlags := ⟨true, false⟩
/-- The flags value `GST_MAP_WRITE`. -/
def GST_MAP_WRITE : GstMapFlags := ⟨false, true⟩
/-- The flags value `GST_MAP_READWRITE`. -/
def GST_MAP_READWRITE : GstMapFlags := ⟨true, true⟩

/-- Pixel contents of a surface or of an image. -/
abbrev Pixels := List Nat

/-- A `GstVaapiSurface`: its identity and what `gst_vaapi_surface_get_format`
reports for it. -/
structure GstVaapiSurface where
  id : Nat
  format : GstVideoFormat
  deriving DecidableEq, Repr

/-- A `GstVaapiSurfaceProxy`: its identity and `GST_VAAPI_SURFACE_PROXY_SURFACE`,
which may be `NULL`. -/
structure GstVaapiSurfaceProxy where
  id : Nat
  surface : Option GstVaapiSurface
  deriving DecidableEq, Repr

/-- A `GstVaapiImage`: its identity and the attributes read through
`gst_vaapi_image_get_format`, `gst_vaapi_image_get_size`,
`gst_vaapi_image_get_plane_count` and `gst_vaapi_image_get_data_size`. -/
structure GstVaapiImage where
  id : Nat
  format : GstVideoFormat
  width : Nat
  height : Nat
  num_planes : Nat
  data_size : Nat
  deriving DecidableEq, Repr

/-- Modelled from the spec: the `GstVaapiVideoMeta` buffer metadata
(`gstvaapivideometa.c` is not among the sources), "exposing get/set of
current surface proxy and current image". -/
structure GstVaapiVideoMeta where
  proxy : Option GstVaapiSurfaceProxy
  image : Option GstVaapiImage
  deriving DecidableEq, Repr

/-- The fields of `GstVideoInfo` the file reads or writes.  `n_planes` is
`GST_VIDEO_INFO_N_PLANES`, `offset` and `stride` are the per-plane arrays. -/
structure GstVideoInfo where
  format : GstVideoFormat
  width : Nat
  height : Nat
  n_planes : Nat
  offset : Nat → Nat
  stride : Nat → Int
  size : Nat

/-- A zero-filled `GstVideoInfo`. -/
def GstVideoInfo.zero : GstVideoInfo :=
  { format := 0, width := 0, height := 0, n_planes := 0,
    offset := fun _ => 0, stride := fun _ => 0, size := 0 }

/-- A `GstVaapiVideoPool`, by identity. -/
structure GstVaapiVideoPool where
  id : Nat
  deriving DecidableEq, Repr

/-- The fields of `GstVaapiVideoAllocator`. -/
structure GstVaapiVideoAllocator where
  video_info : GstVideoInfo
  surface_info : GstVideoInfo
  surface_pool : Option GstVaapiVideoPool
  image_info : GstVideoInfo
  image_pool : Option GstVaapiVideoPool
  usage_flag : GstVaapiImageUsageFlags

/-- The fields of `GstVaapiVideoMemory`.  `maxsize` and `allocator` are the
fields of the parent `GstMemory`; the two booleans are the flags
`GST_VAAPI_VIDEO_MEMORY_FLAG_SURFACE_IS_CURRENT` and
`GST_VAAPI_VIDEO_MEMORY_FLAG_IMAGE_IS_CURRENT`.  The declaration of
`map_count` is not among the sources; it is an integer here, without a
bound. -/
structure GstVaapiVideoMemory where
  allocator : GstVaapiVideoAllocator
  maxsize : Nat
  proxy : Option GstVaapiSurfaceProxy
  surface_info : GstVideoInfo
  surface : Option GstVaapiSurface
  image_info : GstVideoInfo
  image : Option GstVaapiImage
  meta : Option GstVaapiVideoMeta
  map_type : GstVaapiVideoMemoryMapType
  map_count : Int
  usage_flag : GstVaapiImageUsageFlags
  surface_is_current : Bool
  image_is_current : Bool

/-- The calls on shared resources that the operations make, in the order in
which they are made.  A `NULL` argument is `none`. -/
inductive Call
  | surface_proxy_ref (proxy : Nat)
  | surface_proxy_unref (proxy : Nat)
  | surface_proxy_new_from_pool (proxy : Nat)
  | surface_derive_image (surface : Option Nat) (image : Option Nat)
  | object_unref_image (image : Nat)
  | video_pool_get_object (image : Nat)
  | video_pool_put_object (image : Nat)
  | surface_get_image (surface : Option Nat) (image : Option Nat)
  | surface_put_image (surface : Option Nat) (image : Option Nat)
  | image_map (image : Option Nat)
  | image_unmap (image : Option Nat)
  | video_meta_unref
  deriving DecidableEq, Repr

/-- The answers of the collaborators (the surface provider, the pools, the
image accessors, GStreamer's video-info helpers), none of which is defined in
the sources, to the calls the file makes.  Pointers are addresses, `0` being
`NULL`. -/
structure Provider where
  /-- The result of `gst_vaapi_surface_proxy_new_from_pool` on the surface pool. -/
  surface_proxy_new_from_pool : Option GstVaapiSurfaceProxy
  /-- The result of `gst_vaapi_surface_derive_image`. -/
  surface_derive_image : Option GstVaapiSurface → Option GstVaapiImage
  /-- The result of `gst_vaapi_video_pool_get_object` on the image pool. -/
  video_pool_get_object : Option GstVaapiImage
  /-- The result of `gst_vaapi_surface_get_image`. -/
  surface_get_image : Option GstVaapiSurface → Option GstVaapiImage → Bool
  /-- The result of `gst_vaapi_surface_put_image`. -/
  surface_put_image : Option GstVaapiSurface → Option GstVaapiImage → Bool
  /-- The result of `gst_vaapi_image_map`. -/
  image_map : Option GstVaapiImage → Bool
  /-- The result of `gst_vaapi_image_get_plane`. -/
  image_get_plane : GstVaapiImage → Nat → Nat
  /-- The result of `gst_vaapi_image_get_pitch`. -/
  image_get_pitch : GstVaapiImage → Nat → Nat
  /-- The result of `gst_vaapi_image_get_image`: `none` when it returns
  `FALSE`, else `va_image.offsets`. -/
  image_get_image : GstVaapiImage → Option (Nat → Nat)
  /-- Whether `gst_vaapi_video_meta_copy` succeeds, and the identity of the
  duplicated proxy. -/
  video_meta_copy : Option Nat
  /-- The result of `gst_vaapi_video_format_get_best_native`. -/
  video_format_get_best_native : GstVideoFormat → GstVideoFormat
  /-- The result of `gst_vaapi_video_format_get_chroma_type`. -/
  video_format_get_chroma_type : GstVideoFormat → Nat
  /-- The effect of `gst_video_info_set_format` on a video info. -/
  video_info_set_format : GstVideoInfo → GstVideoFormat → Nat → Nat → GstVideoInfo
  /-- The effect of `gst_video_info_force_nv12_if_encoded` on a video info. -/
  video_info_force_nv12_if_encoded : GstVideoInfo → GstVideoInfo
  /-- The result of `gst_vaapi_surface_new_with_format`. -/
  surface_new_with_format : GstVideoFormat → Nat → Nat → Option GstVaapiSurface
  /-- The result of `gst_vaapi_surface_new`. -/
  surface_new : Nat → Nat → Nat → Option GstVaapiSurface
  /-- The result of `gst_vaapi_image_new`. -/
  image_new : GstVideoFormat → Nat → Nat → Option GstVaapiImage
  /-- The result of `gst_vaapi_surface_pool_new_full`. -/
  surface_pool_new_full : GstVideoInfo → Nat → Option GstVaapiVideoPool
  /-- The result of `gst_vaapi_image_pool_new`. -/
  image_pool_new : GstVideoInfo → Option GstVaapiVideoPool
  /-- Whether `g_object_new` returns an allocator object. -/
  object_new : Bool

/-- A video memory together with the pixel stores (by surface and image
identity) and the trace of calls made so far. -/
structure State where
  mem : GstVaapiVideoMemory
  surface_pixels : Nat → Pixels
  image_pixels : Nat → Pixels
  trace : List Call

/-- What `gst_vaapi_video_memory_map` returns: `NULL`, the surface proxy, or
the address of the data of an image. -/
inductive MapData
  | null
  | surface_proxy (proxy : GstVaapiSurfaceProxy)
  | image_data (image : GstVaapiImage) (addr : Nat)
  deriving DecidableEq, Repr

/-! ## Small helpers of the embedding -/

/-- Append one call to the trace. -/
def State.log (s : State) (c : Call) : State :=
  { s with trace := s.trace ++ [c] }

/-- Replace the video memory of a state. -/
def State.setMem (s : State) (m : GstVaapiVideoMemory) : State :=
  { s with mem := m }

/-- The identity of an optional surface. -/
def surface_id (s : Option GstVaapiSurface) : Option Nat := s.map (fun x => x.id)

/-- The identity of an optional image. -/
def image_id (i : Option GstVaapiImage) : Option Nat := i.map (fun x => x.id)

/-- Overwrite one entry of a pixel store. -/
def store_set (f : Nat → Pixels) (i : Nat) (v : Pixels) : Nat → Pixels :=
  fun j => if j = i then v else f j

/-- The width of `gsize` and `gssize`, in bits. -/
def GSIZE_BITS : Nat := 64

/-- The cast `(gsize) x` of a signed value. -/
def to_gsize (x : Int) : Nat := (x % (2 ^ GSIZE_BITS : Int)).toNat

/-- The conversion of a `guint` to `gint`. -/
def to_gint (x : Nat) : Int :=
  if x % 2 ^ 32 < 2 ^ 31 then ((x % 2 ^ 32 : Nat) : Int) else ((x % 2 ^ 32 : Nat) : Int) - 2 ^ 32

/-! ## Collaborator calls with an effect -/

/-- Modelled from the spec: `gst_vaapi_surface_proxy_replace (&mem->proxy,
new_proxy)`, whose definition is not among the sources.  The memory holds one
proxy reference: the new proxy is referenced and the held one released,
unless they are the same. -/
def surface_proxy_replace (new_proxy : Option GstVaapiSurfaceProxy) (s : State) : State :=
  if s.mem.proxy = new_proxy then s
  else
    let s1 := match new_proxy with
      | some n => s.log (Call.surface_proxy_ref n.id)
      | none => s
    let s2 := match s.mem.proxy with
      | some o => s1.log (Call.surface_proxy_unref o.id)
      | none => s1
    s2.setMem { s2.mem with proxy := new_proxy }

/-- Modelled from the spec: `gst_vaapi_object_replace (&mem->image, NULL)`, whose
definition is not among the sources: the image held by the memory is
dropped. -/
def object_replace_image_null (s : State) : State :=
  match s.mem.image with
  | none => s
  | some i => (s.log (Call.object_unref_image i.id)).setMem { s.mem with image := none }

/-- Modelled from the spec: `gst_vaapi_video_meta_get_surface_proxy`, the
"current surface proxy" of the metadata (`NULL` without metadata). -/
def gst_vaapi_video_meta_get_surface_proxy (m : Option GstVaapiVideoMeta) :
    Option GstVaapiSurfaceProxy :=
  match m with
  | some x => x.proxy
  | none => none

/-- Modelled from the spec: `gst_vaapi_video_meta_set_surface_proxy`. -/
def gst_vaapi_video_meta_set_surface_proxy (m : Option GstVaapiVideoMeta)
    (proxy : Option GstVaapiSurfaceProxy) : Option GstVaapiVideoMeta :=
  m.map (fun x => { x with proxy := proxy })

/-- Modelled from the spec: `gst_vaapi_video_meta_set_image`. -/
def gst_vaapi_video_meta_set_image (m : Option GstVaapiVideoMeta)
    (image : Option GstVaapiImage) : Option GstVaapiVideoMeta :=
  m.map (fun x => { x with image := image })

/-- Modelled from the spec: `gst_vaapi_video_meta_copy`, a duplicated metadata
that shares the surface of the source through a duplicated proxy; it fails
when the provider says so. -/
def gst_vaapi_video_meta_copy (p : Provider) (m : GstVaapiVideoMeta) :
    Option GstVaapiVideoMeta :=
  match p.video_meta_copy with
  | none => none
  | some n =>
    some { proxy := m.proxy.map (fun x => { id := n, surface := x.surface }),
           image := m.image }

/-- Modelled from the spec: `gst_vaapi_surface_get_format (surface)`, the pixel
format of the surface; `0` for `NULL`. -/
def gst_vaapi_surface_get_format (s : Option GstVaapiSurface) : GstVideoFormat :=
  match s with
  | some x => x.format
  | none => 0

/-- Modelled from the spec: the pixel transfer of a successful
`gst_vaapi_surface_get_image`, "the surface's pixels are copied into the
image". -/
def pixels_to_image (s : State) : State :=
  match s.mem.surface, s.mem.image with
  | some sf, some im =>
    { s with image_pixels := store_set s.image_pixels im.id (s.surface_pixels sf.id) }
  | _, _ => s

/-- Modelled from the spec: the pixel transfer of a successful
`gst_vaapi_surface_put_image`, "push the image's pixels onto the surface". -/
def pixels_to_surface (s : State) : State :=
  match s.mem.surface, s.mem.image with
  | some sf, some im =>
    { s with surface_pixels := store_set s.surface_pixels sf.id (s.image_pixels im.id) }
  | _, _ => s

/-- The call `gst_vaapi_surface_get_image (mem->surface, mem->image)`: on
success the pixels of the surface are copied into the image. -/
def gst_vaapi_surface_get_image (p : Provider) (s : State) : Bool × State :=
  let s1 := s.log (Call.surface_get_image (surface_id s.mem.surface) (image_id s.mem.image))
  if p.surface_get_image s.mem.surface s.mem.image then (true, pixels_to_image s1)
  else (false, s1)

/-- The call `gst_vaapi_surface_put_image (mem->surface, mem->image)`: on
success the pixels of the image are copied onto the surface. -/
def gst_vaapi_surface_put_image (p : Provider) (s : State) : Bool × State :=
  let s1 := s.log (Call.surface_put_image (surface_id s.mem.surface) (image_id s.mem.image))
  if p.surface_put_image s.mem.surface s.mem.image then (true, pixels_to_surface s1)
  else (false, s1)

/-! ## GstVaapiVideoMemory -/

/-- The function `reset_image_usage`. -/
def reset_image_usage (_flag : GstVaapiImageUsageFlags) : GstVaapiImageUsageFlags :=
  GST_VAAPI_IMAGE_USAGE_FLAG_NATIVE_FORMATS

/-- The function `use_native_formats`. -/
def use_native_formats (flag : GstVaapiImageUsageFlags) : Bool :=
  flag == GST_VAAPI_IMAGE_USAGE_FLAG_NATIVE_FORMATS

/-- The function `use_direct_rendering`. -/
def use_direct_rendering (flag : GstVaapiImageUsageFlags) : Bool :=
  flag == GST_VAAPI_IMAGE_USAGE_FLAG_DIRECT_RENDER

/-- The function `use_direct_uploading`. -/
def use_direct_uploading (flag : GstVaapiImageUsageFlags) : Bool :=
  flag == GST_VAAPI_IMAGE_USAGE_FLAG_DIRECT_UPLOAD

/-- The function `get_image_data`: the address of plane 0 less the first VA
offset, or `NULL`. -/
def get_image_data (p : Provider) (image : GstVaapiImage) : Nat :=
  let data := p.image_get_plane image 0
  match p.image_get_image image with
  | none => 0
  | some offsets =>
    if data = 0 then 0
    else to_gsize ((data : Int) - (offsets 0 : Int))

/-- The first statement of `ensure_image`: without an image and under a direct
strategy, derive one from the surface; if that fails, or the surface format
is not the expected image format, fall back to NATIVE_FORMATS. -/
def ensure_image_derive (p : Provider) (s : State) : State :=
  if s.mem.image.isNone && !use_native_formats s.mem.usage_flag then
    let derived := p.surface_derive_image s.mem.surface
    let s0 := (s.log (Call.surface_derive_image (surface_id s.mem.surface) (image_id derived))).setMem
      { s.mem with image := derived }
    match derived with
    | none => s0.setMem { s0.mem with usage_flag := reset_image_usage s0.mem.usage_flag }
    | some _ =>
      if gst_vaapi_surface_get_format s0.mem.surface != s0.mem.image_info.format then
        let s00 := object_replace_image_null s0
        s00.setMem { s00.mem with usage_flag := reset_image_usage s00.mem.usage_flag }
      else s0
  else s

/-- The function `ensure_image`. -/
def ensure_image (p : Provider) (s : State) : Bool × State :=
  let s1 := ensure_image_derive p s
  match s1.mem.image with
  | some _ =>
    (true, s1.setMem { s1.mem with meta := gst_vaapi_video_meta_set_image s1.mem.meta s1.mem.image })
  | none =>
    match p.video_pool_get_object with
    | none => (false, s1)
    | some im =>
      let s2 := (s1.log (Call.video_pool_get_object im.id)).setMem { s1.mem with image := some im }
      (true, s2.setMem { s2.mem with meta := gst_vaapi_video_meta_set_image s2.mem.meta s2.mem.image })

/-- The function `ensure_image_is_current`. -/
def ensure_image_is_current (p : Provider) (s : State) : Bool × State :=
  if !use_native_formats s.mem.usage_flag then (true, s)
  else if !s.mem.image_is_current then
    let r := gst_vaapi_surface_get_image p s
    if !r.1 then (false, r.2)
    else (true, r.2.setMem { r.2.mem with image_is_current := true })
  else (true, s)

/-- The function `new_surface_proxy`: a proxy from the surface pool of the
allocator. -/
def new_surface_proxy (p : Provider) (_s : State) : Option GstVaapiSurfaceProxy :=
  p.surface_proxy_new_from_pool

/-- The first statement of `ensure_surface`: without a proxy, adopt the one of
the metadata, else take one from the surface pool. -/
def ensure_surface_proxy (p : Provider) (s : State) : Bool × State :=
  match s.mem.proxy with
  | some _ => (true, s)
  | none =>
    let s1 := surface_proxy_replace (gst_vaapi_video_meta_get_surface_proxy s.mem.meta) s
    match s1.mem.proxy with
    | some _ => (true, s1)
    | none =>
      match new_surface_proxy p s1 with
      | none => (false, s1)
      | some px =>
        let s2 := (s1.log (Call.surface_proxy_new_from_pool px.id)).setMem
          { s1.mem with proxy := some px }
        (true, s2.setMem
          { s2.mem with meta := gst_vaapi_video_meta_set_surface_proxy s2.mem.meta s2.mem.proxy })

/-- The macro `GST_VAAPI_SURFACE_PROXY_SURFACE`, on a proxy that may be `NULL`. -/
def GST_VAAPI_SURFACE_PROXY_SURFACE (proxy : Option GstVaapiSurfaceProxy) :
    Option GstVaapiSurface :=
  match proxy with
  | some px => px.surface
  | none => none

/-- The function `ensure_surface`. -/
def ensure_surface (p : Provider) (s : State) : Bool × State :=
  let r := ensure_surface_proxy p s
  if !r.1 then (false, r.2)
  else
    let surface := GST_VAAPI_SURFACE_PROXY_SURFACE r.2.mem.proxy
    (surface.isSome, r.2.setMem { r.2.mem with surface := surface })

/-- The function `ensure_surface_is_current`. -/
def ensure_surface_is_current (p : Provider) (s : State) : Bool × State :=
  if !use_native_formats s.mem.usage_flag then (true, s)
  else if !s.mem.surface_is_current then
    if s.mem.image_is_current then
      let r := gst_vaapi_surface_put_image p s
      if !r.1 then (false, r.2)
      else (true, r.2.setMem { r.2.mem with surface_is_current := true })
    else (true, s.setMem { s.mem with surface_is_current := true })
  else (true, s)

/-- The function `map_vaapi_memory`. -/
def map_vaapi_memory (p : Provider) (flags : GstMapFlags) (s : State) : Bool × State :=
  let r1 := ensure_surface p s
  if !r1.1 then (false, r1.2)
  else
    let r2 := ensure_image p r1.2
    if !r2.1 then (false, r2.2)
    else
      let r3 := if flags.read then ensure_image_is_current p r2.2 else (true, r2.2)
      if !r3.1 then (false, r3.2)
      else
        let s4 := r3.2.log (Call.image_map (image_id r3.2.mem.image))
        if !p.image_map r3.2.mem.image then (false, s4)
        else if flags.write then
          (true, s4.setMem { s4.mem with surface_is_current := false })
        else (true, s4)

/-- The function `gst_vaapi_video_memory_reset_image`. -/
def gst_vaapi_video_memory_reset_image (s : State) : State :=
  let s1 :=
    if !use_native_formats s.mem.usage_flag then object_replace_image_null s
    else
      match s.mem.image with
      | some im => (s.log (Call.video_pool_put_object im.id)).setMem { s.mem with image := none }
      | none => s
  s1.setMem { s1.mem with image_is_current := false }

/-- The function `unmap_vaapi_memory`. -/
def unmap_vaapi_memory (flags : GstMapFlags) (s : State) : State :=
  let s1 := s.log (Call.image_unmap (image_id s.mem.image))
  let s2 := if flags.write then s1.setMem { s1.mem with image_is_current := true } else s1
  if !use_native_formats s2.mem.usage_flag then
    gst_vaapi_video_memory_reset_image
      (s2.setMem { s2.mem with meta := gst_vaapi_video_meta_set_image s2.mem.meta none })
  else s2

/-- What `gst_video_meta_map_vaapi_memory` hands back: its return value, the
values written to `*data` and `*stride` (`0` when nothing is written) and the
flags written to `info->flags`, if any. -/
structure MetaMapOut where
  ret : Bool
  data : Nat
  stride : Int
  info_flags : Option GstMapFlags
  deriving DecidableEq, Repr

/-- The function `gst_video_meta_map_vaapi_memory`, on the video memory of the
buffer of the `GstVideoMeta`. -/
def gst_video_meta_map_vaapi_memory (p : Provider) (plane : Nat) (flags : GstMapFlags)
    (s : State) : MetaMapOut × State :=
  if s.mem.meta.isNone then (⟨false, 0, 0, none⟩, s)
  else if s.mem.map_type != MAP_TYPE_NONE
      && s.mem.map_type != GST_VAAPI_VIDEO_MEMORY_MAP_TYPE_PLANAR then
    (⟨false, 0, 0, none⟩, s)
  else
    let r : Bool × State :=
      if s.mem.map_count = 0 then
        let r1 := map_vaapi_memory p flags s
        if !r1.1 then (false, r1.2)
        else (true, r1.2.setMem { r1.2.mem with map_type := GST_VAAPI_VIDEO_MEMORY_MAP_TYPE_PLANAR })
      else (true, s)
    if !r.1 then (⟨false, 0, 0, none⟩, r.2)
    else
      let s2 := r.2.setMem { r.2.mem with map_count := r.2.mem.map_count + 1 }
      match s2.mem.image with
      | some im =>
        let data := p.image_get_plane im plane
        (⟨data != 0, data, to_gint (p.image_get_pitch im plane), some flags⟩, s2)
      | none => (⟨false, 0, 0, some flags⟩, s2)

/-- The function `gst_video_meta_unmap_vaapi_memory`; `info_flags` is
`info->flags`. -/
def gst_video_meta_unmap_vaapi_memory (_plane : Nat) (info_flags : GstMapFlags)
    (s : State) : Bool × State :=
  if s.mem.meta.isNone then (false, s)
  else if s.mem.surface.isNone then (false, s)
  else if s.mem.image.isNone then (false, s)
  else
    let s1 := s.setMem { s.mem with map_count := s.mem.map_count - 1 }
    if s1.mem.map_count = 0 then
      let s2 := s1.setMem { s1.mem with map_type := MAP_TYPE_NONE }
      if info_flags.read || info_flags.write then (true, unmap_vaapi_memory info_flags s2)
      else (true, s2)
    else (true, s1)

/-- The function `gst_vaapi_video_memory_new`.  Its argument is a video
allocator by its type, and `g_slice_new` does not return `NULL`, so a memory
is always returned. -/
def gst_vaapi_video_memory_new (allocator : GstVaapiVideoAllocator)
    (m : Option GstVaapiVideoMeta) : GstVaapiVideoMemory :=
  { allocator := allocator,
    maxsize := allocator.image_info.size,
    proxy := none,
    surface_info := allocator.surface_info,
    surface := none,
    image_info := allocator.image_info,
    image := none,
    meta := m,
    map_type := MAP_TYPE_NONE,
    map_count := 0,
    usage_flag := allocator.usage_flag,
    surface_is_current := true,
    image_is_current := false }

/-- The function `gst_vaapi_video_memory_reset_surface`. -/
def gst_vaapi_video_memory_reset_surface (s : State) : State :=
  let s1 := s.setMem { s.mem with surface := none }
  let s2 := gst_vaapi_video_memory_reset_image s1
  let s3 := surface_proxy_replace none s2
  let s4 := s3.setMem { s3.mem with meta := gst_vaapi_video_meta_set_surface_proxy s3.mem.meta none }
  s4.setMem { s4.mem with surface_is_current := false }

/-- The function `gst_vaapi_video_memory_sync`. -/
def gst_vaapi_video_memory_sync (p : Provider) (s : State) : Bool × State :=
  ensure_surface_is_current p s

/-- The first `switch` of `gst_vaapi_video_memory_map`, entered when
`mem->map_count == 0`; `false` stands for a jump to `out` with `data == NULL`. -/
def gst_vaapi_video_memory_map_first (p : Provider) (flags : GstMapFlags) (s : State) :
    Bool × State :=
  match flags.read, flags.write with
  | false, false =>
    let s1 := surface_proxy_replace (gst_vaapi_video_meta_get_surface_proxy s.mem.meta) s
    if s1.mem.proxy.isNone then (false, s1)
    else
      let r := ensure_surface_is_current p s1
      if !r.1 then (false, r.2)
      else (true, r.2.setMem { r.2.mem with map_type := GST_VAAPI_VIDEO_MEMORY_MAP_TYPE_SURFACE })
  | true, false =>
    let r := map_vaapi_memory p flags s
    if !r.1 then (false, r.2)
    else (true, r.2.setMem { r.2.mem with map_type := GST_VAAPI_VIDEO_MEMORY_MAP_TYPE_LINEAR })
  | _, true => (false, s)

/-- The function `gst_vaapi_video_memory_map`. -/
def gst_vaapi_video_memory_map (p : Provider) (_maxsize : Nat) (flags : GstMapFlags)
    (s : State) : MapData × State :=
  if s.mem.meta.isNone then (MapData.null, s)
  else
    let r : Bool × State :=
      if s.mem.map_count = 0 then gst_vaapi_video_memory_map_first p flags s else (true, s)
    if !r.1 then (MapData.null, r.2)
    else
      match r.2.mem.map_type with
      | GST_VAAPI_VIDEO_MEMORY_MAP_TYPE_SURFACE =>
        match r.2.mem.proxy with
        | none => (MapData.null, r.2)
        | some px =>
          (MapData.surface_proxy px, r.2.setMem { r.2.mem with map_count := r.2.mem.map_count + 1 })
      | GST_VAAPI_VIDEO_MEMORY_MAP_TYPE_LINEAR =>
        match r.2.mem.image with
        | none => (MapData.null, r.2)
        | some im =>
          let data := get_image_data p im
          (if data = 0 then MapData.null else MapData.image_data im data,
            r.2.setMem { r.2.mem with map_count := r.2.mem.map_count + 1 })
      | _ => (MapData.null, r.2)

/-- The function `gst_vaapi_video_memory_unmap_full`; `info_flags` is
`info->flags`. -/
def gst_vaapi_video_memory_unmap_full (info_flags : GstMapFlags) (s : State) : State :=
  if s.mem.map_count = 1 then
    match s.mem.map_type with
    | GST_VAAPI_VIDEO_MEMORY_MAP_TYPE_SURFACE =>
      let s1 := surface_proxy_replace none s
      let s2 := s1.setMem { s1.mem with map_type := MAP_TYPE_NONE }
      s2.setMem { s2.mem with map_count := s2.mem.map_count - 1 }
    | GST_VAAPI_VIDEO_MEMORY_MAP_TYPE_LINEAR =>
      let s1 := unmap_vaapi_memory info_flags s
      let s2 := s1.setMem { s1.mem with map_type := MAP_TYPE_NONE }
      s2.setMem { s2.mem with map_count := s2.mem.map_count - 1 }
    | _ => s
  else s.setMem { s.mem with map_count := s.mem.map_count - 1 }

/-- The function `gst_vaapi_video_memory_copy`: the new memory, or `NULL`. -/
def gst_vaapi_video_memory_copy (p : Provider) (offset size : Int) (s : State) :
    Option GstVaapiVideoMemory × State :=
  match s.mem.meta with
  | none => (none, s)
  | some m =>
    let maxsize := s.mem.maxsize
    if offset != 0 || (size != -1 && to_gsize size != maxsize) then (none, s)
    else
      let r := ensure_surface_is_current p s
      if !r.1 then (none, r.2)
      else
        match gst_vaapi_video_meta_copy p m with
        | none => (none, r.2)
        | some copy =>
          (some (gst_vaapi_video_memory_new s.mem.allocator (some copy)),
            r.2.log Call.video_meta_unref)

/-! ## GstVaapiVideoAllocator -/

/-- The function `new_image`. -/
def new_image (d : Provider) (vip : GstVideoInfo) : Option GstVaapiImage :=
  if vip.width = 0 || vip.height = 0 then none
  else d.image_new vip.format vip.width vip.height

/-- The function `new_surface`. -/
def new_surface (d : Provider) (vip : GstVideoInfo) (usage_flag : GstVaapiImageUsageFlags) :
    Option GstVaapiSurface :=
  let explicit : Option GstVaapiSurface :=
    if !use_native_formats usage_flag && vip.format != GST_VIDEO_FORMAT_ENCODED then
      d.surface_new_with_format vip.format vip.width vip.height
    else none
  match explicit with
  | some surface => some surface
  | none =>
    let chroma_type := d.video_format_get_chroma_type vip.format
    if chroma_type = 0 then none
    else d.surface_new chroma_type vip.width vip.height

/-- The value of a difference of two addresses as a `ptrdiff_t`: signed, on
`GSIZE_BITS` bits. -/
def to_ptrdiff (x : Int) : Int :=
  (x + 2 ^ (GSIZE_BITS - 1)) % 2 ^ GSIZE_BITS - 2 ^ (GSIZE_BITS - 1)

/-- The first loop of `gst_video_info_update_from_image`: whether for some
plane `plane - data > data_size`.  The difference is a `ptrdiff_t` and
`data_size`, a `guint`, is converted to it, so the comparison is signed. -/
def has_disjoint_plane (d : Provider) (image : GstVaapiImage) (data : Nat) (data_size : Nat)
    (num_planes : Nat) : Bool :=
  (List.range num_planes).any
    (fun i => decide
      (to_ptrdiff (((d.image_get_plane image i : Nat) : Int) - (data : Int)) > (data_size : Int)))

/-- The second loop of `gst_video_info_update_from_image`: plane offsets and
strides are overwritten, plane by plane. -/
def update_planes (d : Provider) (image : GstVaapiImage) (data : Nat) (num_planes : Nat)
    (vip : GstVideoInfo) : GstVideoInfo :=
  (List.range num_planes).foldl
    (fun v i =>
      { v with
        offset := fun j =>
          if j = i then to_gsize (((d.image_get_plane image i : Nat) : Int) - (data : Int))
          else v.offset j,
        stride := fun j => if j = i then to_gint (d.image_get_pitch image i) else v.stride j })
    vip

/-- The function `gst_video_info_update_from_image`: its return value and the
video info it leaves. -/
def gst_video_info_update_from_image (d : Provider) (vip : GstVideoInfo)
    (image : GstVaapiImage) : Bool × GstVideoInfo :=
  let vip1 := d.video_info_set_format vip image.format image.width image.height
  let num_planes := image.num_planes
  if num_planes != vip1.n_planes then (false, vip1)
  else
    let data := get_image_data d image
    if data = 0 then (false, vip1)
    else
      let data_size := image.data_size
      if has_disjoint_plane d image data data_size num_planes then (false, vip1)
      else
        let vip2 := update_planes d image data num_planes vip1
        (true, { vip2 with size := data_size })

/-- The function `allocator_configure_surface_info`. -/
def allocator_configure_surface_info (d : Provider) (allocator : GstVaapiVideoAllocator)
    (req_usage_flag : GstVaapiImageUsageFlags) : GstVaapiVideoAllocator :=
  let vinfo := allocator.video_info
  let a1 := { allocator with usage_flag := GST_VAAPI_IMAGE_USAGE_FLAG_NATIVE_FORMATS }
  let fmt := d.video_format_get_best_native vinfo.format
  let a2 := { a1 with
    surface_info := d.video_info_set_format a1.surface_info fmt vinfo.width vinfo.height }
  if use_native_formats req_usage_flag || vinfo.format == GST_VIDEO_FORMAT_ENCODED then a2
  else
    match new_surface d vinfo req_usage_flag with
    | none => a2
    | some surface =>
      match d.surface_derive_image (some surface) with
      | none => a2
      | some image =>
        if !d.image_map (some image) then a2
        else
          let u := gst_video_info_update_from_image d a2.surface_info image
          let updated := u.1
          let a3 := { a2 with surface_info := u.2 }
          let has_direct_rendering := updated && use_direct_rendering req_usage_flag
            && (image.format == vinfo.format)
          let has_direct_uploading := updated && use_direct_uploading req_usage_flag
            && (image.format == vinfo.format)
          if has_direct_rendering && !has_direct_uploading then
            { a3 with usage_flag := GST_VAAPI_IMAGE_USAGE_FLAG_DIRECT_RENDER }
          else if !has_direct_rendering && has_direct_uploading then
            { a3 with usage_flag := GST_VAAPI_IMAGE_USAGE_FLAG_DIRECT_UPLOAD }
          else a3

/-- The function `allocator_configure_image_info`. -/
def allocator_configure_image_info (d : Provider) (allocator : GstVaapiVideoAllocator) :
    GstVaapiVideoAllocator :=
  if !use_native_formats allocator.usage_flag then
    { allocator with image_info := allocator.surface_info }
  else
    let a1 := { allocator with
      image_info := d.video_info_force_nv12_if_encoded allocator.video_info }
    match new_image d a1.image_info with
    | none => a1
    | some image =>
      if !d.image_map (some image) then a1
      else { a1 with image_info := (gst_video_info_update_from_image d a1.image_info image).2 }

/-- The allocator object as `g_object_new` returns it: zero-filled. -/
def GstVaapiVideoAllocator.zero : GstVaapiVideoAllocator :=
  { video_info := GstVideoInfo.zero, surface_info := GstVideoInfo.zero, surface_pool := none,
    image_info := GstVideoInfo.zero, image_pool := none,
    usage_flag := GST_VAAPI_IMAGE_USAGE_FLAG_NATIVE_FORMATS }

/-- The function `gst_vaapi_video_allocator_new`: the allocator, or `NULL`. -/
def gst_vaapi_video_allocator_new (d : Provider) (vip : GstVideoInfo)
    (surface_alloc_flags : Nat) (req_usage_flag : GstVaapiImageUsageFlags) :
    Option GstVaapiVideoAllocator :=
  if !d.object_new then none
  else
    let a0 := { GstVaapiVideoAllocator.zero with video_info := vip }
    let a1 := allocator_configure_surface_info d a0 req_usage_flag
    match d.surface_pool_new_full a1.surface_info surface_alloc_flags with
    | none => none
    | some surface_pool =>
      let a2 := { a1 with surface_pool := some surface_pool }
      let a3 := allocator_configure_image_info d a2
      match d.image_pool_new a3.image_info with
      | none => none
      | some image_pool => some { a3 with image_pool := some image_pool }

/-! ## Sequences of calls and sample objects -/

/-- A run of `gst_vaapi_video_memory_map` calls with the same flags, one
provider per call: whether every call returned a non-`NULL` pointer, and the
final state. -/
def memory_map_seq (flags : GstMapFlags) : List Provider → State → Bool × State
  | [], s => (true, s)
  | p :: ps, s =>
    let r := gst_vaapi_video_memory_map p s.mem.maxsize flags s
    let r2 := memory_map_seq flags ps r.2
    (decide (r.1 ≠ MapData.null) && r2.1, r2.2)

/-- A run of `gst_vaapi_video_memory_unmap_full` calls, one `info->flags` per
call. -/
def memory_unmap_seq : List GstMapFlags → State → State
  | [], s => s
  | f :: fs, s => memory_unmap_seq fs (gst_vaapi_video_memory_unmap_full f s)

/-- A run of `gst_video_meta_map_vaapi_memory` calls, each with its provider,
plane and flags: whether every call returned `TRUE`, and the final state. -/
def meta_map_seq : List (Provider × Nat × GstMapFlags) → State → Bool × State
  | [], s => (true, s)
  | c :: cs, s =>
    let r := gst_video_meta_map_vaapi_memory c.1 c.2.1 c.2.2 s
    let r2 := meta_map_seq cs r.2
    (r.1.ret && r2.1, r2.2)

/-- A run of `gst_video_meta_unmap_vaapi_memory` calls, each with its plane
and `info->flags`. -/
def meta_unmap_seq : List (Nat × GstMapFlags) → State → State
  | [], s => s
  | u :: us, s => meta_unmap_seq us (gst_video_meta_unmap_vaapi_memory u.1 u.2 s).2

/-- Whether a call is an image unmap or the release of a surface proxy. -/
def is_release : Call → Bool
  | Call.image_unmap _ => true
  | Call.surface_proxy_unref _ => true
  | _ => false

/-- Whether a call pushes an image onto a surface. -/
def is_push : Call → Bool
  | Call.surface_put_image _ _ => true
  | _ => false

/-- The caller stores pixels through the pointers of a mapped image. -/
def store_image_pixels (b : Pixels) (s : State) : State :=
  match s.mem.image with
  | some im => { s with image_pixels := store_set s.image_pixels im.id b }
  | none => s

/-- A state around a video memory with empty pixel stores and no call made. -/
def State.initial (m : GstVaapiVideoMemory) : State :=
  { mem := m, surface_pixels := fun _ => [], image_pixels := fun _ => [], trace := [] }

namespace Sample

/-- A sample surface of format 2. -/
def surface : GstVaapiSurface := { id := 3, format := 2 }

/-- A sample proxy holding the sample surface. -/
def proxy : GstVaapiSurfaceProxy := { id := 5, surface := some surface }

/-- A sample one-plane image of format 2. -/
def image : GstVaapiImage :=
  { id := 7, format := 2, width := 4, height := 4, num_planes := 1, data_size := 16 }

/-- A sample video info: format 2, 4x4, one plane. -/
def info : GstVideoInfo :=
  { format := 2, width := 4, height := 4, n_planes := 1,
    offset := fun _ => 0, stride := fun _ => 4, size := 16 }

/-- A sample provider on which every call succeeds: planes of an image lie at
address 4096, the first VA offset is 0. -/
def provider : Provider :=
  { surface_proxy_new_from_pool := some proxy,
    surface_derive_image := fun _ => some image,
    video_pool_get_object := some image,
    surface_get_image := fun _ _ => true,
    surface_put_image := fun _ _ => true,
    image_map := fun _ => true,
    image_get_plane := fun im i => if i < im.num_planes then 4096 else 0,
    image_get_pitch := fun _ _ => 4,
    image_get_image := fun _ => some (fun _ => 0),
    video_meta_copy := some 6,
    video_format_get_best_native := fun f => f,
    video_format_get_chroma_type := fun _ => 1,
    video_info_set_format := fun _ f w h =>
      { format := f, width := w, height := h, n_planes := 1,
        offset := fun _ => 0, stride := fun _ => (w : Int), size := w * h },
    video_info_force_nv12_if_encoded := fun v => v,
    surface_new_with_format := fun f _ _ => some { id := 3, format := f },
    surface_new := fun _ _ _ => some surface,
    image_new := fun _ _ _ => some image,
    surface_pool_new_full := fun _ _ => some { id := 1 },
    image_pool_new := fun _ => some { id := 2 },
    object_new := true }

/-- A sample allocator with the given strategy. -/
def allocator (u : GstVaapiImageUsageFlags) : GstVaapiVideoAllocator :=
  { video_info := info, surface_info := info, surface_pool := some { id := 1 },
    image_info := info, image_pool := some { id := 2 }, usage_flag := u }

/-- A newly created video memory of the sample allocator, its metadata
holding the sample proxy. -/
def fresh (u : GstVaapiImageUsageFlags) : State :=
  State.initial (gst_vaapi_video_memory_new (allocator u) (some { proxy := some proxy, image := none }))

/-- A sample two-plane image of format 23 whose data size is 24. -/
def image2 : GstVaapiImage :=
  { id := 8, format := 23, width := 4, height := 4, num_planes := 2, data_size := 24 }

/-- A sample request: format 23, 4x4, two planes. -/
def info2 : GstVideoInfo :=
  { format := 23, width := 4, height := 4, n_planes := 2,
    offset := fun i => if i = 1 then 16 else 0, stride := fun _ => 4, size := 24 }

/-- A provider whose derived image has the requested format 23 but whose second
plane lies 4096 bytes after the first, beyond the 24 bytes of image data. -/
def provider_disjoint : Provider :=
  { provider with
    surface_derive_image := fun _ => some image2,
    image_get_plane := fun _ i => if i = 0 then 4096 else if i = 1 then 8192 else 0,
    video_info_set_format := fun _ f w h =>
      { format := f, width := w, height := h, n_planes := 2,
        offset := fun i => if i = 1 then w * h else 0,
        stride := fun _ => (w : Int), size := w * h + w * h / 2 } }

/-- A provider that cannot create a surface, neither with an explicit format
nor by chroma type, and creates both pools. -/
def provider_no_surface : Provider :=
  { provider with
    surface_new_with_format := fun _ _ _ => none,
    surface_new := fun _ _ _ => none }

/-- A newly created video memory whose maximum size is `2 ^ 63`. -/
def fresh_huge : State :=
  State.initial (gst_vaapi_video_memory_new
    { allocator GST_VAAPI_IMAGE_USAGE_FLAG_NATIVE_FORMATS with
      image_info := { info with size := 2 ^ 63 } }
    (some { proxy := some proxy, image := none }))

end Sample

/-! ## Destruction, and operations as data -/

/-- Modelled from the spec: `gst_vaapi_video_meta_replace (&mem->meta, NULL)`,
whose definition is not among the sources: the metadata reference held by the
memory is dropped. -/
def video_meta_replace_null (s : State) : State :=
  match s.mem.meta with
  | none => s
  | some _ => (s.log Call.video_meta_unref).setMem { s.mem with meta := none }

/-- The function `gst_vaapi_video_allocator_free`, up to the release of the
memory's own storage (the allocator reference, the mutex and the slice are
not part of the state). -/
def gst_vaapi_video_allocator_free (s : State) : State :=
  let s1 := s.setMem { s.mem with surface := none }
  let s2 := gst_vaapi_video_memory_reset_image s1
  let s3 := surface_proxy_replace none s2
  video_meta_replace_null s3

/-- One call on a video memory, with the provider that answers it. -/
inductive Op
  | memory_map (p : Provider) (flags : GstMapFlags)
  | meta_map (p : Provider) (plane : Nat) (flags : GstMapFlags)
  | memory_unmap (info_flags : GstMapFlags)
  | meta_unmap (plane : Nat) (info_flags : GstMapFlags)
  | sync (p : Provider)
  | copy (p : Provider) (offset size : Int)
  | reset_image
  | reset_surface

/-- The state a call leaves. -/
def Op.apply : Op → State → State
  | Op.memory_map p flags, s => (gst_vaapi_video_memory_map p s.mem.maxsize flags s).2
  | Op.meta_map p plane flags, s => (gst_video_meta_map_vaapi_memory p plane flags s).2
  | Op.memory_unmap info_flags, s => gst_vaapi_video_memory_unmap_full info_flags s
  | Op.meta_unmap plane info_flags, s => (gst_video_meta_unmap_vaapi_memory plane info_flags s).2
  | Op.sync p, s => (gst_vaapi_video_memory_sync p s).2
  | Op.copy p offset size, s => (gst_vaapi_video_memory_copy p offset size s).2
  | Op.reset_image, s => gst_vaapi_video_memory_reset_image s
  | Op.reset_surface, s => gst_vaapi_video_memory_reset_surface s

/-- The state a run of calls leaves. -/
def run_ops : List Op → State → State
  | [], s => s
  | op :: ops, s => run_ops ops (op.apply s)

/-- A state around a newly created video memory, no call made yet. -/
def NewState (s : State) : Prop :=
  (∃ allocator m, s.mem = gst_vaapi_video_memory_new allocator m) ∧ s.trace = []

/-- The second state has the usage flag of the first, or NATIVE_FORMATS. -/
def UsageKept (s t : State) : Prop :=
  t.mem.usage_flag = s.mem.usage_flag
    ∨ t.mem.usage_flag = GST_VAAPI_IMAGE_USAGE_FLAG_NATIVE_FORMATS

/-- Whether a call copies the pixels of a surface into an image. -/
def is_pull : Call → Bool
  | Call.surface_get_image _ _ => true
  | _ => false

/-- The second state agrees with the first on the coherency flags and the
pixel stores, and no pixel transfer was called in between. -/
def SameCoherency (s t : State) : Prop :=
  t.mem.surface_is_current = s.mem.surface_is_current
    ∧ t.mem.image_is_current = s.mem.image_is_current
    ∧ t.surface_pixels = s.surface_pixels
    ∧ t.image_pixels = s.image_pixels
    ∧ t.trace.countP is_pull = s.trace.countP is_pull
    ∧ t.trace.countP is_push = s.trace.countP is_push

namespace Sample

/-- A provider on which no image can be derived from a surface. -/
def provider_no_derive : Provider :=
  { provider with surface_derive_image := fun _ => none }

/-- A provider on which `gst_vaapi_image_get_image` fails, so that
`get_image_data` returns `NULL`. -/
def provider_no_va_image : Provider :=
  { provider with image_get_image := fun _ => none }

end Sample

/-- The calls that acquire an image (by deriving it or from the image pool) or
map one. -/
def is_image_acquire : Call → Bool
  | Call.surface_derive_image _ _ => true
  | Call.video_pool_get_object _ => true
  | Call.image_map _ => true
  | _ => false

/-- Where the image held in `mem->image` comes from: the image pool of the
allocator, or a derive from the surface. -/
inductive ImageOrigin
  | pooled
  | derived
  deriving DecidableEq, Repr

/-- The effect of one call on the origin of the image held in `mem->image`.
Every assignment to `mem->image` goes with one of these calls: a derive stores
its result, a successful pool-get stores the pooled image, and `NULL` is
stored after a pool-put and by the unref of `gst_vaapi_object_replace`. -/
def origin_step (o : Option ImageOrigin) : Call → Option ImageOrigin
  | Call.surface_derive_image _ (some _) => some ImageOrigin.derived
  | Call.surface_derive_image _ none => none
  | Call.video_pool_get_object _ => some ImageOrigin.pooled
  | Call.video_pool_put_object _ => none
  | Call.object_unref_image _ => none
  | _ => o

/-- The origin of the image held in `mem->image` after the calls of a trace
that starts at a newly created memory; `none` when no image is held. -/
def image_origin (tr : List Call) : Option ImageOrigin := tr.foldl origin_step none

/-- The calls that go with an assignment to `mem->image`. -/
def is_image_event : Call → Bool
  | Call.surface_derive_image _ _ => true
  | Call.video_pool_get_object _ => true
  | Call.video_pool_put_object _ => true
  | Call.object_unref_image _ => true
  | _ => false

/-- The acquisitions from the image pool. -/
def is_pool_get : Call → Bool
  | Call.video_pool_get_object _ => true
  | _ => false

/-- The releases to the image pool. -/
def is_pool_put : Call → Bool
  | Call.video_pool_put_object _ => true
  | _ => false

/-- The image bookkeeping of a state agrees with its trace: an image is held
exactly when the trace gives it an origin, a pooled image is held only under
NATIVE_FORMATS and a derived one only under a direct strategy, and the pool
acquisitions are the pool releases plus the pooled image held, if any. -/
def ImageTracked (s : State) : Prop :=
  s.mem.image.isSome = (image_origin s.trace).isSome
    ∧ (image_origin s.trace = some ImageOrigin.pooled →
        s.mem.usage_flag = GST_VAAPI_IMAGE_USAGE_FLAG_NATIVE_FORMATS)
    ∧ (image_origin s.trace = some ImageOrigin.derived →
        s.mem.usage_flag ≠ GST_VAAPI_IMAGE_USAGE_FLAG_NATIVE_FORMATS)
    ∧ s.trace.countP is_pool_get = s.trace.countP is_pool_put
        + (if image_origin s.trace = some ImageOrigin.pooled then 1 else 0)

/-- The second state holds the image of the first under the same strategy, and
no call that goes with an assignment to `mem->image` was made in between. -/
def SameImage (s t : State) : Prop :=
  t.mem.image = s.mem.image
    ∧ t.mem.usage_flag = s.mem.usage_flag
    ∧ image_origin t.trace = image_origin s.trace
    ∧ t.trace.countP is_pool_get = s.trace.countP is_pool_get
    ∧ t.trace.countP is_pool_put = s.trace.countP is_pool_put

/-- Whether a call is one of the two unmap entry points. -/
def Op.is_unmap : Op → Bool
  | Op.memory_unmap _ => true
  | Op.meta_unmap _ _ => true
  | _ => false

/-- Whether a call is one of the two map entry points or one of the two unmap
entry points. -/
def Op.is_map_or_unmap : Op → Bool
  | Op.memory_map _ _ => true
  | Op.meta_map _ _ _ => true
  | Op.memory_unmap _ => true
  | Op.meta_unmap _ _ => true
  | _ => false

/-- A run of map and unmap calls from a state in which every unmap is issued
while the map count is at least one. -/
def GuardedMapRun : List Op → State → Prop
  | [], _ => True
  | op :: ops, s =>
    op.is_map_or_unmap = true
      ∧ (op.is_unmap = true → 1 ≤ s.mem.map_count)
      ∧ GuardedMapRun ops (op.apply s)

/-- The map count is not negative, and it is zero exactly when the map type is
none. -/
def MapBalanced (s : State) : Prop :=
  0 ≤ s.mem.map_count ∧ (s.mem.map_count = 0 ↔ s.mem.map_type = MAP_TYPE_NONE)

/-- The second state differs from the first in the map bookkeeping (map type
and map count) at most. -/
def SameExceptMap (s t : State) : Prop :=
  t.mem.surface_is_current = s.mem.surface_is_current
    ∧ t.mem.image_is_current = s.mem.image_is_current
    ∧ t.mem.usage_flag = s.mem.usage_flag
    ∧ t.mem.proxy = s.mem.proxy
    ∧ t.mem.surface = s.mem.surface
    ∧ t.mem.image = s.mem.image
    ∧ t.mem.meta = s.mem.meta
    ∧ t.surface_pixels = s.surface_pixels
    ∧ t.image_pixels = s.image_pixels
    ∧ t.trace = s.trace

/-- The second state agrees with the first on the map bookkeeping: map count,
map type, and whether metadata is attached. -/
def SameMapState (s t : State) : Prop :=
  t.mem.map_count = s.mem.map_count ∧ t.mem.map_type = s.mem.map_type
    ∧ t.mem.meta.isSome = s.mem.meta.isSome

/-- The state with its map count replaced. -/
def State.withCount (s : State) (c : Int) : State :=
  s.setMem { s.mem with map_count := c }

/-- The map type is PLANAR only while a planar map is outstanding. -/
def PlanarOutstanding (s : State) : Prop :=
  s.mem.map_type = GST_VAAPI_VIDEO_MEMORY_MAP_TYPE_PLANAR → 1 ≤ s.mem.map_count

/-! ## Theorems -/

@[simp]
theorem log_mem (s : State) (c : Call) : (s.log c).mem = s.mem := rfl

@[simp]
theorem log_trace (s : State) (c : Call) : (s.log c).trace = s.trace ++ [c] := rfl

@[simp]
theorem log_surface_pixels (s : State) (c : Call) :
    (s.log c).surface_pixels = s.surface_pixels := rfl

@[simp]
theorem log_image_pixels (s : State) (c : Call) :
    (s.log c).image_pixels = s.image_pixels := rfl

@[simp]
theorem setMem_mem (s : State) (m : GstVaapiVideoMemory) : (s.setMem m).mem = m := rfl

@[simp]
theorem setMem_trace (s : State) (m : GstVaapiVideoMemory) :
    (s.setMem m).trace = s.trace := rfl

@[simp]
theorem setMem_surface_pixels (s : State) (m : GstVaapiVideoMemory) :
    (s.setMem m).surface_pixels = s.surface_pixels := rfl

@[simp]
theorem setMem_image_pixels (s : State) (m : GstVaapiVideoMemory) :
    (s.setMem m).image_pixels = s.image_pixels := rfl

@[simp]
theorem pixels_to_surface_mem (s : State) : (pixels_to_surface s).mem = s.mem := by
  unfold pixels_to_surface; split <;> rfl

@[simp]
theorem pixels_to_surface_trace (s : State) :
    (pixels_to_surface s).trace = s.trace := by
  unfold pixels_to_surface; split <;> rfl

@[simp]
theorem pixels_to_surface_image_pixels (s : State) :
    (pixels_to_surface s).image_pixels = s.image_pixels := by
  unfold pixels_to_surface; split <;> rfl

@[simp]
theorem pixels_to_image_mem (s : State) : (pixels_to_image s).mem = s.mem := by
  unfold pixels_to_image; split <;> rfl

@[simp]
theorem pixels_to_image_trace (s : State) : (pixels_to_image s).trace = s.trace := by
  unfold pixels_to_image; split <;> rfl

@[simp]
theorem pixels_to_image_surface_pixels (s : State) :
    (pixels_to_image s).surface_pixels = s.surface_pixels := by
  unfold pixels_to_image; split <;> rfl

/-- C1 (the code departs from the claim): on a newly created video memory, a
no-flag map takes a SURFACE map; a following `GST_MAP_READ` request, which asks
for the LINEAR type, does not return `NULL` but the surface proxy, and takes a
second map reference.  Likewise a no-flag request made while a LINEAR map is
outstanding returns the image data. -/
theorem C1_memory_map_ignores_requested_type :
    (gst_vaapi_video_memory_map Sample.provider 16 GST_MAP_NOFLAGS
        (Sample.fresh GST_VAAPI_IMAGE_USAGE_FLAG_NATIVE_FORMATS)).2.mem.map_count = 1
    ∧ (gst_vaapi_video_memory_map Sample.provider 16 GST_MAP_NOFLAGS
        (Sample.fresh GST_VAAPI_IMAGE_USAGE_FLAG_NATIVE_FORMATS)).2.mem.map_type
        = GST_VAAPI_VIDEO_MEMORY_MAP_TYPE_SURFACE
    ∧ (gst_vaapi_video_memory_map Sample.provider 16 GST_MAP_READ
        (gst_vaapi_video_memory_map Sample.provider 16 GST_MAP_NOFLAGS
          (Sample.fresh GST_VAAPI_IMAGE_USAGE_FLAG_NATIVE_FORMATS)).2).1
        = MapData.surface_proxy Sample.proxy
    ∧ (gst_vaapi_video_memory_map Sample.provider 16 GST_MAP_READ
        (gst_vaapi_video_memory_map Sample.provider 16 GST_MAP_NOFLAGS
          (Sample.fresh GST_VAAPI_IMAGE_USAGE_FLAG_NATIVE_FORMATS)).2).2.mem.map_count = 2
    ∧ (gst_vaapi_video_memory_map Sample.provider 16 GST_MAP_READ
        (Sample.fresh GST_VAAPI_IMAGE_USAGE_FLAG_NATIVE_FORMATS)).2.mem.map_type
        = GST_VAAPI_VIDEO_MEMORY_MAP_TYPE_LINEAR
    ∧ (gst_vaapi_video_memory_map Sample.provider 16 GST_MAP_NOFLAGS
        (gst_vaapi_video_memory_map Sample.provider 16 GST_MAP_READ
          (Sample.fresh GST_VAAPI_IMAGE_USAGE_FLAG_NATIVE_FORMATS)).2).1
        = MapData.image_data Sample.image 4096
    ∧ (gst_vaapi_video_memory_map Sample.provider 16 GST_MAP_NOFLAGS
        (gst_vaapi_video_memory_map Sample.provider 16 GST_MAP_READ
          (Sample.fresh GST_VAAPI_IMAGE_USAGE_FLAG_NATIVE_FORMATS)).2).2.mem.map_count = 2 := by
  decide

/-- C2: a map request rejected as incompatible fails and leaves the whole state
as it was.  `gst_video_meta_map_vaapi_memory` called while the map type is
SURFACE or LINEAR returns `FALSE`, and `gst_vaapi_video_memory_map` called
while the map type is PLANAR returns `NULL`; in both cases the state after the
call (every field of the video memory, the pixel stores and the trace of
calls) is the state before it.  The state is any one in which the PLANAR type
is set only while a planar map is outstanding, which holds of a new memory
and is kept by every map, unmap and sync (`planar_outstanding_new`,
`planar_outstanding_meta_map`, `planar_outstanding_memory_map`,
`planar_outstanding_meta_unmap`, `planar_outstanding_unmap_full`,
`planar_outstanding_sync`). -/
theorem C2_incompatible_map_leaves_state (p : Provider) (plane maxsize : Nat)
    (flags : GstMapFlags) (s : State) (hinv : PlanarOutstanding s) :
    ((s.mem.map_type = GST_VAAPI_VIDEO_MEMORY_MAP_TYPE_SURFACE
        ∨ s.mem.map_type = GST_VAAPI_VIDEO_MEMORY_MAP_TYPE_LINEAR) →
      (gst_video_meta_map_vaapi_memory p plane flags s).1.ret = false
      ∧ (gst_video_meta_map_vaapi_memory p plane flags s).2 = s)
    ∧ (s.mem.map_type = GST_VAAPI_VIDEO_MEMORY_MAP_TYPE_PLANAR →
      gst_vaapi_video_memory_map p maxsize flags s = (MapData.null, s)) := by
  refine ⟨?_, ?_⟩
  · intro h
    unfold gst_video_meta_map_vaapi_memory
    rcases h with h | h <;> simp [h]
  · intro h
    have hc : s.mem.map_count ≠ 0 := by
      have := hinv h
      omega
    unfold gst_vaapi_video_memory_map
    simp [h, hc]

/-- C2, at concrete inputs: a PLANAR request on the sample memory with a
SURFACE map outstanding, and a no-flag request with a PLANAR map outstanding. -/
theorem C2_incompatible_map_leaves_state_witness :
    ((gst_video_meta_map_vaapi_memory Sample.provider 0 GST_MAP_READ
        (gst_vaapi_video_memory_map Sample.provider 16 GST_MAP_NOFLAGS
          (Sample.fresh GST_VAAPI_IMAGE_USAGE_FLAG_NATIVE_FORMATS)).2).1.ret = false
      ∧ (gst_video_meta_map_vaapi_memory Sample.provider 0 GST_MAP_READ
        (gst_vaapi_video_memory_map Sample.provider 16 GST_MAP_NOFLAGS
          (Sample.fresh GST_VAAPI_IMAGE_USAGE_FLAG_NATIVE_FORMATS)).2).2
        = (gst_vaapi_video_memory_map Sample.provider 16 GST_MAP_NOFLAGS
          (Sample.fresh GST_VAAPI_IMAGE_USAGE_FLAG_NATIVE_FORMATS)).2)
    ∧ gst_vaapi_video_memory_map Sample.provider 16 GST_MAP_NOFLAGS
        (gst_video_meta_map_vaapi_memory Sample.provider 0 GST_MAP_READ
          (Sample.fresh GST_VAAPI_IMAGE_USAGE_FLAG_NATIVE_FORMATS)).2
      = (MapData.null, (gst_video_meta_map_vaapi_memory Sample.provider 0 GST_MAP_READ
          (Sample.fresh GST_VAAPI_IMAGE_USAGE_FLAG_NATIVE_FORMATS)).2) :=
  ⟨(C2_incompatible_map_leaves_state Sample.provider 0 16 GST_MAP_READ
      (gst_vaapi_video_memory_map Sample.provider 16 GST_MAP_NOFLAGS
        (Sample.fresh GST_VAAPI_IMAGE_USAGE_FLAG_NATIVE_FORMATS)).2
      (fun h => absurd h (by decide))).1 (Or.inl (by decide)),
   (C2_incompatible_map_leaves_state Sample.provider 0 16 GST_MAP_NOFLAGS
      (gst_video_meta_map_vaapi_memory Sample.provider 0 GST_MAP_READ
        (Sample.fresh GST_VAAPI_IMAGE_USAGE_FLAG_NATIVE_FORMATS)).2
      (fun _ => by decide)).2 (by decide)⟩

/-- C5, as the claim states it, fails: under DIRECT_RENDER, after a write map
and its unmap the surface-is-current flag is clear, `gst_vaapi_video_memory_sync`
returns `TRUE`, and the flag is still clear on return. -/
theorem C5_sync_direct_counterexample :
    (gst_video_meta_unmap_vaapi_memory 0 GST_MAP_WRITE
      (gst_video_meta_map_vaapi_memory Sample.provider 0 GST_MAP_WRITE
        (Sample.fresh GST_VAAPI_IMAGE_USAGE_FLAG_DIRECT_RENDER)).2).2.mem.surface_is_current = false
    ∧ (gst_vaapi_video_memory_sync Sample.provider
      (gst_video_meta_unmap_vaapi_memory 0 GST_MAP_WRITE
        (gst_video_meta_map_vaapi_memory Sample.provider 0 GST_MAP_WRITE
          (Sample.fresh GST_VAAPI_IMAGE_USAGE_FLAG_DIRECT_RENDER)).2).2).1 = true
    ∧ (gst_vaapi_video_memory_sync Sample.provider
      (gst_video_meta_unmap_vaapi_memory 0 GST_MAP_WRITE
        (gst_video_meta_map_vaapi_memory Sample.provider 0 GST_MAP_WRITE
          (Sample.fresh GST_VAAPI_IMAGE_USAGE_FLAG_DIRECT_RENDER)).2).2).2.mem.surface_is_current
      = false := by
  decide

/-- C5, amended: whatever the strategy, `gst_vaapi_video_memory_sync` returns
`TRUE` and changes nothing when surface-is-current is set on entry.  Under
NATIVE_FORMATS, when it returns `TRUE` the flag is set on return, and the
calls it makes are exactly one `gst_vaapi_surface_put_image` when
surface-is-current was clear and image-is-current set on entry, and none
otherwise.  Under a direct strategy it returns `TRUE` and changes nothing, the
flag included. -/
theorem C5_sync_native (p : Provider) (s : State) :
    (s.mem.surface_is_current = true → gst_vaapi_video_memory_sync p s = (true, s))
    ∧ (s.mem.usage_flag = GST_VAAPI_IMAGE_USAGE_FLAG_NATIVE_FORMATS →
        ((gst_vaapi_video_memory_sync p s).1 = true →
          (gst_vaapi_video_memory_sync p s).2.mem.surface_is_current = true)
        ∧ (gst_vaapi_video_memory_sync p s).2.trace = s.trace ++
            (if s.mem.surface_is_current = false ∧ s.mem.image_is_current = true then
              [Call.surface_put_image (surface_id s.mem.surface) (image_id s.mem.image)]
            else []))
    ∧ (s.mem.usage_flag ≠ GST_VAAPI_IMAGE_USAGE_FLAG_NATIVE_FORMATS →
        gst_vaapi_video_memory_sync p s = (true, s)) := by
  refine ⟨?_, ?_, ?_⟩
  · intro h
    simp [gst_vaapi_video_memory_sync, ensure_surface_is_current, h]
  · intro h
    cases hs : s.mem.surface_is_current <;> cases hi : s.mem.image_is_current <;>
      cases hp : p.surface_put_image s.mem.surface s.mem.image <;>
      simp [gst_vaapi_video_memory_sync, ensure_surface_is_current, use_native_formats, h, hs, hi,
        gst_vaapi_surface_put_image, hp]
  · intro h
    simp [gst_vaapi_video_memory_sync, ensure_surface_is_current, use_native_formats, h]

/-- C5 (amended), at a concrete input: the sample memory under NATIVE_FORMATS
after a write map and its unmap, where surface-is-current is clear and
image-is-current is set; the sync makes exactly the one put-image call. -/
theorem C5_sync_native_witness :
    (gst_video_meta_unmap_vaapi_memory 0 GST_MAP_WRITE
      (gst_video_meta_map_vaapi_memory Sample.provider 0 GST_MAP_WRITE
        (Sample.fresh GST_VAAPI_IMAGE_USAGE_FLAG_NATIVE_FORMATS)).2).2.mem.usage_flag
      = GST_VAAPI_IMAGE_USAGE_FLAG_NATIVE_FORMATS
    ∧ (gst_vaapi_video_memory_sync Sample.provider
      (gst_video_meta_unmap_vaapi_memory 0 GST_MAP_WRITE
        (gst_video_meta_map_vaapi_memory Sample.provider 0 GST_MAP_WRITE
          (Sample.fresh GST_VAAPI_IMAGE_USAGE_FLAG_NATIVE_FORMATS)).2).2).2.trace
      = [Call.surface_proxy_ref 5, Call.video_pool_get_object 7, Call.image_map (some 7),
          Call.image_unmap (some 7), Call.surface_put_image (some 3) (some 7)] :=
  ⟨by decide,
   ((C5_sync_native Sample.provider
      (gst_video_meta_unmap_vaapi_memory 0 GST_MAP_WRITE
        (gst_video_meta_map_vaapi_memory Sample.provider 0 GST_MAP_WRITE
          (Sample.fresh GST_VAAPI_IMAGE_USAGE_FLAG_NATIVE_FORMATS)).2).2).2.1 (by decide)).2.trans
      (by decide)⟩

/-- C6: sync is idempotent.  When a first `gst_vaapi_video_memory_sync`
returns `TRUE`, a second one made right after it (whatever the provider would
answer) returns `TRUE` and leaves the state, trace of calls included, exactly
as the first left it; so the two calls together make at most one put-image
call. -/
theorem C6_sync_idempotent (p1 p2 : Provider) (s : State)
    (h : (gst_vaapi_video_memory_sync p1 s).1 = true) :
    gst_vaapi_video_memory_sync p2 (gst_vaapi_video_memory_sync p1 s).2
      = (true, (gst_vaapi_video_memory_sync p1 s).2)
    ∧ (gst_vaapi_video_memory_sync p2 (gst_vaapi_video_memory_sync p1 s).2).2.trace.countP is_push
      ≤ s.trace.countP is_push + 1 := by
  revert h
  cases hu : s.mem.usage_flag <;> cases hs : s.mem.surface_is_current <;>
    cases hi : s.mem.image_is_current <;>
    cases hp : p1.surface_put_image s.mem.surface s.mem.image <;>
    simp [gst_vaapi_video_memory_sync, ensure_surface_is_current, use_native_formats, hu, hs, hi,
      gst_vaapi_surface_put_image, hp, is_push]

/-- C6, at a concrete input: two syncs of the sample memory after a write map
and its unmap under NATIVE_FORMATS, where the first sync pushes the image. -/
theorem C6_sync_idempotent_witness :
    (gst_vaapi_video_memory_sync Sample.provider
      (gst_video_meta_unmap_vaapi_memory 0 GST_MAP_WRITE
        (gst_video_meta_map_vaapi_memory Sample.provider 0 GST_MAP_WRITE
          (Sample.fresh GST_VAAPI_IMAGE_USAGE_FLAG_NATIVE_FORMATS)).2).2).1 = true
    ∧ gst_vaapi_video_memory_sync Sample.provider
        (gst_vaapi_video_memory_sync Sample.provider
          (gst_video_meta_unmap_vaapi_memory 0 GST_MAP_WRITE
            (gst_video_meta_map_vaapi_memory Sample.provider 0 GST_MAP_WRITE
              (Sample.fresh GST_VAAPI_IMAGE_USAGE_FLAG_NATIVE_FORMATS)).2).2).2
      = (true, (gst_vaapi_video_memory_sync Sample.provider
          (gst_video_meta_unmap_vaapi_memory 0 GST_MAP_WRITE
            (gst_video_meta_map_vaapi_memory Sample.provider 0 GST_MAP_WRITE
              (Sample.fresh GST_VAAPI_IMAGE_USAGE_FLAG_NATIVE_FORMATS)).2).2).2) :=
  ⟨by decide,
   (C6_sync_idempotent Sample.provider Sample.provider
      (gst_video_meta_unmap_vaapi_memory 0 GST_MAP_WRITE
        (gst_video_meta_map_vaapi_memory Sample.provider 0 GST_MAP_WRITE
          (Sample.fresh GST_VAAPI_IMAGE_USAGE_FLAG_NATIVE_FORMATS)).2).2 (by decide)).1⟩

/-- C8, as the claim states it, fails: the scratch surface is created, an image
of the requested format 23 is derived from it and mapped, but its second plane
lies outside the image data, so `gst_video_info_update_from_image` returns
`FALSE` and the strategy chosen for a DIRECT_RENDER request (and for a
DIRECT_UPLOAD request) is NATIVE_FORMATS. -/
theorem C8_direct_needs_update_counterexample :
    (new_surface Sample.provider_disjoint Sample.info2
        GST_VAAPI_IMAGE_USAGE_FLAG_DIRECT_RENDER).isSome = true
    ∧ Sample.provider_disjoint.surface_derive_image
        (new_surface Sample.provider_disjoint Sample.info2
          GST_VAAPI_IMAGE_USAGE_FLAG_DIRECT_RENDER) = some Sample.image2
    ∧ Sample.provider_disjoint.image_map (some Sample.image2) = true
    ∧ Sample.image2.format = Sample.info2.format
    ∧ Sample.info2.format ≠ GST_VIDEO_FORMAT_ENCODED
    ∧ (allocator_configure_surface_info Sample.provider_disjoint
        { GstVaapiVideoAllocator.zero with video_info := Sample.info2 }
        GST_VAAPI_IMAGE_USAGE_FLAG_DIRECT_RENDER).usage_flag
        = GST_VAAPI_IMAGE_USAGE_FLAG_NATIVE_FORMATS
    ∧ (allocator_configure_surface_info Sample.provider_disjoint
        { GstVaapiVideoAllocator.zero with video_info := Sample.info2 }
        GST_VAAPI_IMAGE_USAGE_FLAG_DIRECT_UPLOAD).usage_flag
        = GST_VAAPI_IMAGE_USAGE_FLAG_NATIVE_FORMATS := by
  decide

/-- C8, amended: for a non-encoded requested format and a request for
DIRECT_RENDER or DIRECT_UPLOAD, if the scratch surface is created, an image is
derived from it and mapped, `gst_video_info_update_from_image` returns `TRUE`
for that image, and the image's pixel format equals the requested format, then
the strategy chosen by `allocator_configure_surface_info` is the requested
one. -/
theorem C8_direct_strategy_chosen (d : Provider) (a : GstVaapiVideoAllocator)
    (req : GstVaapiImageUsageFlags) (surface : GstVaapiSurface) (image : GstVaapiImage)
    (hreq : req ≠ GST_VAAPI_IMAGE_USAGE_FLAG_NATIVE_FORMATS)
    (hfmt : a.video_info.format ≠ GST_VIDEO_FORMAT_ENCODED)
    (hsurface : new_surface d a.video_info req = some surface)
    (hderive : d.surface_derive_image (some surface) = some image)
    (hmap : d.image_map (some image) = true)
    (hupdate : (gst_video_info_update_from_image d
        (d.video_info_set_format a.surface_info
          (d.video_format_get_best_native a.video_info.format)
          a.video_info.width a.video_info.height) image).1 = true)
    (hsame : image.format = a.video_info.format) :
    (allocator_configure_surface_info d a req).usage_flag = req := by
  cases req <;>
    simp_all [allocator_configure_surface_info, use_native_formats, use_direct_rendering,
      use_direct_uploading]

/-- C8 (amended), at a concrete input: the sample provider, whose derived
one-plane image lies within its data, for a DIRECT_UPLOAD request. -/
theorem C8_direct_strategy_chosen_witness :
    (allocator_configure_surface_info Sample.provider
      { GstVaapiVideoAllocator.zero with video_info := Sample.info }
      GST_VAAPI_IMAGE_USAGE_FLAG_DIRECT_UPLOAD).usage_flag
      = GST_VAAPI_IMAGE_USAGE_FLAG_DIRECT_UPLOAD :=
  C8_direct_strategy_chosen Sample.provider
    { GstVaapiVideoAllocator.zero with video_info := Sample.info }
    GST_VAAPI_IMAGE_USAGE_FLAG_DIRECT_UPLOAD { id := 3, format := 2 } Sample.image
    (by decide) (by decide) (by decide) (by decide) (by decide) (by decide) (by decide)

/-- C9: the strategy chosen by `allocator_configure_surface_info` is
NATIVE_FORMATS or the requested strategy, never the other direct strategy; and
it is NATIVE_FORMATS whenever the request is NATIVE_FORMATS, the requested
format is the encoded sentinel, the derive from the scratch surface fails, the
map of the derived image fails, or the derived image's format differs from
the requested one. -/
theorem C9_strategy_native_or_requested (d : Provider) (a : GstVaapiVideoAllocator)
    (req : GstVaapiImageUsageFlags) :
    ((allocator_configure_surface_info d a req).usage_flag
        = GST_VAAPI_IMAGE_USAGE_FLAG_NATIVE_FORMATS
      ∨ (allocator_configure_surface_info d a req).usage_flag = req)
    ∧ (req = GST_VAAPI_IMAGE_USAGE_FLAG_DIRECT_RENDER →
        (allocator_configure_surface_info d a req).usage_flag
          ≠ GST_VAAPI_IMAGE_USAGE_FLAG_DIRECT_UPLOAD)
    ∧ (req = GST_VAAPI_IMAGE_USAGE_FLAG_DIRECT_UPLOAD →
        (allocator_configure_surface_info d a req).usage_flag
          ≠ GST_VAAPI_IMAGE_USAGE_FLAG_DIRECT_RENDER)
    ∧ (req = GST_VAAPI_IMAGE_USAGE_FLAG_NATIVE_FORMATS →
        (allocator_configure_surface_info d a req).usage_flag
          = GST_VAAPI_IMAGE_USAGE_FLAG_NATIVE_FORMATS)
    ∧ (a.video_info.format = GST_VIDEO_FORMAT_ENCODED →
        (allocator_configure_surface_info d a req).usage_flag
          = GST_VAAPI_IMAGE_USAGE_FLAG_NATIVE_FORMATS)
    ∧ (∀ surface, new_surface d a.video_info req = some surface →
        d.surface_derive_image (some surface) = none →
        (allocator_configure_surface_info d a req).usage_flag
          = GST_VAAPI_IMAGE_USAGE_FLAG_NATIVE_FORMATS)
    ∧ (∀ surface image, new_surface d a.video_info req = some surface →
        d.surface_derive_image (some surface) = some image →
        d.image_map (some image) = false →
        (allocator_configure_surface_info d a req).usage_flag
          = GST_VAAPI_IMAGE_USAGE_FLAG_NATIVE_FORMATS)
    ∧ (∀ surface image, new_surface d a.video_info req = some surface →
        d.surface_derive_image (some surface) = some image →
        image.format ≠ a.video_info.format →
        (allocator_configure_surface_info d a req).usage_flag
          = GST_VAAPI_IMAGE_USAGE_FLAG_NATIVE_FORMATS) := by
  have key : (allocator_configure_surface_info d a req).usage_flag
        = GST_VAAPI_IMAGE_USAGE_FLAG_NATIVE_FORMATS
      ∨ (allocator_configure_surface_info d a req).usage_flag = req := by
    unfold allocator_configure_surface_info
    cases req <;> simp only [use_native_formats, use_direct_rendering, use_direct_uploading] <;>
      (repeat' split) <;> simp_all
  refine ⟨key, ?_, ?_, ?_, ?_, ?_, ?_, ?_⟩
  · intro h
    subst h
    rcases key with k | k <;> simp [k]
  · intro h
    subst h
    rcases key with k | k <;> simp [k]
  · intro h
    subst h
    rcases key with k | k <;> simp [k]
  · intro h
    simp [allocator_configure_surface_info, h]
  · intro surface hs hd
    unfold allocator_configure_surface_info
    simp only [hs, hd]
    split <;> rfl
  · intro surface image hs hd hm
    unfold allocator_configure_surface_info
    simp only [hs, hd, hm]
    split <;> rfl
  · intro surface image hs hd hf
    unfold allocator_configure_surface_info
    simp only [hs, hd]
    split
    · rfl
    · split
      · rfl
      · simp [hf]

/-- C10, as the claim states it, fails: for a DIRECT_RENDER request with the
non-encoded format 2, on a provider that creates no scratch surface (neither
with the explicit format nor by chroma type) but creates both pools,
`gst_vaapi_video_allocator_new` returns an allocator, whose strategy is
NATIVE_FORMATS. -/
theorem C10_allocator_despite_no_surface_counterexample :
    new_surface Sample.provider_no_surface Sample.info
        GST_VAAPI_IMAGE_USAGE_FLAG_DIRECT_RENDER = none
    ∧ Sample.info.format ≠ GST_VIDEO_FORMAT_ENCODED
    ∧ (gst_vaapi_video_allocator_new Sample.provider_no_surface Sample.info 0
        GST_VAAPI_IMAGE_USAGE_FLAG_DIRECT_RENDER).isSome = true
    ∧ (gst_vaapi_video_allocator_new Sample.provider_no_surface Sample.info 0
        GST_VAAPI_IMAGE_USAGE_FLAG_DIRECT_RENDER).map (fun al => al.usage_flag)
        = some GST_VAAPI_IMAGE_USAGE_FLAG_NATIVE_FORMATS := by
  decide

/-- C10, amended: for every request, hence for a direct-strategy request with a
non-encoded format, if the scratch surface cannot be created,
`allocator_configure_surface_info` leaves the strategy NATIVE_FORMATS, and
`gst_vaapi_video_allocator_new` returns an allocator exactly when the
allocator object, the surface pool and the image pool are all created; the
allocator it returns has strategy NATIVE_FORMATS. -/
theorem C10_no_surface_falls_back (d : Provider) (vip : GstVideoInfo)
    (surface_alloc_flags : Nat) (req : GstVaapiImageUsageFlags)
    (hsurface : new_surface d vip req = none) :
    (allocator_configure_surface_info d
        { GstVaapiVideoAllocator.zero with video_info := vip } req).usage_flag
      = GST_VAAPI_IMAGE_USAGE_FLAG_NATIVE_FORMATS
    ∧ ((gst_vaapi_video_allocator_new d vip surface_alloc_flags req).isSome = true ↔
        d.object_new = true
        ∧ ∃ surface_pool,
          d.surface_pool_new_full
            (allocator_configure_surface_info d
              { GstVaapiVideoAllocator.zero with video_info := vip } req).surface_info
            surface_alloc_flags = some surface_pool
          ∧ (d.image_pool_new
              (allocator_configure_image_info d
                { allocator_configure_surface_info d
                    { GstVaapiVideoAllocator.zero with video_info := vip } req with
                  surface_pool := some surface_pool }).image_info).isSome = true)
    ∧ (∀ al, gst_vaapi_video_allocator_new d vip surface_alloc_flags req = some al →
        al.usage_flag = GST_VAAPI_IMAGE_USAGE_FLAG_NATIVE_FORMATS) := by
  have hflag : (allocator_configure_surface_info d
        { GstVaapiVideoAllocator.zero with video_info := vip } req).usage_flag
      = GST_VAAPI_IMAGE_USAGE_FLAG_NATIVE_FORMATS := by
    unfold allocator_configure_surface_info
    simp only [hsurface]
    split <;> rfl
  have himg : ∀ a : GstVaapiVideoAllocator,
      a.usage_flag = GST_VAAPI_IMAGE_USAGE_FLAG_NATIVE_FORMATS →
      (allocator_configure_image_info d a).usage_flag
        = GST_VAAPI_IMAGE_USAGE_FLAG_NATIVE_FORMATS := by
    intro a ha
    unfold allocator_configure_image_info
    simp only [ha, use_native_formats]
    simp only [beq_self_eq_true, Bool.not_true, Bool.false_eq_true, if_false]
    split
    · rfl
    · split <;> rfl
  refine ⟨hflag, ?_, ?_⟩
  · unfold gst_vaapi_video_allocator_new
    cases ho : d.object_new
    · simp
    · simp only [Bool.not_true, Bool.false_eq_true, if_false, true_and]
      cases hp : d.surface_pool_new_full
          (allocator_configure_surface_info d
            { GstVaapiVideoAllocator.zero with video_info := vip } req).surface_info
          surface_alloc_flags with
      | none => simp
      | some sp =>
        simp only [Option.some.injEq, exists_eq_left']
        split <;> simp_all
  · intro al hal
    unfold gst_vaapi_video_allocator_new at hal
    cases ho : d.object_new
    · simp [ho] at hal
    · simp only [ho, Bool.not_true, Bool.false_eq_true, if_false] at hal
      split at hal
      · exact absurd hal (by simp)
      · split at hal
        · exact absurd hal (by simp)
        · have h2 := Option.some.inj hal
          rw [← h2]
          exact himg _ hflag

/-- C10 (amended), at a concrete input: the provider that creates no surface
and both pools, for a DIRECT_RENDER request of format 2. -/
theorem C10_no_surface_falls_back_witness :
    (allocator_configure_surface_info Sample.provider_no_surface
        { GstVaapiVideoAllocator.zero with video_info := Sample.info }
        GST_VAAPI_IMAGE_USAGE_FLAG_DIRECT_RENDER).usage_flag
      = GST_VAAPI_IMAGE_USAGE_FLAG_NATIVE_FORMATS :=
  (C10_no_surface_falls_back Sample.provider_no_surface Sample.info 0
    GST_VAAPI_IMAGE_USAGE_FLAG_DIRECT_RENDER (by decide)).1

/-- C7, as the claim states it, fails: for a video memory of maximum size
`S = 2 ^ 63`, the request `offset = 0`, `size = - 2 ^ 63` has a size different
from `-1` and from `S`, yet `(gsize) size` equals `S` and
`gst_vaapi_video_memory_copy` returns a new memory. -/
theorem C7_copy_size_cast_counterexample :
    Sample.fresh_huge.mem.maxsize = 2 ^ 63
    ∧ (-(2 ^ 63) : Int) ≠ -1
    ∧ (-(2 ^ 63) : Int) ≠ ((Sample.fresh_huge.mem.maxsize : Nat) : Int)
    ∧ (gst_vaapi_video_memory_copy Sample.provider 0 (-(2 ^ 63)) Sample.fresh_huge).1.isSome
        = true := by
  decide

/-- C7, amended: the size is compared with the maximum size `S` after its
conversion to `gsize`.  `gst_vaapi_video_memory_copy` with `offset != 0`, or
with a size different from `-1` whose `gsize` value differs from `S`, returns
`NULL` and leaves the state as it was (no sync, no call made).  With
`offset = 0` and a size that is `-1` or has `gsize` value `S`, it returns
`NULL` if the sync fails or the metadata copy fails, and if both succeed it
returns the memory that `gst_vaapi_video_memory_new` builds for the same
allocator on the copied metadata, whose proxy holds the surface of the source's
proxy; the source is left as the sync left it.  For `S < 2 ^ 63` and a size in
the range of `gssize`, the `gsize` value of the size equals `S` exactly when
the size equals `S`. -/
theorem C7_copy_full_buffer_only (p : Provider) (offset size : Int) (s : State) :
    ((offset ≠ 0 ∨ (size ≠ -1 ∧ to_gsize size ≠ s.mem.maxsize)) →
      gst_vaapi_video_memory_copy p offset size s = (none, s))
    ∧ (offset = 0 → (size = -1 ∨ to_gsize size = s.mem.maxsize) →
        ((gst_vaapi_video_memory_sync p s).1 = false →
          (gst_vaapi_video_memory_copy p offset size s).1 = none)
        ∧ (∀ m, s.mem.meta = some m → gst_vaapi_video_meta_copy p m = none →
          (gst_vaapi_video_memory_copy p offset size s).1 = none)
        ∧ (∀ m c, s.mem.meta = some m → (gst_vaapi_video_memory_sync p s).1 = true →
          gst_vaapi_video_meta_copy p m = some c →
          (gst_vaapi_video_memory_copy p offset size s).1
              = some (gst_vaapi_video_memory_new s.mem.allocator (some c))
            ∧ c.proxy.map (fun x => x.surface) = m.proxy.map (fun x => x.surface)
            ∧ (gst_vaapi_video_memory_copy p offset size s).2.mem
              = (gst_vaapi_video_memory_sync p s).2.mem))
    ∧ (s.mem.maxsize < 2 ^ 63 → -(2 ^ 63) ≤ size → size < 2 ^ 63 →
        (to_gsize size = s.mem.maxsize ↔ size = (s.mem.maxsize : Int))) := by
  refine ⟨?_, ?_, ?_⟩
  · intro h
    unfold gst_vaapi_video_memory_copy
    cases hm : s.mem.meta with
    | none => rfl
    | some m =>
      have : (offset != 0 || (size != -1 && to_gsize size != s.mem.maxsize)) = true := by
        rcases h with h | ⟨h1, h2⟩
        · simp [h]
        · simp [h1, h2]
      simp [this]
  · intro ho hsz
    have hacc : (offset != 0 || (size != -1 && to_gsize size != s.mem.maxsize)) = false := by
      rcases hsz with h | h
      · simp [ho, h]
      · simp [ho, h]
    refine ⟨?_, ?_, ?_⟩
    · intro hsync
      unfold gst_vaapi_video_memory_copy
      unfold gst_vaapi_video_memory_sync at hsync
      cases hm : s.mem.meta with
      | none => rfl
      | some m => simp [hacc, hsync]
    · intro m hm hc
      unfold gst_vaapi_video_memory_copy
      simp only [hm, hacc, hc]
      cases (ensure_surface_is_current p s).1 <;> simp
    · intro m c hm hsync hc
      unfold gst_vaapi_video_memory_sync at hsync
      refine ⟨?_, ?_, ?_⟩
      · unfold gst_vaapi_video_memory_copy
        simp [hm, hacc, hsync, hc]
      · unfold gst_vaapi_video_meta_copy at hc
        split at hc
        · exact absurd hc (by simp)
        · have hc2 := Option.some.inj hc
          rw [← hc2]
          cases m.proxy <;> rfl
      · unfold gst_vaapi_video_memory_copy gst_vaapi_video_memory_sync
        simp [hm, hacc, hsync, hc]
  · intro hS hlo hhi
    unfold to_gsize GSIZE_BITS
    constructor
    · intro h
      omega
    · intro h
      omega

/-- C7 (amended), at concrete inputs: a copy of the sample memory (maximum
size 16) with `offset = 0` and `size = 8` is refused and changes nothing. -/
theorem C7_copy_full_buffer_only_witness :
    gst_vaapi_video_memory_copy Sample.provider 0 8
        (Sample.fresh GST_VAAPI_IMAGE_USAGE_FLAG_NATIVE_FORMATS)
      = (none, Sample.fresh GST_VAAPI_IMAGE_USAGE_FLAG_NATIVE_FORMATS) :=
  (C7_copy_full_buffer_only Sample.provider 0 8
    (Sample.fresh GST_VAAPI_IMAGE_USAGE_FLAG_NATIVE_FORMATS)).1 (Or.inr (by decide))

/-! ### Frame lemmas: what the helpers leave alone -/

theorem SameMapState.refl (s : State) : SameMapState s s := ⟨rfl, rfl, rfl⟩

theorem SameMapState.trans {s t u : State} (h1 : SameMapState s t) (h2 : SameMapState t u) :
    SameMapState s u :=
  ⟨h2.1.trans h1.1, h2.2.1.trans h1.2.1, h2.2.2.trans h1.2.2⟩

theorem isSome_meta_set_image (m : Option GstVaapiVideoMeta) (i : Option GstVaapiImage) :
    (gst_vaapi_video_meta_set_image m i).isSome = m.isSome := by
  cases m <;> rfl

theorem isSome_meta_set_surface_proxy (m : Option GstVaapiVideoMeta)
    (x : Option GstVaapiSurfaceProxy) :
    (gst_vaapi_video_meta_set_surface_proxy m x).isSome = m.isSome := by
  cases m <;> rfl

theorem surface_proxy_replace_frame (n : Option GstVaapiSurfaceProxy) (s : State) :
    SameMapState s (surface_proxy_replace n s) := by
  unfold surface_proxy_replace
  split
  · exact SameMapState.refl s
  · cases n <;> cases s.mem.proxy <;> exact ⟨rfl, rfl, rfl⟩

theorem surface_proxy_replace_proxy (n : Option GstVaapiSurfaceProxy) (s : State) :
    (surface_proxy_replace n s).mem.proxy = n := by
  unfold surface_proxy_replace
  split
  · assumption
  · cases n <;> cases s.mem.proxy <;> rfl

theorem object_replace_image_null_frame (s : State) :
    SameMapState s (object_replace_image_null s) := by
  unfold object_replace_image_null
  split
  · exact SameMapState.refl s
  · exact ⟨rfl, rfl, rfl⟩

theorem ensure_surface_proxy_frame (p : Provider) (s : State) :
    SameMapState s (ensure_surface_proxy p s).2 := by
  have h := surface_proxy_replace_frame (gst_vaapi_video_meta_get_surface_proxy s.mem.meta) s
  unfold ensure_surface_proxy
  split
  · exact SameMapState.refl s
  · dsimp only
    split
    · exact h
    · split
      · exact h
      · refine ⟨h.1, h.2.1, ?_⟩
        simp only [setMem_mem, log_mem]
        rw [isSome_meta_set_surface_proxy]
        exact h.2.2

theorem ensure_surface_frame (p : Provider) (s : State) :
    SameMapState s (ensure_surface p s).2 := by
  have h := ensure_surface_proxy_frame p s
  unfold ensure_surface
  dsimp only
  cases (ensure_surface_proxy p s).1 <;> exact h

theorem ensure_surface_some (p : Provider) (s : State) (h : (ensure_surface p s).1 = true) :
    (ensure_surface p s).2.mem.surface.isSome = true := by
  unfold ensure_surface at h ⊢
  dsimp only at h ⊢
  cases h1 : (ensure_surface_proxy p s).1
  · simp [h1] at h
  · simpa [h1] using h

theorem ensure_image_derive_frame (p : Provider) (s : State) :
    SameMapState s (ensure_image_derive p s) ∧ (ensure_image_derive p s).mem.surface = s.mem.surface := by
  unfold ensure_image_derive
  split
  · dsimp only
    split
    · exact ⟨⟨rfl, rfl, rfl⟩, rfl⟩
    · split
      · have h := object_replace_image_null_frame
          ((s.log (Call.surface_derive_image (surface_id s.mem.surface)
            (image_id (p.surface_derive_image s.mem.surface)))).setMem
            { s.mem with image := p.surface_derive_image s.mem.surface })
        refine ⟨⟨h.1, h.2.1, h.2.2⟩, ?_⟩
        simp only [setMem_mem]
        unfold object_replace_image_null
        split <;> rfl
      · exact ⟨⟨rfl, rfl, rfl⟩, rfl⟩
  · exact ⟨SameMapState.refl s, rfl⟩

theorem ensure_image_frame (p : Provider) (s : State) :
    SameMapState s (ensure_image p s).2 ∧ (ensure_image p s).2.mem.surface = s.mem.surface
      ∧ ((ensure_image p s).1 = true → (ensure_image p s).2.mem.image.isSome = true) := by
  have h := ensure_image_derive_frame p s
  unfold ensure_image
  dsimp only
  split
  · rename_i im him
    refine ⟨⟨h.1.1, h.1.2.1, ?_⟩, h.2, ?_⟩
    · simp only [setMem_mem]
      rw [isSome_meta_set_image]
      exact h.1.2.2
    · intro _
      simp only [setMem_mem, him, Option.isSome_some]
  · split
    · exact ⟨h.1, h.2, fun hc => absurd hc (by simp)⟩
    · refine ⟨⟨h.1.1, h.1.2.1, ?_⟩, h.2, ?_⟩
      · simp only [setMem_mem, log_mem]
        rw [isSome_meta_set_image]
        exact h.1.2.2
      · intro _
        simp only [setMem_mem, Option.isSome_some]

theorem ensure_image_is_current_frame (p : Provider) (s : State) :
    SameMapState s (ensure_image_is_current p s).2
      ∧ (ensure_image_is_current p s).2.mem.surface = s.mem.surface
      ∧ (ensure_image_is_current p s).2.mem.image = s.mem.image := by
  unfold ensure_image_is_current gst_vaapi_surface_get_image
  split
  · exact ⟨SameMapState.refl s, rfl, rfl⟩
  · split
    · dsimp only
      cases p.surface_get_image s.mem.surface s.mem.image <;>
        simp [SameMapState]
    · exact ⟨SameMapState.refl s, rfl, rfl⟩

theorem ensure_surface_is_current_frame (p : Provider) (s : State) :
    SameMapState s (ensure_surface_is_current p s).2
      ∧ (ensure_surface_is_current p s).2.mem.proxy = s.mem.proxy
      ∧ (ensure_surface_is_current p s).2.mem.image = s.mem.image := by
  unfold ensure_surface_is_current gst_vaapi_surface_put_image
  split
  · exact ⟨SameMapState.refl s, rfl, rfl⟩
  · split
    · split
      · dsimp only
        cases p.surface_put_image s.mem.surface s.mem.image <;>
          simp [SameMapState]
      · exact ⟨⟨rfl, rfl, rfl⟩, rfl, rfl⟩
    · exact ⟨SameMapState.refl s, rfl, rfl⟩

theorem map_vaapi_memory_frame (p : Provider) (flags : GstMapFlags) (s : State) :
    SameMapState s (map_vaapi_memory p flags s).2
      ∧ ((map_vaapi_memory p flags s).1 = true →
          (map_vaapi_memory p flags s).2.mem.surface.isSome = true
          ∧ (map_vaapi_memory p flags s).2.mem.image.isSome = true) := by
  have h1 := ensure_surface_frame p s
  have h1s := ensure_surface_some p s
  have h2 := ensure_image_frame p (ensure_surface p s).2
  have h3 := ensure_image_is_current_frame p (ensure_image p (ensure_surface p s).2).2
  unfold map_vaapi_memory
  dsimp only
  cases e1 : (ensure_surface p s).1
  · simp only [Bool.not_false, if_true]
    exact ⟨h1, fun hc => absurd hc (by simp)⟩
  · simp only [Bool.not_true, Bool.false_eq_true, if_false]
    cases e2 : (ensure_image p (ensure_surface p s).2).1
    · simp only [Bool.not_false, if_true]
      exact ⟨h1.trans h2.1, fun hc => absurd hc (by simp)⟩
    · simp only [Bool.not_true, Bool.false_eq_true, if_false]
      have hs : (ensure_image p (ensure_surface p s).2).2.mem.surface.isSome = true := by
        rw [h2.2.1]; exact h1s e1
      have hi := h2.2.2 e2
      cases hr : flags.read
      · simp only [Bool.false_eq_true, if_false, Bool.not_true]
        cases p.image_map (ensure_image p (ensure_surface p s).2).2.mem.image
        · simp only [Bool.not_false, if_true]
          exact ⟨h1.trans h2.1, fun hc => absurd hc (by simp)⟩
        · simp only [Bool.not_true, Bool.false_eq_true, if_false]
          split
          · exact ⟨h1.trans h2.1, fun _ => ⟨hs, hi⟩⟩
          · exact ⟨h1.trans h2.1, fun _ => ⟨hs, hi⟩⟩
      · simp only [if_true]
        cases e3 : (ensure_image_is_current p (ensure_image p (ensure_surface p s).2).2).1
        · simp only [Bool.not_false, if_true]
          exact ⟨(h1.trans h2.1).trans h3.1, fun hc => absurd hc (by simp)⟩
        · simp only [Bool.not_true, Bool.false_eq_true, if_false]
          have hs3 : (ensure_image_is_current p
              (ensure_image p (ensure_surface p s).2).2).2.mem.surface.isSome = true := by
            rw [h3.2.1]; exact hs
          have hi3 : (ensure_image_is_current p
              (ensure_image p (ensure_surface p s).2).2).2.mem.image.isSome = true := by
            rw [h3.2.2]; exact hi
          cases p.image_map
            (ensure_image_is_current p (ensure_image p (ensure_surface p s).2).2).2.mem.image
          · simp only [Bool.not_false, if_true]
            exact ⟨(h1.trans h2.1).trans h3.1, fun hc => absurd hc (by simp)⟩
          · simp only [Bool.not_true, Bool.false_eq_true, if_false]
            split
            · exact ⟨(h1.trans h2.1).trans h3.1, fun _ => ⟨hs3, hi3⟩⟩
            · exact ⟨(h1.trans h2.1).trans h3.1, fun _ => ⟨hs3, hi3⟩⟩

/-! ### Nested and first maps, nested and last unmaps -/

@[simp]
theorem withCount_withCount (s : State) (a b : Int) :
    (s.withCount a).withCount b = s.withCount b := rfl

theorem withCount_self (s : State) : s.withCount s.mem.map_count = s := rfl

@[simp]
theorem withCount_count (s : State) (a : Int) : (s.withCount a).mem.map_count = a := rfl

theorem memory_map_nested (p : Provider) (ms : Nat) (f : GstMapFlags) (s : State)
    (hc : s.mem.map_count ≠ 0)
    (hr : (gst_vaapi_video_memory_map p ms f s).1 ≠ MapData.null) :
    (gst_vaapi_video_memory_map p ms f s).2 = s.withCount (s.mem.map_count + 1) := by
  unfold gst_vaapi_video_memory_map at hr ⊢
  cases hm : s.mem.meta.isNone
  · simp only [hm, hc, Bool.false_eq_true, if_false, Bool.not_true] at hr ⊢
    split
    · split
      · simp_all
      · rfl
    · split
      · simp_all
      · rfl
    · cases ht : s.mem.map_type <;> simp_all
  · simp [hm] at hr

theorem memory_map_first_ok (p : Provider) (ms : Nat) (f : GstMapFlags) (s : State)
    (hc : s.mem.map_count = 0) (hw : f.write = false)
    (hr : (gst_vaapi_video_memory_map p ms f s).1 ≠ MapData.null) :
    (gst_vaapi_video_memory_map p ms f s).2.mem.map_count = 1
    ∧ (gst_vaapi_video_memory_map p ms f s).2.mem.map_type
        = (if f.read then GST_VAAPI_VIDEO_MEMORY_MAP_TYPE_LINEAR
            else GST_VAAPI_VIDEO_MEMORY_MAP_TYPE_SURFACE)
    ∧ (f.read = false → (gst_vaapi_video_memory_map p ms f s).2.mem.proxy.isSome = true) := by
  obtain ⟨r, w⟩ := f
  simp only at hw
  subst hw
  unfold gst_vaapi_video_memory_map at hr ⊢
  cases hm : s.mem.meta.isNone
  swap
  · simp [hm] at hr
  simp only [hm, hc, Bool.false_eq_true, if_false, if_true] at hr ⊢
  cases r
  · -- no flags: the SURFACE map
    have hf := surface_proxy_replace_frame (gst_vaapi_video_meta_get_surface_proxy s.mem.meta) s
    have hs := ensure_surface_is_current_frame p
      (surface_proxy_replace (gst_vaapi_video_meta_get_surface_proxy s.mem.meta) s)
    unfold gst_vaapi_video_memory_map_first at hr ⊢
    simp only at hr ⊢
    cases hp : (surface_proxy_replace
        (gst_vaapi_video_meta_get_surface_proxy s.mem.meta) s).mem.proxy with
    | none => simp [hp] at hr
    | some px =>
      simp only [hp, Option.isNone_some, Bool.false_eq_true, if_false] at hr ⊢
      cases he : (ensure_surface_is_current p
          (surface_proxy_replace (gst_vaapi_video_meta_get_surface_proxy s.mem.meta) s)).1
      · simp [he] at hr
      · simp only [he, Bool.not_true, Bool.false_eq_true, if_false, setMem_mem, hs.2.1, hp]
        refine ⟨?_, trivial, fun _ => rfl⟩
        rw [hs.1.1, hf.1, hc]
        rfl
  · -- GST_MAP_READ: the LINEAR map
    have hf := map_vaapi_memory_frame p ⟨true, false⟩ s
    unfold gst_vaapi_video_memory_map_first at hr ⊢
    simp only at hr ⊢
    cases he : (map_vaapi_memory p ⟨true, false⟩ s).1
    · simp [he] at hr
    · simp only [he, Bool.not_true, Bool.false_eq_true, if_false, setMem_mem] at hr ⊢
      cases hi : (map_vaapi_memory p ⟨true, false⟩ s).2.mem.image with
      | none => simp [hi] at hr
      | some im =>
        refine ⟨?_, ?_, ?_⟩
        · show (map_vaapi_memory p ⟨true, false⟩ s).2.mem.map_count + 1 = 1
          rw [hf.1.1, hc]
          rfl
        · rfl
        · intro h
          exact absurd h (by simp)

theorem meta_map_nested (p : Provider) (plane : Nat) (f : GstMapFlags) (s : State)
    (hc : s.mem.map_count ≠ 0)
    (hr : (gst_video_meta_map_vaapi_memory p plane f s).1.ret = true) :
    (gst_video_meta_map_vaapi_memory p plane f s).2 = s.withCount (s.mem.map_count + 1) := by
  unfold gst_video_meta_map_vaapi_memory at hr ⊢
  split
  · simp_all
  · split
    · simp_all
    · simp only [hc, if_false, Bool.not_true, Bool.false_eq_true, setMem_mem]
      split <;> rfl

theorem meta_map_first_ok (p : Provider) (plane : Nat) (f : GstMapFlags) (s : State)
    (hc : s.mem.map_count = 0)
    (hr : (gst_video_meta_map_vaapi_memory p plane f s).1.ret = true) :
    (gst_video_meta_map_vaapi_memory p plane f s).2.mem.map_count = 1
    ∧ (gst_video_meta_map_vaapi_memory p plane f s).2.mem.map_type
        = GST_VAAPI_VIDEO_MEMORY_MAP_TYPE_PLANAR
    ∧ (gst_video_meta_map_vaapi_memory p plane f s).2.mem.meta.isSome = true
    ∧ (gst_video_meta_map_vaapi_memory p plane f s).2.mem.surface.isSome = true
    ∧ (gst_video_meta_map_vaapi_memory p plane f s).2.mem.image.isSome = true := by
  have hf := map_vaapi_memory_frame p f s
  unfold gst_video_meta_map_vaapi_memory at hr ⊢
  cases hm : s.mem.meta.isNone
  swap
  · simp [hm] at hr
  simp only [hm, Bool.false_eq_true, if_false] at hr ⊢
  cases hb : (s.mem.map_type != MAP_TYPE_NONE
      && s.mem.map_type != GST_VAAPI_VIDEO_MEMORY_MAP_TYPE_PLANAR)
  swap
  · simp [hb] at hr
  · simp only [hb, hc, if_true, Bool.false_eq_true, if_false] at hr ⊢
    cases he : (map_vaapi_memory p f s).1
    · simp [he] at hr
    · simp only [he, Bool.not_true, Bool.false_eq_true, if_false, setMem_mem] at hr ⊢
      have hsi := hf.2 he
      have hmeta : (map_vaapi_memory p f s).2.mem.meta.isSome = true := by
        rw [hf.1.2.2]
        cases hmm : s.mem.meta with
        | none => simp [hmm] at hm
        | some m => rfl
      have hcount : (map_vaapi_memory p f s).2.mem.map_count + 1 = 1 := by
        rw [hf.1.1, hc]; rfl
      cases hi : (map_vaapi_memory p f s).2.mem.image with
      | none => simp [hi] at hsi
      | some im =>
        simp only [setMem_mem]
        refine ⟨hcount, ?_, hmeta, hsi.1, ?_⟩ <;> trivial

theorem reset_image_frame (s : State) :
    SameMapState s (gst_vaapi_video_memory_reset_image s)
    ∧ ∃ work, (gst_vaapi_video_memory_reset_image s).trace = s.trace ++ work
        ∧ work.countP is_release = 0 := by
  unfold gst_vaapi_video_memory_reset_image object_replace_image_null
  dsimp only
  split
  · split
    · exact ⟨⟨rfl, rfl, rfl⟩, [], by simp, rfl⟩
    · exact ⟨⟨rfl, rfl, rfl⟩, [Call.object_unref_image _], rfl, rfl⟩
  · split
    · exact ⟨⟨rfl, rfl, rfl⟩, [Call.video_pool_put_object _], rfl, rfl⟩
    · exact ⟨⟨rfl, rfl, rfl⟩, [], by simp, rfl⟩

theorem reset_image_after (s q : State) (c : Call) (hq : SameMapState s q)
    (hc : is_release c = true) (ht : q.trace = s.trace ++ [c]) :
    SameMapState s (gst_vaapi_video_memory_reset_image q)
    ∧ ∃ work, (gst_vaapi_video_memory_reset_image q).trace = s.trace ++ work
        ∧ work.countP is_release = 1 := by
  obtain ⟨h1, work, h2, h3⟩ := reset_image_frame q
  refine ⟨hq.trans h1, c :: work, ?_, ?_⟩
  · rw [h2, ht]
    simp
  · simp [List.countP_cons, h3, hc]

theorem unmap_vaapi_memory_frame (f : GstMapFlags) (s : State) :
    SameMapState s (unmap_vaapi_memory f s)
    ∧ ∃ work, (unmap_vaapi_memory f s).trace = s.trace ++ work
        ∧ work.countP is_release = 1 := by
  unfold unmap_vaapi_memory
  cases hw : f.write <;> cases hn : use_native_formats s.mem.usage_flag <;>
    simp only [Bool.false_eq_true, if_false, if_true, setMem_mem, log_mem, hn, Bool.not_false,
      Bool.not_true]
  · exact reset_image_after s _ (Call.image_unmap (image_id s.mem.image))
      ⟨rfl, rfl, by simp [isSome_meta_set_image]⟩ rfl rfl
  · exact ⟨⟨rfl, rfl, rfl⟩, [Call.image_unmap _], rfl, rfl⟩
  · exact reset_image_after s _ (Call.image_unmap (image_id s.mem.image))
      ⟨rfl, rfl, by simp [isSome_meta_set_image]⟩ rfl rfl
  · exact ⟨⟨rfl, rfl, rfl⟩, [Call.image_unmap _], rfl, rfl⟩

theorem memory_unmap_nested (f : GstMapFlags) (s : State) (hc : s.mem.map_count ≠ 1) :
    gst_vaapi_video_memory_unmap_full f s = s.withCount (s.mem.map_count - 1) := by
  unfold gst_vaapi_video_memory_unmap_full
  simp only [hc, if_false]
  rfl

theorem memory_unmap_last (f : GstMapFlags) (s : State) (hc : s.mem.map_count = 1)
    (ht : s.mem.map_type = GST_VAAPI_VIDEO_MEMORY_MAP_TYPE_LINEAR
      ∨ (s.mem.map_type = GST_VAAPI_VIDEO_MEMORY_MAP_TYPE_SURFACE ∧ s.mem.proxy.isSome = true)) :
    (gst_vaapi_video_memory_unmap_full f s).mem.map_count = 0
    ∧ (gst_vaapi_video_memory_unmap_full f s).mem.map_type = MAP_TYPE_NONE
    ∧ ∃ work, (gst_vaapi_video_memory_unmap_full f s).trace = s.trace ++ work
        ∧ work.countP is_release = 1 := by
  unfold gst_vaapi_video_memory_unmap_full
  rcases ht with ht | ⟨ht, hp⟩
  · obtain ⟨h1, work, h2, h3⟩ := unmap_vaapi_memory_frame f s
    simp only [hc, if_true, ht, setMem_mem, setMem_trace]
    refine ⟨?_, trivial, work, h2, h3⟩
    rw [h1.1, hc]
    rfl
  · have hf := surface_proxy_replace_frame none s
    simp only [hc, if_true, ht, setMem_mem, setMem_trace]
    refine ⟨?_, trivial, ?_⟩
    · rw [hf.1, hc]
      rfl
    · cases hpx : s.mem.proxy with
      | none => simp [hpx] at hp
      | some px =>
        refine ⟨[Call.surface_proxy_unref px.id], ?_, rfl⟩
        unfold surface_proxy_replace
        simp [hpx]

theorem meta_unmap_nested (plane : Nat) (f : GstMapFlags) (s : State)
    (hm : s.mem.meta.isSome = true) (hs : s.mem.surface.isSome = true)
    (hi : s.mem.image.isSome = true) (hc : s.mem.map_count ≠ 1) :
    (gst_video_meta_unmap_vaapi_memory plane f s).2 = s.withCount (s.mem.map_count - 1) := by
  unfold gst_video_meta_unmap_vaapi_memory
  have hm2 : s.mem.meta.isNone = false := by cases h : s.mem.meta <;> simp_all
  have hs2 : s.mem.surface.isNone = false := by cases h : s.mem.surface <;> simp_all
  have hi2 : s.mem.image.isNone = false := by cases h : s.mem.image <;> simp_all
  have hc2 : ¬ (s.mem.map_count - 1 = 0) := by omega
  simp only [hm2, hs2, hi2, Bool.false_eq_true, if_false, setMem_mem, hc2]
  rfl

theorem meta_unmap_last (plane : Nat) (f : GstMapFlags) (s : State)
    (hm : s.mem.meta.isSome = true) (hs : s.mem.surface.isSome = true)
    (hi : s.mem.image.isSome = true) (hc : s.mem.map_count = 1) :
    (gst_video_meta_unmap_vaapi_memory plane f s).2.mem.map_count = 0
    ∧ (gst_video_meta_unmap_vaapi_memory plane f s).2.mem.map_type = MAP_TYPE_NONE
    ∧ ∃ work, (gst_video_meta_unmap_vaapi_memory plane f s).2.trace = s.trace ++ work
        ∧ work.countP is_release = (if f.read || f.write then 1 else 0) := by
  unfold gst_video_meta_unmap_vaapi_memory
  have hm2 : s.mem.meta.isNone = false := by cases h : s.mem.meta <;> simp_all
  have hs2 : s.mem.surface.isNone = false := by cases h : s.mem.surface <;> simp_all
  have hi2 : s.mem.image.isNone = false := by cases h : s.mem.image <;> simp_all
  have hc2 : s.mem.map_count - 1 = 0 := by omega
  simp only [hm2, hs2, hi2, Bool.false_eq_true, if_false, setMem_mem, hc2, if_true]
  cases hrw : (f.read || f.write)
  · simp only [Bool.false_eq_true, if_false, setMem_mem, setMem_trace]
    exact ⟨trivial, trivial, [], by simp, rfl⟩
  · simp only [if_true]
    obtain ⟨h1, work, h2, h3⟩ := unmap_vaapi_memory_frame f
      ((s.setMem { s.mem with map_count := 0 }).setMem
        { (s.setMem { s.mem with map_count := 0 }).mem with map_type := MAP_TYPE_NONE })
    exact ⟨h1.1, h1.2.1, work, h2, h3⟩

/-! ### Runs of maps and unmaps -/

theorem memory_map_seq_nested (f : GstMapFlags) :
    ∀ (ps : List Provider) (s : State), 1 ≤ s.mem.map_count →
      (memory_map_seq f ps s).1 = true →
      (memory_map_seq f ps s).2 = s.withCount (s.mem.map_count + ps.length) := by
  intro ps
  induction ps with
  | nil =>
    intro s _ _
    simp only [memory_map_seq, List.length_nil, Nat.cast_zero, add_zero]
    exact (withCount_self s).symm
  | cons p ps ih =>
    intro s hc hr
    simp only [memory_map_seq, Bool.and_eq_true, decide_eq_true_eq] at hr ⊢
    have hn := memory_map_nested p s.mem.maxsize f s (by omega) hr.1
    rw [hn] at hr ⊢
    have h2 := ih (s.withCount (s.mem.map_count + 1)) (by simp only [withCount_count]; omega) hr.2
    rw [h2]
    simp only [withCount_withCount, withCount_count, List.length_cons, Nat.cast_add, Nat.cast_one]
    congr 1
    omega

theorem memory_unmap_seq_nested :
    ∀ (us : List GstMapFlags) (s : State), (us.length : Int) < s.mem.map_count →
      memory_unmap_seq us s = s.withCount (s.mem.map_count - us.length) := by
  intro us
  induction us with
  | nil =>
    intro s _
    simp only [memory_unmap_seq, List.length_nil, Nat.cast_zero, sub_zero]
    exact (withCount_self s).symm
  | cons u us ih =>
    intro s hc
    simp only [List.length_cons, Nat.cast_add, Nat.cast_one] at hc
    simp only [memory_unmap_seq]
    rw [memory_unmap_nested u s (by omega)]
    rw [ih _ (by simp only [withCount_count]; omega)]
    simp only [withCount_withCount, withCount_count, List.length_cons, Nat.cast_add, Nat.cast_one]
    congr 1
    omega

theorem memory_unmap_seq_append (us : List GstMapFlags) (u : GstMapFlags) :
    ∀ s : State, memory_unmap_seq (us ++ [u]) s
      = gst_vaapi_video_memory_unmap_full u (memory_unmap_seq us s) := by
  induction us with
  | nil => intro s; rfl
  | cons v vs ih => intro s; simp only [List.cons_append, memory_unmap_seq]; exact ih _

theorem meta_map_seq_nested :
    ∀ (cs : List (Provider × Nat × GstMapFlags)) (s : State), 1 ≤ s.mem.map_count →
      (meta_map_seq cs s).1 = true →
      (meta_map_seq cs s).2 = s.withCount (s.mem.map_count + cs.length) := by
  intro cs
  induction cs with
  | nil =>
    intro s _ _
    simp only [meta_map_seq, List.length_nil, Nat.cast_zero, add_zero]
    exact (withCount_self s).symm
  | cons c cs ih =>
    intro s hc hr
    simp only [meta_map_seq, Bool.and_eq_true] at hr ⊢
    have hn := meta_map_nested c.1 c.2.1 c.2.2 s (by omega) hr.1
    rw [hn] at hr ⊢
    have h2 := ih (s.withCount (s.mem.map_count + 1)) (by simp only [withCount_count]; omega) hr.2
    rw [h2]
    simp only [withCount_withCount, withCount_count, List.length_cons, Nat.cast_add, Nat.cast_one]
    congr 1
    omega

theorem meta_unmap_seq_nested :
    ∀ (us : List (Nat × GstMapFlags)) (s : State),
      s.mem.meta.isSome = true → s.mem.surface.isSome = true → s.mem.image.isSome = true →
      (us.length : Int) < s.mem.map_count →
      meta_unmap_seq us s = s.withCount (s.mem.map_count - us.length) := by
  intro us
  induction us with
  | nil =>
    intro s _ _ _ _
    simp only [meta_unmap_seq, List.length_nil, Nat.cast_zero, sub_zero]
    exact (withCount_self s).symm
  | cons u us ih =>
    intro s hm hs hi hc
    simp only [List.length_cons, Nat.cast_add, Nat.cast_one] at hc
    simp only [meta_unmap_seq]
    rw [meta_unmap_nested u.1 u.2 s hm hs hi (by omega)]
    rw [ih (s.withCount (s.mem.map_count - 1)) hm hs hi (by simp only [withCount_count]; omega)]
    simp only [withCount_withCount, withCount_count, List.length_cons, Nat.cast_add, Nat.cast_one]
    congr 1
    omega

theorem meta_unmap_seq_append (us : List (Nat × GstMapFlags)) (u : Nat × GstMapFlags) :
    ∀ s : State, meta_unmap_seq (us ++ [u]) s
      = (gst_video_meta_unmap_vaapi_memory u.1 u.2 (meta_unmap_seq us s)).2 := by
  induction us with
  | nil => intro s; rfl
  | cons v vs ih => intro s; simp only [List.cons_append, meta_unmap_seq]; exact ih _

/-- C3, as the claim states it, fails for `gst_video_meta_map_vaapi_memory`: a
PLANAR map taken with flags that include neither `GST_MAP_READ` nor
`GST_MAP_WRITE` succeeds and maps the image, and its one matching unmap
brings the map count to zero and the map type to NONE without unmapping the
image: the trace of calls after the unmap is the trace before it. -/
theorem C3_planar_noflags_counterexample :
    (gst_video_meta_map_vaapi_memory Sample.provider 0 GST_MAP_NOFLAGS
      (Sample.fresh GST_VAAPI_IMAGE_USAGE_FLAG_NATIVE_FORMATS)).1.ret = true
    ∧ (gst_video_meta_map_vaapi_memory Sample.provider 0 GST_MAP_NOFLAGS
      (Sample.fresh GST_VAAPI_IMAGE_USAGE_FLAG_NATIVE_FORMATS)).1.info_flags
        = some GST_MAP_NOFLAGS
    ∧ (gst_video_meta_map_vaapi_memory Sample.provider 0 GST_MAP_NOFLAGS
      (Sample.fresh GST_VAAPI_IMAGE_USAGE_FLAG_NATIVE_FORMATS)).2.trace
        = [Call.surface_proxy_ref 5, Call.video_pool_get_object 7, Call.image_map (some 7)]
    ∧ (gst_video_meta_unmap_vaapi_memory 0 GST_MAP_NOFLAGS
      (gst_video_meta_map_vaapi_memory Sample.provider 0 GST_MAP_NOFLAGS
        (Sample.fresh GST_VAAPI_IMAGE_USAGE_FLAG_NATIVE_FORMATS)).2).2.mem.map_count = 0
    ∧ (gst_video_meta_unmap_vaapi_memory 0 GST_MAP_NOFLAGS
      (gst_video_meta_map_vaapi_memory Sample.provider 0 GST_MAP_NOFLAGS
        (Sample.fresh GST_VAAPI_IMAGE_USAGE_FLAG_NATIVE_FORMATS)).2).2.mem.map_type
        = MAP_TYPE_NONE
    ∧ (gst_video_meta_unmap_vaapi_memory 0 GST_MAP_NOFLAGS
      (gst_video_meta_map_vaapi_memory Sample.provider 0 GST_MAP_NOFLAGS
        (Sample.fresh GST_VAAPI_IMAGE_USAGE_FLAG_NATIVE_FORMATS)).2).2.trace
        = [Call.surface_proxy_ref 5, Call.video_pool_get_object 7, Call.image_map (some 7)] := by
  decide

/-- C3, amended: map/unmap is balanced.  From a video memory with no map
outstanding, let `N >= 1` map calls of one type all succeed, the state then
being `sN`.

For `N` calls of `gst_vaapi_video_memory_map` (flags without `GST_MAP_WRITE`:
all no-flag, or all `GST_MAP_READ`): the map count is `N`; `k < N` calls of
`gst_vaapi_video_memory_unmap_full` leave the state `sN` with map count
`N - k` and nothing else changed (map type, proxy, image, and the trace of
calls, so no image unmap and no proxy release); the `N`-th unmap leaves map
count 0 and map type NONE and makes exactly one release call (image unmap or
proxy release).

For `N` calls of `gst_video_meta_map_vaapi_memory` (any planes and flags): the
same, except that the `N`-th `gst_video_meta_unmap_vaapi_memory` makes its one
release call when its `info->flags` include `GST_MAP_READ` or `GST_MAP_WRITE`,
and no release call otherwise. -/
theorem C3_map_unmap_balanced (s0 : State) (h0 : s0.mem.map_count = 0) :
    (∀ (f : GstMapFlags) (ps : List Provider) (sN : State),
      f.write = false → ps ≠ [] → memory_map_seq f ps s0 = (true, sN) →
      sN.mem.map_count = ps.length
      ∧ sN.mem.map_type = (if f.read then GST_VAAPI_VIDEO_MEMORY_MAP_TYPE_LINEAR
          else GST_VAAPI_VIDEO_MEMORY_MAP_TYPE_SURFACE)
      ∧ (∀ us : List GstMapFlags, us.length < ps.length →
          memory_unmap_seq us sN = sN.withCount ((ps.length : Int) - (us.length : Int)))
      ∧ (∀ (us : List GstMapFlags) (u : GstMapFlags), us.length + 1 = ps.length →
          (memory_unmap_seq (us ++ [u]) sN).mem.map_count = 0
          ∧ (memory_unmap_seq (us ++ [u]) sN).mem.map_type = MAP_TYPE_NONE
          ∧ ∃ work, (memory_unmap_seq (us ++ [u]) sN).trace = sN.trace ++ work
              ∧ work.countP is_release = 1))
    ∧ (∀ (cs : List (Provider × Nat × GstMapFlags)) (sN : State),
      cs ≠ [] → meta_map_seq cs s0 = (true, sN) →
      sN.mem.map_count = cs.length
      ∧ sN.mem.map_type = GST_VAAPI_VIDEO_MEMORY_MAP_TYPE_PLANAR
      ∧ (∀ us : List (Nat × GstMapFlags), us.length < cs.length →
          meta_unmap_seq us sN = sN.withCount ((cs.length : Int) - (us.length : Int)))
      ∧ (∀ (us : List (Nat × GstMapFlags)) (plane : Nat) (info_flags : GstMapFlags),
          us.length + 1 = cs.length →
          (meta_unmap_seq (us ++ [(plane, info_flags)]) sN).mem.map_count = 0
          ∧ (meta_unmap_seq (us ++ [(plane, info_flags)]) sN).mem.map_type = MAP_TYPE_NONE
          ∧ ∃ work, (meta_unmap_seq (us ++ [(plane, info_flags)]) sN).trace = sN.trace ++ work
              ∧ work.countP is_release
                = (if info_flags.read || info_flags.write then 1 else 0))) := by
  refine ⟨?_, ?_⟩
  · intro f ps sN hw hne hseq
    cases ps with
    | nil => exact absurd rfl hne
    | cons p ps =>
      have h1 : (memory_map_seq f (p :: ps) s0).1 = true := by rw [hseq]
      have h2 : (memory_map_seq f (p :: ps) s0).2 = sN := by rw [hseq]
      simp only [memory_map_seq, Bool.and_eq_true, decide_eq_true_eq] at h1 h2
      obtain ⟨hc1, ht1, hp1⟩ := memory_map_first_ok p s0.mem.maxsize f s0 h0 hw h1.1
      have hn := memory_map_seq_nested f ps _ (by rw [hc1]) h1.2
      rw [hn, hc1] at h2
      subst h2
      have hcount : ((gst_vaapi_video_memory_map p s0.mem.maxsize f s0).2.withCount
          (1 + (ps.length : Int))).mem.map_count = ((p :: ps).length : Int) := by
        simp only [withCount_count, List.length_cons, Nat.cast_add, Nat.cast_one]
        omega
      refine ⟨hcount, ht1, ?_, ?_⟩
      · intro us hlt
        rw [memory_unmap_seq_nested us _ (by rw [hcount]; exact_mod_cast hlt), hcount]
      · intro us u hlen
        rw [memory_unmap_seq_append,
          memory_unmap_seq_nested us _ (by rw [hcount]; exact_mod_cast (by omega : us.length < (p :: ps).length)),
          hcount]
        have hone : (((p :: ps).length : Int) - (us.length : Int)) = 1 := by
          rw [← hlen]; push_cast; omega
        rw [hone]
        simp only [withCount_withCount]
        have hl := memory_unmap_last u
          ((gst_vaapi_video_memory_map p s0.mem.maxsize f s0).2.withCount 1) rfl
          (by
            cases hr : f.read
            · right
              exact ⟨by rw [hr] at ht1; exact ht1, hp1 hr⟩
            · left
              rw [hr] at ht1; exact ht1)
        exact hl
  · intro cs sN hne hseq
    cases cs with
    | nil => exact absurd rfl hne
    | cons c cs =>
      have h1 : (meta_map_seq (c :: cs) s0).1 = true := by rw [hseq]
      have h2 : (meta_map_seq (c :: cs) s0).2 = sN := by rw [hseq]
      simp only [meta_map_seq, Bool.and_eq_true] at h1 h2
      obtain ⟨hc1, ht1, hm1, hs1, hi1⟩ := meta_map_first_ok c.1 c.2.1 c.2.2 s0 h0 h1.1
      have hn := meta_map_seq_nested cs _ (by rw [hc1]) h1.2
      rw [hn, hc1] at h2
      subst h2
      have hcount : ((gst_video_meta_map_vaapi_memory c.1 c.2.1 c.2.2 s0).2.withCount
          (1 + (cs.length : Int))).mem.map_count = ((c :: cs).length : Int) := by
        simp only [withCount_count, List.length_cons, Nat.cast_add, Nat.cast_one]
        omega
      refine ⟨hcount, ht1, ?_, ?_⟩
      · intro us hlt
        rw [meta_unmap_seq_nested us
          ((gst_video_meta_map_vaapi_memory c.1 c.2.1 c.2.2 s0).2.withCount (1 + (cs.length : Int)))
          hm1 hs1 hi1 (by rw [hcount]; exact_mod_cast hlt), hcount]
      · intro us plane info_flags hlen
        rw [meta_unmap_seq_append,
          meta_unmap_seq_nested us
            ((gst_video_meta_map_vaapi_memory c.1 c.2.1 c.2.2 s0).2.withCount (1 + (cs.length : Int)))
            hm1 hs1 hi1
            (by rw [hcount]; exact_mod_cast (by omega : us.length < (c :: cs).length)),
          hcount]
        have hone : (((c :: cs).length : Int) - (us.length : Int)) = 1 := by
          rw [← hlen]; push_cast; omega
        rw [hone]
        simp only [withCount_withCount]
        exact meta_unmap_last plane info_flags
          ((gst_video_meta_map_vaapi_memory c.1 c.2.1 c.2.2 s0).2.withCount 1) hm1 hs1 hi1 rfl

/-- C3 (amended), at concrete inputs: on the sample memory, two no-flag maps
followed by one unmap leave the state of the two maps with map count
`2 - 1`; and two `GST_MAP_READ` planar maps followed by two unmaps leave map
count 0. -/
theorem C3_map_unmap_balanced_witness :
    (Sample.fresh GST_VAAPI_IMAGE_USAGE_FLAG_NATIVE_FORMATS).mem.map_count = 0
    ∧ memory_unmap_seq [GST_MAP_NOFLAGS]
        (memory_map_seq GST_MAP_NOFLAGS [Sample.provider, Sample.provider]
          (Sample.fresh GST_VAAPI_IMAGE_USAGE_FLAG_NATIVE_FORMATS)).2
      = (memory_map_seq GST_MAP_NOFLAGS [Sample.provider, Sample.provider]
          (Sample.fresh GST_VAAPI_IMAGE_USAGE_FLAG_NATIVE_FORMATS)).2.withCount
            (([Sample.provider, Sample.provider].length : Int) - ([GST_MAP_NOFLAGS].length : Int))
    ∧ (meta_unmap_seq ([(0, GST_MAP_READ)] ++ [(0, GST_MAP_READ)])
        (meta_map_seq [(Sample.provider, 0, GST_MAP_READ), (Sample.provider, 0, GST_MAP_READ)]
          (Sample.fresh GST_VAAPI_IMAGE_USAGE_FLAG_NATIVE_FORMATS)).2).mem.map_count = 0 :=
  ⟨rfl,
   ((C3_map_unmap_balanced (Sample.fresh GST_VAAPI_IMAGE_USAGE_FLAG_NATIVE_FORMATS) rfl).1
      GST_MAP_NOFLAGS [Sample.provider, Sample.provider] _ rfl (by simp)
      (Prod.ext (by decide) rfl)).2.2.1 [GST_MAP_NOFLAGS] (by decide),
   (((C3_map_unmap_balanced (Sample.fresh GST_VAAPI_IMAGE_USAGE_FLAG_NATIVE_FORMATS) rfl).2
      [(Sample.provider, 0, GST_MAP_READ), (Sample.provider, 0, GST_MAP_READ)] _ (by simp)
      (Prod.ext (by decide) rfl)).2.2.2 [(0, GST_MAP_READ)] 0 GST_MAP_READ (by decide)).1⟩

/-- C4: round trip under NATIVE_FORMATS, every provider call succeeding.  A
newly created video memory is write-mapped through
`gst_video_meta_map_vaapi_memory`, the caller stores the pixels `b` in the
image, unmaps, and calls `gst_vaapi_video_memory_sync`.  Then all three calls
succeed, the surface holds `b` and surface-is-current is set; and a following
read map returns the data of the image, which holds `b`, through
`gst_vaapi_video_memory_map` with `GST_MAP_READ` as well as through
`gst_video_meta_map_vaapi_memory` with `GST_MAP_READ`. -/
theorem C4_native_round_trip (p1 p2 p3 p4 : Provider) (s0 : State)
    (allocator : GstVaapiVideoAllocator) (m : GstVaapiVideoMeta)
    (px : GstVaapiSurfaceProxy) (sf : GstVaapiSurface) (im : GstVaapiImage)
    (plane plane4 ms : Nat) (b : Pixels)
    (hnew : s0.mem = gst_vaapi_video_memory_new allocator (some m))
    (hnative : allocator.usage_flag = GST_VAAPI_IMAGE_USAGE_FLAG_NATIVE_FORMATS)
    (hproxy : m.proxy = some px ∨ (m.proxy = none ∧ p1.surface_proxy_new_from_pool = some px))
    (hsurface : px.surface = some sf)
    (hpool : p1.video_pool_get_object = some im)
    (hmap1 : p1.image_map (some im) = true)
    (hplane1 : p1.image_get_plane im plane ≠ 0)
    (hput : p2.surface_put_image (some sf) (some im) = true)
    (hmap3 : p3.image_map (some im) = true)
    (hdata3 : get_image_data p3 im ≠ 0)
    (hmap4 : p4.image_map (some im) = true)
    (hplane4 : p4.image_get_plane im plane4 ≠ 0) :
    (gst_video_meta_map_vaapi_memory p1 plane GST_MAP_WRITE s0).1.ret = true
    ∧ (gst_video_meta_unmap_vaapi_memory plane GST_MAP_WRITE
        (store_image_pixels b (gst_video_meta_map_vaapi_memory p1 plane GST_MAP_WRITE s0).2)).1
        = true
    ∧ (gst_vaapi_video_memory_sync p2
        (gst_video_meta_unmap_vaapi_memory plane GST_MAP_WRITE
          (store_image_pixels b
            (gst_video_meta_map_vaapi_memory p1 plane GST_MAP_WRITE s0).2)).2).1 = true
    ∧ (gst_vaapi_video_memory_sync p2
        (gst_video_meta_unmap_vaapi_memory plane GST_MAP_WRITE
          (store_image_pixels b
            (gst_video_meta_map_vaapi_memory p1 plane GST_MAP_WRITE s0).2)).2).2.mem.surface
        = some sf
    ∧ (gst_vaapi_video_memory_sync p2
        (gst_video_meta_unmap_vaapi_memory plane GST_MAP_WRITE
          (store_image_pixels b
            (gst_video_meta_map_vaapi_memory p1 plane GST_MAP_WRITE s0).2)).2).2.surface_pixels
          sf.id = b
    ∧ (gst_vaapi_video_memory_sync p2
        (gst_video_meta_unmap_vaapi_memory plane GST_MAP_WRITE
          (store_image_pixels b
            (gst_video_meta_map_vaapi_memory p1 plane GST_MAP_WRITE s0).2)).2).2.mem.surface_is_current
        = true
    ∧ (gst_vaapi_video_memory_map p3 ms GST_MAP_READ
        (gst_vaapi_video_memory_sync p2
          (gst_video_meta_unmap_vaapi_memory plane GST_MAP_WRITE
            (store_image_pixels b
              (gst_video_meta_map_vaapi_memory p1 plane GST_MAP_WRITE s0).2)).2).2).1
        = MapData.image_data im (get_image_data p3 im)
    ∧ (gst_vaapi_video_memory_map p3 ms GST_MAP_READ
        (gst_vaapi_video_memory_sync p2
          (gst_video_meta_unmap_vaapi_memory plane GST_MAP_WRITE
            (store_image_pixels b
              (gst_video_meta_map_vaapi_memory p1 plane GST_MAP_WRITE s0).2)).2).2).2.image_pixels
          im.id = b
    ∧ (gst_video_meta_map_vaapi_memory p4 plane4 GST_MAP_READ
        (gst_vaapi_video_memory_sync p2
          (gst_video_meta_unmap_vaapi_memory plane GST_MAP_WRITE
            (store_image_pixels b
              (gst_video_meta_map_vaapi_memory p1 plane GST_MAP_WRITE s0).2)).2).2).1.ret = true
    ∧ (gst_video_meta_map_vaapi_memory p4 plane4 GST_MAP_READ
        (gst_vaapi_video_memory_sync p2
          (gst_video_meta_unmap_vaapi_memory plane GST_MAP_WRITE
            (store_image_pixels b
              (gst_video_meta_map_vaapi_memory p1 plane GST_MAP_WRITE s0).2)).2).2).1.data
        = p4.image_get_plane im plane4
    ∧ (gst_video_meta_map_vaapi_memory p4 plane4 GST_MAP_READ
        (gst_vaapi_video_memory_sync p2
          (gst_video_meta_unmap_vaapi_memory plane GST_MAP_WRITE
            (store_image_pixels b
              (gst_video_meta_map_vaapi_memory p1 plane GST_MAP_WRITE s0).2)).2).2).2.mem.image
        = some im
    ∧ (gst_video_meta_map_vaapi_memory p4 plane4 GST_MAP_READ
        (gst_vaapi_video_memory_sync p2
          (gst_video_meta_unmap_vaapi_memory plane GST_MAP_WRITE
            (store_image_pixels b
              (gst_video_meta_map_vaapi_memory p1 plane GST_MAP_WRITE s0).2)).2).2).2.image_pixels
          im.id = b := by
  rcases hproxy with hpx | ⟨hpx, hpp⟩ <;>
    simp [gst_video_meta_map_vaapi_memory, map_vaapi_memory, ensure_surface, ensure_surface_proxy,
      ensure_image, ensure_image_derive, ensure_image_is_current, ensure_surface_is_current,
      gst_video_meta_unmap_vaapi_memory, unmap_vaapi_memory, gst_vaapi_video_memory_sync,
      gst_vaapi_video_memory_map, gst_vaapi_video_memory_map_first, store_image_pixels,
      gst_vaapi_surface_put_image, gst_vaapi_surface_get_image, pixels_to_surface,
      pixels_to_image, surface_proxy_replace, gst_vaapi_video_meta_get_surface_proxy,
      gst_vaapi_video_meta_set_image, gst_vaapi_video_meta_set_surface_proxy,
      GST_VAAPI_SURFACE_PROXY_SURFACE, new_surface_proxy, use_native_formats,
      gst_vaapi_video_memory_new, store_set, GST_MAP_WRITE, GST_MAP_READ, State.setMem, State.log,
      hnew, hnative, hpx, hsurface, hpool, hmap1, hplane1, hput, hmap3, hdata3, hmap4, hplane4,
      surface_id, image_id, *]

/-- C4, at a concrete input: the sample memory and provider, storing the
pixels `[1, 2, 3]`; after the sync the surface holds them, and the read map
returns the image's data, which holds them. -/
theorem C4_native_round_trip_witness :
    (gst_vaapi_video_memory_sync Sample.provider
        (gst_video_meta_unmap_vaapi_memory 0 GST_MAP_WRITE
          (store_image_pixels [1, 2, 3]
            (gst_video_meta_map_vaapi_memory Sample.provider 0 GST_MAP_WRITE
              (Sample.fresh GST_VAAPI_IMAGE_USAGE_FLAG_NATIVE_FORMATS)).2)).2).2.surface_pixels
          Sample.surface.id = [1, 2, 3]
    ∧ (gst_vaapi_video_memory_map Sample.provider 16 GST_MAP_READ
        (gst_vaapi_video_memory_sync Sample.provider
          (gst_video_meta_unmap_vaapi_memory 0 GST_MAP_WRITE
            (store_image_pixels [1, 2, 3]
              (gst_video_meta_map_vaapi_memory Sample.provider 0 GST_MAP_WRITE
                (Sample.fresh GST_VAAPI_IMAGE_USAGE_FLAG_NATIVE_FORMATS)).2)).2).2).2.image_pixels
          Sample.image.id = [1, 2, 3] :=
  ⟨(C4_native_round_trip Sample.provider Sample.provider Sample.provider Sample.provider
      (Sample.fresh GST_VAAPI_IMAGE_USAGE_FLAG_NATIVE_FORMATS)
      (Sample.allocator GST_VAAPI_IMAGE_USAGE_FLAG_NATIVE_FORMATS)
      { proxy := some Sample.proxy, image := none } Sample.proxy Sample.surface Sample.image
      0 0 16 [1, 2, 3] rfl rfl (Or.inl rfl) rfl rfl rfl (by decide) rfl rfl (by decide) rfl
      (by decide)).2.2.2.2.1,
   (C4_native_round_trip Sample.provider Sample.provider Sample.provider Sample.provider
      (Sample.fresh GST_VAAPI_IMAGE_USAGE_FLAG_NATIVE_FORMATS)
      (Sample.allocator GST_VAAPI_IMAGE_USAGE_FLAG_NATIVE_FORMATS)
      { proxy := some Sample.proxy, image := none } Sample.proxy Sample.surface Sample.image
      0 0 16 [1, 2, 3] rfl rfl (Or.inl rfl) rfl rfl rfl (by decide) rfl rfl (by decide) rfl
      (by decide)).2.2.2.2.2.2.2.1⟩

/-! ### The PLANAR type is set only while a planar map is outstanding -/

theorem planar_outstanding_new (allocator : GstVaapiVideoAllocator)
    (m : Option GstVaapiVideoMeta) :
    PlanarOutstanding (State.initial (gst_vaapi_video_memory_new allocator m)) := by
  intro h
  exact absurd h (by simp [State.initial, gst_vaapi_video_memory_new])

theorem planar_outstanding_of_frame {s t : State} (h : SameMapState s t)
    (hs : PlanarOutstanding s) : PlanarOutstanding t := by
  intro ht
  rw [h.1]
  exact hs (h.2.1 ▸ ht)

theorem planar_outstanding_sync (p : Provider) (s : State) (hs : PlanarOutstanding s) :
    PlanarOutstanding (gst_vaapi_video_memory_sync p s).2 :=
  planar_outstanding_of_frame (ensure_surface_is_current_frame p s).1 hs

theorem planar_outstanding_meta_map (p : Provider) (plane : Nat) (f : GstMapFlags) (s : State)
    (hs : PlanarOutstanding s) :
    PlanarOutstanding (gst_video_meta_map_vaapi_memory p plane f s).2 := by
  have hf := (map_vaapi_memory_frame p f s).1
  unfold gst_video_meta_map_vaapi_memory
  split
  · exact hs
  · split
    · exact hs
    · by_cases hc : s.mem.map_count = 0
      · simp only [hc, if_true]
        cases he : (map_vaapi_memory p f s).1
        · simp only [Bool.not_false, if_true]
          exact planar_outstanding_of_frame hf hs
        · simp only [Bool.not_true, Bool.false_eq_true, if_false, setMem_mem]
          have h1 : PlanarOutstanding
              (((map_vaapi_memory p f s).2.setMem
                { (map_vaapi_memory p f s).2.mem with
                  map_type := GST_VAAPI_VIDEO_MEMORY_MAP_TYPE_PLANAR }).setMem
                { (map_vaapi_memory p f s).2.mem with
                  map_type := GST_VAAPI_VIDEO_MEMORY_MAP_TYPE_PLANAR,
                  map_count := (map_vaapi_memory p f s).2.mem.map_count + 1 }) := by
            intro _
            show 1 ≤ (map_vaapi_memory p f s).2.mem.map_count + 1
            rw [hf.1, hc]
            decide
          split <;> exact h1
      · simp only [hc, if_false, Bool.not_true, Bool.false_eq_true, setMem_mem]
        have h1 : PlanarOutstanding (s.setMem { s.mem with map_count := s.mem.map_count + 1 }) := by
          intro ht
          have := hs ht
          show 1 ≤ s.mem.map_count + 1
          omega
        split <;> exact h1

theorem planar_outstanding_meta_unmap (plane : Nat) (f : GstMapFlags) (s : State)
    (hs : PlanarOutstanding s) :
    PlanarOutstanding (gst_video_meta_unmap_vaapi_memory plane f s).2 := by
  unfold gst_video_meta_unmap_vaapi_memory
  split
  · exact hs
  · split
    · exact hs
    · split
      · exact hs
      · by_cases hc : s.mem.map_count - 1 = 0
        · simp only [setMem_mem, hc, if_true]
          split
          · refine planar_outstanding_of_frame (unmap_vaapi_memory_frame f _).1 ?_
            intro ht
            exact absurd ht (by simp)
          · intro ht
            exact absurd ht (by simp)
        · simp only [setMem_mem, hc, if_false]
          intro ht
          have := hs ht
          show 1 ≤ s.mem.map_count - 1
          omega

theorem planar_outstanding_unmap_full (f : GstMapFlags) (s : State)
    (hs : PlanarOutstanding s) :
    PlanarOutstanding (gst_vaapi_video_memory_unmap_full f s) := by
  unfold gst_vaapi_video_memory_unmap_full
  by_cases hc : s.mem.map_count = 1
  · simp only [hc, if_true]
    split
    · intro ht
      exact absurd ht (by simp)
    · intro ht
      exact absurd ht (by simp)
    · exact hs
  · simp only [hc, if_false]
    intro ht
    have := hs ht
    show 1 ≤ s.mem.map_count - 1
    omega

theorem planar_outstanding_memory_map (p : Provider) (ms : Nat) (f : GstMapFlags) (s : State)
    (hs : PlanarOutstanding s) :
    PlanarOutstanding (gst_vaapi_video_memory_map p ms f s).2 := by
  unfold gst_vaapi_video_memory_map
  split
  · exact hs
  · generalize hr : (if s.mem.map_count = 0 then gst_vaapi_video_memory_map_first p f s
        else (true, s)) = r
    have hr2 : PlanarOutstanding r.2 := by
      rw [← hr]
      by_cases hc : s.mem.map_count = 0
      · simp only [hc, if_true]
        have hnp : s.mem.map_type ≠ GST_VAAPI_VIDEO_MEMORY_MAP_TYPE_PLANAR := by
          intro ht
          have := hs ht
          omega
        unfold gst_vaapi_video_memory_map_first
        split
        · have h1 := surface_proxy_replace_frame
            (gst_vaapi_video_meta_get_surface_proxy s.mem.meta) s
          have h2 := (ensure_surface_is_current_frame p
            (surface_proxy_replace (gst_vaapi_video_meta_get_surface_proxy s.mem.meta) s)).1
          dsimp only
          split
          · exact planar_outstanding_of_frame h1 hs
          · split
            · exact planar_outstanding_of_frame (h1.trans h2) hs
            · intro ht
              exact absurd ht (by simp)
        · have h1 := (map_vaapi_memory_frame p f s).1
          dsimp only
          split
          · exact planar_outstanding_of_frame h1 hs
          · intro ht
            exact absurd ht (by simp)
        · exact hs
      · simp only [hc, if_false]
        exact hs
    dsimp only
    split
    · exact hr2
    · split
      · split
        · exact hr2
        · intro ht
          rename_i hty _ _ _
          simp [hty] at ht
      · split
        · exact hr2
        · intro ht
          rename_i hty _ _ _
          simp [hty] at ht
      · exact hr2

/-! ### The usage flag only moves to NATIVE_FORMATS -/

theorem UsageKept.usage_refl (s : State) : UsageKept s s := Or.inl rfl

theorem UsageKept.usage_trans {s t u : State} (h1 : UsageKept s t) (h2 : UsageKept t u) :
    UsageKept s u := by
  unfold UsageKept at *
  rcases h2 with h2 | h2
  · rcases h1 with h1 | h1
    · exact Or.inl (h2.trans h1)
    · exact Or.inr (h2.trans h1)
  · exact Or.inr h2

theorem UsageKept.of_eq {s t : State} (h : t.mem.usage_flag = s.mem.usage_flag) :
    UsageKept s t := Or.inl h

theorem surface_proxy_replace_usage (n : Option GstVaapiSurfaceProxy) (s : State) :
    (surface_proxy_replace n s).mem.usage_flag = s.mem.usage_flag := by
  unfold surface_proxy_replace
  split
  · rfl
  · cases n <;> cases s.mem.proxy <;> rfl

theorem object_replace_image_null_usage (s : State) :
    (object_replace_image_null s).mem.usage_flag = s.mem.usage_flag := by
  unfold object_replace_image_null
  split <;> rfl

theorem ensure_surface_proxy_usage (p : Provider) (s : State) :
    (ensure_surface_proxy p s).2.mem.usage_flag = s.mem.usage_flag := by
  have h := surface_proxy_replace_usage (gst_vaapi_video_meta_get_surface_proxy s.mem.meta) s
  unfold ensure_surface_proxy
  split
  · rfl
  · dsimp only
    split
    · exact h
    · split
      · exact h
      · exact h

theorem ensure_surface_usage (p : Provider) (s : State) :
    (ensure_surface p s).2.mem.usage_flag = s.mem.usage_flag := by
  have h := ensure_surface_proxy_usage p s
  unfold ensure_surface
  dsimp only
  cases (ensure_surface_proxy p s).1 <;> exact h

theorem ensure_image_derive_usage (p : Provider) (s : State) :
    UsageKept s (ensure_image_derive p s) := by
  unfold ensure_image_derive
  split
  · dsimp only
    split
    · exact Or.inr rfl
    · split
      · exact Or.inr rfl
      · exact Or.inl rfl
  · exact Or.inl rfl

theorem ensure_image_usage (p : Provider) (s : State) :
    UsageKept s (ensure_image p s).2 := by
  have h := ensure_image_derive_usage p s
  unfold ensure_image
  dsimp only
  split
  · exact h
  · split <;> exact h

theorem ensure_image_is_current_usage (p : Provider) (s : State) :
    (ensure_image_is_current p s).2.mem.usage_flag = s.mem.usage_flag := by
  unfold ensure_image_is_current gst_vaapi_surface_get_image
  split
  · rfl
  · split
    · dsimp only
      cases p.surface_get_image s.mem.surface s.mem.image <;> simp
    · rfl

theorem ensure_surface_is_current_usage (p : Provider) (s : State) :
    (ensure_surface_is_current p s).2.mem.usage_flag = s.mem.usage_flag := by
  unfold ensure_surface_is_current gst_vaapi_surface_put_image
  split
  · rfl
  · split
    · split
      · dsimp only
        cases p.surface_put_image s.mem.surface s.mem.image <;> simp
      · rfl
    · rfl

theorem map_vaapi_memory_usage (p : Provider) (flags : GstMapFlags) (s : State) :
    UsageKept s (map_vaapi_memory p flags s).2 := by
  have h1 : UsageKept s (ensure_surface p s).2 := UsageKept.of_eq (ensure_surface_usage p s)
  have h2 := h1.usage_trans (ensure_image_usage p (ensure_surface p s).2)
  have h3 : UsageKept s (ensure_image_is_current p (ensure_image p (ensure_surface p s).2).2).2 :=
    h2.usage_trans (UsageKept.of_eq (ensure_image_is_current_usage p _))
  unfold map_vaapi_memory
  dsimp only
  split
  · exact h1
  · split
    · exact h2
    · cases flags.read
      · simp only [Bool.false_eq_true, if_false, Bool.not_true]
        split
        · exact h2
        · split <;> exact h2
      · simp only [if_true]
        split
        · exact h3
        · split
          · exact h3
          · split <;> exact h3

theorem reset_image_usage_flag (s : State) :
    (gst_vaapi_video_memory_reset_image s).mem.usage_flag = s.mem.usage_flag := by
  unfold gst_vaapi_video_memory_reset_image
  dsimp only
  split
  · exact object_replace_image_null_usage s
  · split <;> rfl

theorem unmap_vaapi_memory_usage (f : GstMapFlags) (s : State) :
    (unmap_vaapi_memory f s).mem.usage_flag = s.mem.usage_flag := by
  unfold unmap_vaapi_memory
  cases f.write <;> cases hn : use_native_formats s.mem.usage_flag <;>
    simp only [Bool.false_eq_true, if_false, if_true, setMem_mem, log_mem, hn, Bool.not_false,
      Bool.not_true, reset_image_usage_flag]

theorem meta_map_usage (p : Provider) (plane : Nat) (f : GstMapFlags) (s : State) :
    UsageKept s (gst_video_meta_map_vaapi_memory p plane f s).2 := by
  have h := map_vaapi_memory_usage p f s
  unfold gst_video_meta_map_vaapi_memory
  split
  · exact Or.inl rfl
  · split
    · exact Or.inl rfl
    · by_cases hc : s.mem.map_count = 0
      · simp only [hc, if_true]
        cases (map_vaapi_memory p f s).1
        · simp only [Bool.not_false, if_true]
          exact h
        · simp only [Bool.not_true, Bool.false_eq_true, if_false, setMem_mem]
          split <;> exact h
      · simp only [hc, if_false, Bool.not_true, Bool.false_eq_true, setMem_mem]
        split <;> exact Or.inl rfl

theorem meta_unmap_usage (plane : Nat) (f : GstMapFlags) (s : State) :
    (gst_video_meta_unmap_vaapi_memory plane f s).2.mem.usage_flag = s.mem.usage_flag := by
  unfold gst_video_meta_unmap_vaapi_memory
  split
  · rfl
  · split
    · rfl
    · split
      · rfl
      · dsimp only
        split
        · split
          · exact unmap_vaapi_memory_usage f _
          · rfl
        · rfl

theorem memory_map_first_usage (p : Provider) (f : GstMapFlags) (s : State) :
    UsageKept s (gst_vaapi_video_memory_map_first p f s).2 := by
  unfold gst_vaapi_video_memory_map_first
  split
  · dsimp only
    have h1 := surface_proxy_replace_usage (gst_vaapi_video_meta_get_surface_proxy s.mem.meta) s
    have h2 := ensure_surface_is_current_usage p
      (surface_proxy_replace (gst_vaapi_video_meta_get_surface_proxy s.mem.meta) s)
    split
    · exact Or.inl h1
    · split
      · exact Or.inl (h2.trans h1)
      · exact Or.inl (h2.trans h1)
  · have h := map_vaapi_memory_usage p f s
    dsimp only
    split <;> exact h
  · exact Or.inl rfl

theorem memory_map_usage (p : Provider) (ms : Nat) (f : GstMapFlags) (s : State) :
    UsageKept s (gst_vaapi_video_memory_map p ms f s).2 := by
  unfold gst_vaapi_video_memory_map
  split
  · exact Or.inl rfl
  · generalize hr : (if s.mem.map_count = 0 then gst_vaapi_video_memory_map_first p f s
        else (true, s)) = r
    have hr2 : UsageKept s r.2 := by
      rw [← hr]
      split
      · exact memory_map_first_usage p f s
      · exact Or.inl rfl
    dsimp only
    split
    · exact hr2
    · split
      · split <;> exact hr2
      · split <;> exact hr2
      · exact hr2

theorem memory_unmap_usage (f : GstMapFlags) (s : State) :
    (gst_vaapi_video_memory_unmap_full f s).mem.usage_flag = s.mem.usage_flag := by
  unfold gst_vaapi_video_memory_unmap_full
  split
  · split
    · exact surface_proxy_replace_usage none s
    · exact unmap_vaapi_memory_usage f s
    · rfl
  · rfl

theorem copy_usage (p : Provider) (offset size : Int) (s : State) :
    (gst_vaapi_video_memory_copy p offset size s).2.mem.usage_flag = s.mem.usage_flag := by
  have h := ensure_surface_is_current_usage p s
  unfold gst_vaapi_video_memory_copy
  split
  · rfl
  · dsimp only
    split
    · rfl
    · split
      · exact h
      · split <;> exact h

theorem reset_surface_usage (s : State) :
    (gst_vaapi_video_memory_reset_surface s).mem.usage_flag = s.mem.usage_flag := by
  unfold gst_vaapi_video_memory_reset_surface
  show (surface_proxy_replace none (gst_vaapi_video_memory_reset_image
    (s.setMem { s.mem with surface := none }))).mem.usage_flag = s.mem.usage_flag
  rw [surface_proxy_replace_usage, reset_image_usage_flag]
  rfl

theorem op_usage (op : Op) (s : State) : UsageKept s (op.apply s) := by
  cases op with
  | memory_map p f => exact memory_map_usage p _ f s
  | meta_map p plane f => exact meta_map_usage p plane f s
  | memory_unmap f => exact Or.inl (memory_unmap_usage f s)
  | meta_unmap plane f => exact Or.inl (meta_unmap_usage plane f s)
  | sync p => exact Or.inl (ensure_surface_is_current_usage p s)
  | copy p offset size => exact Or.inl (copy_usage p offset size s)
  | reset_image => exact Or.inl (reset_image_usage_flag s)
  | reset_surface => exact Or.inl (reset_surface_usage s)

/-- C11: a video memory created by `gst_vaapi_video_memory_new` starts with the
usage flag of its allocator; every call on it (either map entry point, either
unmap entry point, sync, copy, reset-image, reset-surface) leaves the usage
flag as it was or sets it to NATIVE_FORMATS; hence after any run of such calls
the usage flag is the one before the run or NATIVE_FORMATS, and a memory whose
usage flag is NATIVE_FORMATS keeps it. -/
theorem C11_usage_flag_stable :
    (∀ (allocator : GstVaapiVideoAllocator) (m : Option GstVaapiVideoMeta),
      (gst_vaapi_video_memory_new allocator m).usage_flag = allocator.usage_flag)
    ∧ (∀ (op : Op) (s : State),
      (op.apply s).mem.usage_flag = s.mem.usage_flag
        ∨ (op.apply s).mem.usage_flag = GST_VAAPI_IMAGE_USAGE_FLAG_NATIVE_FORMATS)
    ∧ (∀ (ops : List Op) (s : State),
      (run_ops ops s).mem.usage_flag = s.mem.usage_flag
        ∨ (run_ops ops s).mem.usage_flag = GST_VAAPI_IMAGE_USAGE_FLAG_NATIVE_FORMATS)
    ∧ (∀ (ops : List Op) (s : State),
      s.mem.usage_flag = GST_VAAPI_IMAGE_USAGE_FLAG_NATIVE_FORMATS →
      (run_ops ops s).mem.usage_flag = GST_VAAPI_IMAGE_USAGE_FLAG_NATIVE_FORMATS) := by
  have hrun : ∀ (ops : List Op) (s : State), UsageKept s (run_ops ops s) := by
    intro ops
    induction ops with
    | nil => intro s; exact UsageKept.usage_refl s
    | cons op ops ih => intro s; exact (op_usage op s).usage_trans (ih (op.apply s))
  refine ⟨fun _ _ => rfl, op_usage, hrun, ?_⟩
  intro ops s hs
  rcases hrun ops s with h | h
  · exact h.trans hs
  · exact h

/-- C11, at a concrete input: the sample memory created under DIRECT_RENDER,
downgraded to NATIVE_FORMATS by a map on which the derive fails, keeps
NATIVE_FORMATS through an unmap and a map on which the derive would succeed. -/
theorem C11_usage_flag_stable_witness :
    (gst_video_meta_map_vaapi_memory Sample.provider_no_derive 0 GST_MAP_WRITE
      (Sample.fresh GST_VAAPI_IMAGE_USAGE_FLAG_DIRECT_RENDER)).2.mem.usage_flag
      = GST_VAAPI_IMAGE_USAGE_FLAG_NATIVE_FORMATS
    ∧ (run_ops [Op.meta_unmap 0 GST_MAP_WRITE, Op.meta_map Sample.provider 0 GST_MAP_READ]
      (gst_video_meta_map_vaapi_memory Sample.provider_no_derive 0 GST_MAP_WRITE
        (Sample.fresh GST_VAAPI_IMAGE_USAGE_FLAG_DIRECT_RENDER)).2).mem.usage_flag
      = GST_VAAPI_IMAGE_USAGE_FLAG_NATIVE_FORMATS :=
  ⟨by decide,
   C11_usage_flag_stable.2.2.2
    [Op.meta_unmap 0 GST_MAP_WRITE, Op.meta_map Sample.provider 0 GST_MAP_READ]
    (gst_video_meta_map_vaapi_memory Sample.provider_no_derive 0 GST_MAP_WRITE
      (Sample.fresh GST_VAAPI_IMAGE_USAGE_FLAG_DIRECT_RENDER)).2 (by decide)⟩

/-! ### Helpers that leave the coherency state alone -/

theorem SameCoherency.coh_refl (s : State) : SameCoherency s s := ⟨rfl, rfl, rfl, rfl, rfl, rfl⟩

theorem SameCoherency.coh_trans {s t u : State} (h1 : SameCoherency s t) (h2 : SameCoherency t u) :
    SameCoherency s u :=
  ⟨h2.1.trans h1.1, h2.2.1.trans h1.2.1, h2.2.2.1.trans h1.2.2.1,
    h2.2.2.2.1.trans h1.2.2.2.1, h2.2.2.2.2.1.trans h1.2.2.2.2.1,
    h2.2.2.2.2.2.trans h1.2.2.2.2.2⟩

theorem SameCoherency.log_setMem {s t : State} (h : SameCoherency s t) (c : Call)
    (m : GstVaapiVideoMemory) (h1 : is_pull c = false) (h2 : is_push c = false)
    (hs : m.surface_is_current = t.mem.surface_is_current)
    (hi : m.image_is_current = t.mem.image_is_current) :
    SameCoherency s ((t.log c).setMem m) := by
  refine ⟨hs.trans h.1, hi.trans h.2.1, h.2.2.1, h.2.2.2.1, ?_, ?_⟩
  · simp [List.countP_append, List.countP_cons, h1, h.2.2.2.2.1]
  · simp [List.countP_append, List.countP_cons, h2, h.2.2.2.2.2]

theorem SameCoherency.coh_setMem {s t : State} (h : SameCoherency s t) (m : GstVaapiVideoMemory)
    (hs : m.surface_is_current = t.mem.surface_is_current)
    (hi : m.image_is_current = t.mem.image_is_current) :
    SameCoherency s (t.setMem m) :=
  ⟨hs.trans h.1, hi.trans h.2.1, h.2.2.1, h.2.2.2.1, h.2.2.2.2.1, h.2.2.2.2.2⟩

theorem surface_proxy_replace_coherency (n : Option GstVaapiSurfaceProxy) (s : State) :
    SameCoherency s (surface_proxy_replace n s) := by
  have h0 := SameCoherency.coh_refl s
  unfold surface_proxy_replace
  split
  · exact h0
  · cases n with
    | none =>
      cases hp : s.mem.proxy with
      | none => exact h0.coh_setMem _ rfl rfl
      | some o => exact h0.log_setMem _ _ rfl rfl rfl rfl
    | some x =>
      cases hp : s.mem.proxy with
      | none => exact h0.log_setMem _ _ rfl rfl rfl rfl
      | some o =>
        exact (h0.log_setMem (Call.surface_proxy_ref x.id) s.mem rfl rfl rfl rfl).log_setMem
          _ _ rfl rfl rfl rfl

theorem object_replace_image_null_coherency {s t : State} (h : SameCoherency s t) :
    SameCoherency s (object_replace_image_null t) := by
  unfold object_replace_image_null
  split
  · exact h
  · exact h.log_setMem _ _ rfl rfl rfl rfl

theorem ensure_surface_proxy_coherency (p : Provider) (s : State) :
    SameCoherency s (ensure_surface_proxy p s).2 := by
  have h := surface_proxy_replace_coherency (gst_vaapi_video_meta_get_surface_proxy s.mem.meta) s
  unfold ensure_surface_proxy
  split
  · exact SameCoherency.coh_refl s
  · dsimp only
    split
    · exact h
    · split
      · exact h
      · exact (h.log_setMem (Call.surface_proxy_new_from_pool _) _ rfl rfl rfl rfl).coh_setMem _ rfl rfl

theorem ensure_surface_coherency (p : Provider) (s : State) :
    SameCoherency s (ensure_surface p s).2 := by
  have h := ensure_surface_proxy_coherency p s
  unfold ensure_surface
  dsimp only
  cases (ensure_surface_proxy p s).1
  · exact h
  · exact h.coh_setMem _ rfl rfl

theorem ensure_image_derive_coherency (p : Provider) (s : State) :
    SameCoherency s (ensure_image_derive p s) := by
  unfold ensure_image_derive
  split
  · dsimp only
    have h0 : SameCoherency s ((s.log (Call.surface_derive_image (surface_id s.mem.surface)
          (image_id (p.surface_derive_image s.mem.surface)))).setMem
          { s.mem with image := p.surface_derive_image s.mem.surface }) :=
      (SameCoherency.coh_refl s).log_setMem _ _ rfl rfl rfl rfl
    split
    · exact h0.coh_setMem _ rfl rfl
    · split
      · exact (object_replace_image_null_coherency h0).coh_setMem _ rfl rfl
      · exact h0
  · exact SameCoherency.coh_refl s

theorem ensure_image_coherency (p : Provider) (s : State) :
    SameCoherency s (ensure_image p s).2 := by
  have h := ensure_image_derive_coherency p s
  unfold ensure_image
  dsimp only
  split
  · exact h.coh_setMem _ rfl rfl
  · split
    · exact h
    · exact (h.log_setMem (Call.video_pool_get_object _) _ rfl rfl rfl rfl).coh_setMem _ rfl rfl

/-! ### The read map under NATIVE_FORMATS -/

theorem ensure_image_is_current_native (p : Provider) (q : State)
    (hn : q.mem.usage_flag = GST_VAAPI_IMAGE_USAGE_FLAG_NATIVE_FORMATS) :
    (q.mem.image_is_current = true → ensure_image_is_current p q = (true, q))
    ∧ (q.mem.image_is_current = false →
        p.surface_get_image q.mem.surface q.mem.image = false →
        (ensure_image_is_current p q).1 = false)
    ∧ (q.mem.image_is_current = false →
        p.surface_get_image q.mem.surface q.mem.image = true →
        ensure_image_is_current p q
          = (true, (pixels_to_image (q.log (Call.surface_get_image (surface_id q.mem.surface)
              (image_id q.mem.image)))).setMem
              { q.mem with image_is_current := true })) := by
  refine ⟨?_, ?_, ?_⟩
  · intro hi
    simp [ensure_image_is_current, use_native_formats, hn, hi]
  · intro hi hg
    simp [ensure_image_is_current, use_native_formats, hn, hi, gst_vaapi_surface_get_image, hg]
  · intro hi hg
    simp [ensure_image_is_current, use_native_formats, hn, hi, gst_vaapi_surface_get_image, hg]

theorem pixels_to_image_at (q : State) (sf : GstVaapiSurface) (im : GstVaapiImage)
    (hs : q.mem.surface = some sf) (hi : q.mem.image = some im) :
    (pixels_to_image q).image_pixels im.id = q.surface_pixels sf.id := by
  unfold pixels_to_image
  simp [hs, hi, store_set]

theorem map_vaapi_memory_read_native (p : Provider) (f : GstMapFlags) (s : State)
    (hn : s.mem.usage_flag = GST_VAAPI_IMAGE_USAGE_FLAG_NATIVE_FORMATS) (hr : f.read = true) :
    ((map_vaapi_memory p f s).1 = true →
      (map_vaapi_memory p f s).2.mem.image_is_current = true
      ∧ (map_vaapi_memory p f s).2.trace.countP is_pull
          = s.trace.countP is_pull + (if s.mem.image_is_current then 0 else 1)
      ∧ (map_vaapi_memory p f s).2.surface_pixels = s.surface_pixels
      ∧ (s.mem.image_is_current = false → ∀ sf im,
          (map_vaapi_memory p f s).2.mem.surface = some sf →
          (map_vaapi_memory p f s).2.mem.image = some im →
          (map_vaapi_memory p f s).2.image_pixels im.id = s.surface_pixels sf.id)
      ∧ (s.mem.image_is_current = true →
          (map_vaapi_memory p f s).2.image_pixels = s.image_pixels))
    ∧ (s.mem.image_is_current = false → (∀ a b, p.surface_get_image a b = false) →
        (map_vaapi_memory p f s).1 = false) := by
  have hc2 := (ensure_surface_coherency p s).coh_trans
    (ensure_image_coherency p (ensure_surface p s).2)
  have hu2 : (ensure_image p (ensure_surface p s).2).2.mem.usage_flag
      = GST_VAAPI_IMAGE_USAGE_FLAG_NATIVE_FORMATS := by
    rcases ensure_image_usage p (ensure_surface p s).2 with h | h
    · rw [h, ensure_surface_usage, hn]
    · exact h
  obtain ⟨k1, k2, k3⟩ := ensure_image_is_current_native p _ hu2
  obtain ⟨_, c2, c3, c4, c5, _⟩ := hc2
  unfold map_vaapi_memory
  dsimp only
  cases e1 : (ensure_surface p s).1
  · simp
  · cases e2 : (ensure_image p (ensure_surface p s).2).1
    · simp
    · simp only [hr, Bool.not_true, Bool.false_eq_true, if_false, if_true]
      cases hI : (ensure_image p (ensure_surface p s).2).2.mem.image_is_current
      · have hI0 : s.mem.image_is_current = false := by rw [← c2]; exact hI
        cases hg : p.surface_get_image (ensure_image p (ensure_surface p s).2).2.mem.surface
            (ensure_image p (ensure_surface p s).2).2.mem.image
        · simp [k2 hI hg]
        · rw [k3 hI hg]
          simp only [setMem_mem, log_mem, pixels_to_image_mem]
          have hpx : ∀ (sf : GstVaapiSurface) (im : GstVaapiImage),
              (ensure_image p (ensure_surface p s).2).2.mem.surface = some sf →
              (ensure_image p (ensure_surface p s).2).2.mem.image = some im →
              (pixels_to_image
                ((ensure_image p (ensure_surface p s).2).2.log
                  (Call.surface_get_image
                    (surface_id (ensure_image p (ensure_surface p s).2).2.mem.surface)
                    (image_id (ensure_image p (ensure_surface p s).2).2.mem.image)))).image_pixels
                im.id = s.surface_pixels sf.id := by
            intro sf im h1 h2
            have h := pixels_to_image_at
              ((ensure_image p (ensure_surface p s).2).2.log
                (Call.surface_get_image
                  (surface_id (ensure_image p (ensure_surface p s).2).2.mem.surface)
                  (image_id (ensure_image p (ensure_surface p s).2).2.mem.image))) sf im h1 h2
            rw [h, log_surface_pixels, c3]
          cases hm : p.image_map (ensure_image p (ensure_surface p s).2).2.mem.image <;>
            cases hw : f.write <;>
            simp [hI0, c3, c5, List.countP_append, List.countP_cons, is_pull]
          · exact ⟨hpx, _, _, hg⟩
          · exact ⟨hpx, _, _, hg⟩
      · have hI1 : s.mem.image_is_current = true := by rw [← c2]; exact hI
        rw [k1 hI]
        cases hm : p.image_map (ensure_image p (ensure_surface p s).2).2.mem.image <;>
          cases hw : f.write <;>
          simp [hI1, hI, c3, c4, c5, List.countP_append, List.countP_cons, is_pull]

theorem memory_map_read_first (p : Provider) (ms : Nat) (s : State)
    (hc : s.mem.map_count = 0) :
    ((gst_vaapi_video_memory_map p ms GST_MAP_READ s).1 ≠ MapData.null →
      (map_vaapi_memory p GST_MAP_READ s).1 = true
      ∧ SameExceptMap (map_vaapi_memory p GST_MAP_READ s).2
          (gst_vaapi_video_memory_map p ms GST_MAP_READ s).2)
    ∧ ((map_vaapi_memory p GST_MAP_READ s).1 = false →
      (gst_vaapi_video_memory_map p ms GST_MAP_READ s).1 = MapData.null) := by
  unfold gst_vaapi_video_memory_map gst_vaapi_video_memory_map_first
  cases hm : s.mem.meta.isNone
  · simp only [hm, hc, Bool.false_eq_true, if_false, if_true, GST_MAP_READ]
    cases he : (map_vaapi_memory p ⟨true, false⟩ s).1
    · simp
    · simp only [Bool.not_true, Bool.false_eq_true, if_false, setMem_mem]
      cases hi : (map_vaapi_memory p ⟨true, false⟩ s).2.mem.image with
      | none => simp
      | some im =>
        simp only [ne_eq, true_and, Bool.true_eq_false, false_implies, and_true]
        intro _
        exact ⟨rfl, rfl, rfl, rfl, rfl, hi.symm, rfl, rfl, rfl, rfl⟩
  · simp [hm]

theorem meta_map_first (p : Provider) (plane : Nat) (f : GstMapFlags) (s : State)
    (hc : s.mem.map_count = 0) :
    ((gst_video_meta_map_vaapi_memory p plane f s).1.ret = true →
      (map_vaapi_memory p f s).1 = true
      ∧ SameExceptMap (map_vaapi_memory p f s).2 (gst_video_meta_map_vaapi_memory p plane f s).2)
    ∧ ((map_vaapi_memory p f s).1 = false →
      (gst_video_meta_map_vaapi_memory p plane f s).1.ret = false) := by
  unfold gst_video_meta_map_vaapi_memory
  cases hm : s.mem.meta.isNone
  swap
  · simp [hm]
  simp only [hm, Bool.false_eq_true, if_false]
  cases hb : (s.mem.map_type != MAP_TYPE_NONE
      && s.mem.map_type != GST_VAAPI_VIDEO_MEMORY_MAP_TYPE_PLANAR)
  swap
  · simp
  · simp only [hc, if_true, Bool.false_eq_true, if_false]
    cases he : (map_vaapi_memory p f s).1
    · simp
    · simp only [Bool.not_true, Bool.false_eq_true, if_false, setMem_mem]
      cases hi : (map_vaapi_memory p f s).2.mem.image with
      | none => simp
      | some im =>
        simp only [true_and, Bool.true_eq_false, false_implies, and_true]
        intro _
        exact ⟨rfl, rfl, rfl, rfl, rfl, hi.symm, rfl, rfl, rfl, rfl⟩

theorem read_native_transfer (p : Provider) (f : GstMapFlags) (s t : State)
    (hn : s.mem.usage_flag = GST_VAAPI_IMAGE_USAGE_FLAG_NATIVE_FORMATS) (hr : f.read = true)
    (hok : (map_vaapi_memory p f s).1 = true)
    (hs : SameExceptMap (map_vaapi_memory p f s).2 t) :
    t.mem.image_is_current = true
    ∧ t.trace.countP is_pull = s.trace.countP is_pull + (if s.mem.image_is_current then 0 else 1)
    ∧ t.surface_pixels = s.surface_pixels
    ∧ (s.mem.image_is_current = false → ∀ sf im, t.mem.surface = some sf → t.mem.image = some im →
        t.image_pixels im.id = s.surface_pixels sf.id)
    ∧ (s.mem.image_is_current = true → t.image_pixels = s.image_pixels) := by
  obtain ⟨a1, a2, a3, a4, a5⟩ := (map_vaapi_memory_read_native p f s hn hr).1 hok
  obtain ⟨_, b2, _, _, b5, b6, _, b8, b9, b10⟩ := hs
  refine ⟨by rw [b2]; exact a1, by rw [b10]; exact a2, by rw [b8]; exact a3, ?_, ?_⟩
  · intro h0 sf im h1 h2
    rw [b9]
    exact a4 h0 sf im (by rw [← b5]; exact h1) (by rw [← b6]; exact h2)
  · intro h1
    rw [b9]
    exact a5 h1

/-- C13: under NATIVE_FORMATS and with no map outstanding, a successful
`gst_vaapi_video_memory_map` with GST_MAP_READ and a successful
`gst_video_meta_map_vaapi_memory` whose flags include GST_MAP_READ return with
image-is-current set.  If the flag was clear on entry, exactly one
surface-to-image copy was made and the attached image holds the pixels the
surface had on entry; if that copy fails the map fails.  If the flag was set
on entry, no copy is made and the image pixels are untouched. -/
theorem C13_first_read_map_native (p : Provider) (maxsize plane : Nat) (f : GstMapFlags)
    (s : State)
    (hn : s.mem.usage_flag = GST_VAAPI_IMAGE_USAGE_FLAG_NATIVE_FORMATS)
    (hc : s.mem.map_count = 0) (hr : f.read = true) :
    ((gst_vaapi_video_memory_map p maxsize GST_MAP_READ s).1 ≠ MapData.null →
      (gst_vaapi_video_memory_map p maxsize GST_MAP_READ s).2.mem.image_is_current = true
      ∧ (gst_vaapi_video_memory_map p maxsize GST_MAP_READ s).2.trace.countP is_pull
          = s.trace.countP is_pull + (if s.mem.image_is_current then 0 else 1)
      ∧ (gst_vaapi_video_memory_map p maxsize GST_MAP_READ s).2.surface_pixels = s.surface_pixels
      ∧ (s.mem.image_is_current = false → ∀ sf im,
          (gst_vaapi_video_memory_map p maxsize GST_MAP_READ s).2.mem.surface = some sf →
          (gst_vaapi_video_memory_map p maxsize GST_MAP_READ s).2.mem.image = some im →
          (gst_vaapi_video_memory_map p maxsize GST_MAP_READ s).2.image_pixels im.id
            = s.surface_pixels sf.id)
      ∧ (s.mem.image_is_current = true →
          (gst_vaapi_video_memory_map p maxsize GST_MAP_READ s).2.image_pixels = s.image_pixels))
    ∧ (s.mem.image_is_current = false → (∀ a b, p.surface_get_image a b = false) →
        (gst_vaapi_video_memory_map p maxsize GST_MAP_READ s).1 = MapData.null)
    ∧ ((gst_video_meta_map_vaapi_memory p plane f s).1.ret = true →
      (gst_video_meta_map_vaapi_memory p plane f s).2.mem.image_is_current = true
      ∧ (gst_video_meta_map_vaapi_memory p plane f s).2.trace.countP is_pull
          = s.trace.countP is_pull + (if s.mem.image_is_current then 0 else 1)
      ∧ (gst_video_meta_map_vaapi_memory p plane f s).2.surface_pixels = s.surface_pixels
      ∧ (s.mem.image_is_current = false → ∀ sf im,
          (gst_video_meta_map_vaapi_memory p plane f s).2.mem.surface = some sf →
          (gst_video_meta_map_vaapi_memory p plane f s).2.mem.image = some im →
          (gst_video_meta_map_vaapi_memory p plane f s).2.image_pixels im.id
            = s.surface_pixels sf.id)
      ∧ (s.mem.image_is_current = true →
          (gst_video_meta_map_vaapi_memory p plane f s).2.image_pixels = s.image_pixels))
    ∧ (s.mem.image_is_current = false → (∀ a b, p.surface_get_image a b = false) →
        (gst_video_meta_map_vaapi_memory p plane f s).1.ret = false) := by
  refine ⟨?_, ?_, ?_, ?_⟩
  · intro h
    obtain ⟨h1, h2⟩ := (memory_map_read_first p maxsize s hc).1 h
    exact read_native_transfer p GST_MAP_READ s _ hn rfl h1 h2
  · intro h0 hg
    exact (memory_map_read_first p maxsize s hc).2
      ((map_vaapi_memory_read_native p GST_MAP_READ s hn rfl).2 h0 hg)
  · intro h
    obtain ⟨h1, h2⟩ := (meta_map_first p plane f s hc).1 h
    exact read_native_transfer p f s _ hn hr h1 h2
  · intro h0 hg
    exact (meta_map_first p plane f s hc).2 ((map_vaapi_memory_read_native p f s hn hr).2 h0 hg)

/-- C13 at the sample memory: the first read map of a new NATIVE_FORMATS
memory makes one copy and sets image-is-current. -/
theorem C13_first_read_map_native_witness :
    (Sample.fresh GST_VAAPI_IMAGE_USAGE_FLAG_NATIVE_FORMATS).mem.usage_flag
        = GST_VAAPI_IMAGE_USAGE_FLAG_NATIVE_FORMATS
    ∧ (Sample.fresh GST_VAAPI_IMAGE_USAGE_FLAG_NATIVE_FORMATS).mem.map_count = 0
    ∧ (gst_vaapi_video_memory_map Sample.provider 0 GST_MAP_READ
        (Sample.fresh GST_VAAPI_IMAGE_USAGE_FLAG_NATIVE_FORMATS)).1 ≠ MapData.null
    ∧ (gst_video_meta_map_vaapi_memory Sample.provider 0 GST_MAP_READWRITE
        (Sample.fresh GST_VAAPI_IMAGE_USAGE_FLAG_NATIVE_FORMATS)).1.ret = true
    ∧ (gst_video_meta_map_vaapi_memory Sample.provider 0 GST_MAP_READWRITE
        (Sample.fresh GST_VAAPI_IMAGE_USAGE_FLAG_NATIVE_FORMATS)).2.mem.image_is_current = true
    ∧ (gst_video_meta_map_vaapi_memory Sample.provider 0 GST_MAP_READWRITE
        (Sample.fresh GST_VAAPI_IMAGE_USAGE_FLAG_NATIVE_FORMATS)).2.trace.countP is_pull = 1 :=
  ⟨rfl, rfl, by decide, by decide,
    ((C13_first_read_map_native Sample.provider 0 0 GST_MAP_READWRITE
      (Sample.fresh GST_VAAPI_IMAGE_USAGE_FLAG_NATIVE_FORMATS) rfl rfl rfl).2.2.1 (by decide)).1,
    by decide⟩

/-! ### The write map and the surface flag -/

theorem ensure_image_is_current_surface_flag (p : Provider) (q : State) :
    (ensure_image_is_current p q).2.mem.surface_is_current = q.mem.surface_is_current := by
  unfold ensure_image_is_current gst_vaapi_surface_get_image
  dsimp only
  split
  · rfl
  · split
    · cases p.surface_get_image q.mem.surface q.mem.image <;> simp
    · rfl

theorem map_vaapi_memory_surface_flag (p : Provider) (f : GstMapFlags) (s : State) :
    ((map_vaapi_memory p f s).1 = true →
      (f.write = true → (map_vaapi_memory p f s).2.mem.surface_is_current = false)
      ∧ (f.write = false →
          (map_vaapi_memory p f s).2.mem.surface_is_current = s.mem.surface_is_current))
    ∧ (f.read = false →
        (map_vaapi_memory p f s).2.trace.countP is_pull = s.trace.countP is_pull
        ∧ (map_vaapi_memory p f s).2.image_pixels = s.image_pixels
        ∧ (map_vaapi_memory p f s).2.mem.image_is_current = s.mem.image_is_current) := by
  have hc2 := (ensure_surface_coherency p s).coh_trans (ensure_image_coherency p (ensure_surface p s).2)
  have hs := ensure_image_is_current_surface_flag p (ensure_image p (ensure_surface p s).2).2
  obtain ⟨c1, c2, c3, c4, c5, _⟩ := hc2
  have hc1 := ensure_surface_coherency p s
  unfold map_vaapi_memory
  dsimp only
  cases e1 : (ensure_surface p s).1
  · simp [hc1.2.2.2.2.1, hc1.2.2.2.1, hc1.2.1]
  · cases e2 : (ensure_image p (ensure_surface p s).2).1
    · simp [c2, c4, c5]
    · cases hr : f.read
      · cases hm : p.image_map (ensure_image p (ensure_surface p s).2).2.mem.image <;>
          cases hw : f.write <;>
          simp [hm, c1, c2, c4, c5, List.countP_append, List.countP_cons, is_pull]
      · simp only [if_true, Bool.not_true, Bool.false_eq_true, if_false, Bool.true_eq_false,
          false_implies, and_true]
        cases e3 : (ensure_image_is_current p (ensure_image p (ensure_surface p s).2).2).1
        · simp
        · cases hm : p.image_map
              (ensure_image_is_current p (ensure_image p (ensure_surface p s).2).2).2.mem.image <;>
            cases hw : f.write <;>
            simp [hm, hs, c1]

/-- C14: a successful `gst_video_meta_map_vaapi_memory` on a memory with no
map outstanding returns with surface-is-current clear when the flags include
GST_MAP_WRITE; with GST_MAP_WRITE and without GST_MAP_READ it makes no
surface-to-image copy (whatever image-is-current is), leaving the image pixels
and image-is-current as they were; without GST_MAP_WRITE it leaves
surface-is-current unchanged. -/
theorem C14_first_meta_map_surface_flag (p : Provider) (plane : Nat) (f : GstMapFlags)
    (s : State) (hc : s.mem.map_count = 0)
    (hok : (gst_video_meta_map_vaapi_memory p plane f s).1.ret = true) :
    (f.write = true →
      (gst_video_meta_map_vaapi_memory p plane f s).2.mem.surface_is_current = false)
    ∧ (f.write = true → f.read = false →
        (gst_video_meta_map_vaapi_memory p plane f s).2.trace.countP is_pull
          = s.trace.countP is_pull
        ∧ (gst_video_meta_map_vaapi_memory p plane f s).2.image_pixels = s.image_pixels
        ∧ (gst_video_meta_map_vaapi_memory p plane f s).2.mem.image_is_current
            = s.mem.image_is_current)
    ∧ (f.write = false →
        (gst_video_meta_map_vaapi_memory p plane f s).2.mem.surface_is_current
          = s.mem.surface_is_current) := by
  obtain ⟨h1, b1, b2, _, _, _, _, _, _, b9, b10⟩ := (meta_map_first p plane f s hc).1 hok
  obtain ⟨a1, a2⟩ := map_vaapi_memory_surface_flag p f s
  refine ⟨fun hw => ?_, fun _ hr => ?_, fun hw => ?_⟩
  · rw [b1]
    exact (a1 h1).1 hw
  · rw [b10, b9, b2]
    exact a2 hr
  · rw [b1]
    exact (a1 h1).2 hw

/-- C14 at the sample memory: a write-only map of a new memory, whose
image-is-current is clear, clears surface-is-current and makes no copy. -/
theorem C14_first_meta_map_surface_flag_witness :
    (Sample.fresh GST_VAAPI_IMAGE_USAGE_FLAG_NATIVE_FORMATS).mem.map_count = 0
    ∧ (Sample.fresh GST_VAAPI_IMAGE_USAGE_FLAG_NATIVE_FORMATS).mem.image_is_current = false
    ∧ (Sample.fresh GST_VAAPI_IMAGE_USAGE_FLAG_NATIVE_FORMATS).mem.surface_is_current = true
    ∧ (gst_video_meta_map_vaapi_memory Sample.provider 0 GST_MAP_WRITE
        (Sample.fresh GST_VAAPI_IMAGE_USAGE_FLAG_NATIVE_FORMATS)).1.ret = true
    ∧ (gst_video_meta_map_vaapi_memory Sample.provider 0 GST_MAP_WRITE
        (Sample.fresh GST_VAAPI_IMAGE_USAGE_FLAG_NATIVE_FORMATS)).2.mem.surface_is_current = false
    ∧ (gst_video_meta_map_vaapi_memory Sample.provider 0 GST_MAP_WRITE
        (Sample.fresh GST_VAAPI_IMAGE_USAGE_FLAG_NATIVE_FORMATS)).2.trace.countP is_pull = 0 :=
  ⟨rfl, rfl, rfl, by decide,
    (C14_first_meta_map_surface_flag Sample.provider 0 GST_MAP_WRITE
      (Sample.fresh GST_VAAPI_IMAGE_USAGE_FLAG_NATIVE_FORMATS) rfl (by decide)).1 rfl,
    by decide⟩

/-! ### The map without read or write intent -/

theorem surface_proxy_replace_acquire (n : Option GstVaapiSurfaceProxy) (s : State) :
    (surface_proxy_replace n s).mem.image = s.mem.image
    ∧ (surface_proxy_replace n s).trace.countP is_image_acquire
        = s.trace.countP is_image_acquire := by
  unfold surface_proxy_replace
  split
  · exact ⟨rfl, rfl⟩
  · cases n <;> cases s.mem.proxy <;>
      simp [List.countP_append, List.countP_cons, is_image_acquire]

theorem ensure_surface_is_current_acquire (p : Provider) (s : State) :
    (ensure_surface_is_current p s).2.trace.countP is_image_acquire
      = s.trace.countP is_image_acquire := by
  unfold ensure_surface_is_current gst_vaapi_surface_put_image
  split
  · rfl
  · split
    · split
      · dsimp only
        cases p.surface_put_image s.mem.surface s.mem.image <;>
          simp [pixels_to_surface, List.countP_append, List.countP_cons, is_image_acquire]
        split <;> simp [List.countP_append, List.countP_cons, is_image_acquire]
      · rfl
    · rfl

/-- C15: `gst_vaapi_video_memory_map` with neither GST_MAP_READ nor
GST_MAP_WRITE on a memory with no map outstanding (map count zero, map type
none) makes no derive, pool-get or image-map call and leaves the attached
image as it is.  When the metadata holds a proxy and the sync of the memory
(once it holds that proxy) succeeds, it returns that proxy with map type
SURFACE and map count one, the rest of the state being as the sync left it,
so with surface-is-current set under NATIVE_FORMATS.  When the metadata holds
no proxy, or the sync fails, it returns `NULL` with map count zero and map
type none. -/
theorem C15_noflags_map (p : Provider) (maxsize : Nat) (s : State)
    (hc : s.mem.map_count = 0) (ht : s.mem.map_type = MAP_TYPE_NONE) :
    ((gst_vaapi_video_memory_map p maxsize GST_MAP_NOFLAGS s).2.mem.image = s.mem.image
      ∧ (gst_vaapi_video_memory_map p maxsize GST_MAP_NOFLAGS s).2.trace.countP is_image_acquire
          = s.trace.countP is_image_acquire)
    ∧ (∀ px, gst_vaapi_video_meta_get_surface_proxy s.mem.meta = some px →
        (gst_vaapi_video_memory_sync p (surface_proxy_replace (some px) s)).1 = true →
        (gst_vaapi_video_memory_map p maxsize GST_MAP_NOFLAGS s).1 = MapData.surface_proxy px
        ∧ (gst_vaapi_video_memory_map p maxsize GST_MAP_NOFLAGS s).2.mem.map_type
            = GST_VAAPI_VIDEO_MEMORY_MAP_TYPE_SURFACE
        ∧ (gst_vaapi_video_memory_map p maxsize GST_MAP_NOFLAGS s).2.mem.map_count = 1
        ∧ SameExceptMap (gst_vaapi_video_memory_sync p (surface_proxy_replace (some px) s)).2
            (gst_vaapi_video_memory_map p maxsize GST_MAP_NOFLAGS s).2
        ∧ (s.mem.usage_flag = GST_VAAPI_IMAGE_USAGE_FLAG_NATIVE_FORMATS →
            (gst_vaapi_video_memory_map p maxsize GST_MAP_NOFLAGS s).2.mem.surface_is_current
              = true))
    ∧ ((gst_vaapi_video_meta_get_surface_proxy s.mem.meta = none
          ∨ ∃ px, gst_vaapi_video_meta_get_surface_proxy s.mem.meta = some px
              ∧ (gst_vaapi_video_memory_sync p (surface_proxy_replace (some px) s)).1 = false) →
        (gst_vaapi_video_memory_map p maxsize GST_MAP_NOFLAGS s).1 = MapData.null
        ∧ (gst_vaapi_video_memory_map p maxsize GST_MAP_NOFLAGS s).2.mem.map_count = 0
        ∧ (gst_vaapi_video_memory_map p maxsize GST_MAP_NOFLAGS s).2.mem.map_type
            = MAP_TYPE_NONE) := by
  have hf1 := surface_proxy_replace_frame (gst_vaapi_video_meta_get_surface_proxy s.mem.meta) s
  have hp1 := surface_proxy_replace_proxy (gst_vaapi_video_meta_get_surface_proxy s.mem.meta) s
  have ha1 := surface_proxy_replace_acquire (gst_vaapi_video_meta_get_surface_proxy s.mem.meta) s
  have hf2 := ensure_surface_is_current_frame p
    (surface_proxy_replace (gst_vaapi_video_meta_get_surface_proxy s.mem.meta) s)
  have ha2 := ensure_surface_is_current_acquire p
    (surface_proxy_replace (gst_vaapi_video_meta_get_surface_proxy s.mem.meta) s)
  have hu1 := surface_proxy_replace_usage (gst_vaapi_video_meta_get_surface_proxy s.mem.meta) s
  have h5 := (C5_sync_native p
    (surface_proxy_replace (gst_vaapi_video_meta_get_surface_proxy s.mem.meta) s)).2.1
  unfold gst_vaapi_video_memory_sync at h5
  unfold gst_vaapi_video_memory_map gst_vaapi_video_memory_map_first gst_vaapi_video_memory_sync
  cases hm : s.mem.meta with
  | none => simp [gst_vaapi_video_meta_get_surface_proxy, hc, ht]
  | some m =>
    simp only [Option.isNone_some, Bool.false_eq_true, if_false, hc, if_true, GST_MAP_NOFLAGS]
    rw [hm] at hf1 hp1 ha1 hf2 ha2 hu1 h5
    cases hx : gst_vaapi_video_meta_get_surface_proxy (some m) with
    | none =>
      rw [hx] at hf1 hp1 ha1
      simp [hp1, ha1, hf1.1, hf1.2.1, hc, ht]
    | some px =>
      rw [hx] at hf1 hp1 ha1 hf2 ha2 hu1 h5
      simp only [hp1, Option.isNone_some, Bool.false_eq_true, if_false]
      cases he : (ensure_surface_is_current p (surface_proxy_replace (some px) s)).1
      · simp [ha2, ha1, hf2.2.2, hf2.1.1, hf2.1.2.1, hf1.1, hf1.2.1, hc, ht, he]
      · simp only [Bool.not_true, Bool.false_eq_true, if_false, setMem_mem]
        have hpx := hf2.2.1.trans hp1
        split
        · rename_i hnone
          rw [hpx] at hnone
          cases hnone
        · rename_i px1 hsome
          have hpp : px1 = px := Option.some.inj (hsome.symm.trans hpx)
          subst hpp
          refine ⟨⟨?_, ?_⟩, ?_, ?_⟩
          · exact hf2.2.2.trans ha1.1
          · exact ha2.trans ha1.2
          · intro px2 h2 _
            cases h2
            refine ⟨rfl, rfl, ?_, ⟨rfl, rfl, rfl, rfl, rfl, rfl, rfl, rfl, rfl, rfl⟩, ?_⟩
            · show (ensure_surface_is_current p (surface_proxy_replace (some px1) s)).2.mem.map_count
                + 1 = 1
              rw [hf2.1.1, hf1.1, hc]
              rfl
            · intro hn
              exact (h5 (hu1.trans hn)).1 he
          · intro h
            rcases h with h | ⟨px2, h2, h3⟩
            · cases h
            · cases h2
              rw [he] at h3
              cases h3

/-- C15 at the sample memory: the map without flags of a new memory returns
the proxy of the metadata, with map type SURFACE and map count one. -/
theorem C15_noflags_map_witness :
    (Sample.fresh GST_VAAPI_IMAGE_USAGE_FLAG_NATIVE_FORMATS).mem.map_count = 0
    ∧ (Sample.fresh GST_VAAPI_IMAGE_USAGE_FLAG_NATIVE_FORMATS).mem.map_type = MAP_TYPE_NONE
    ∧ (gst_vaapi_video_memory_map Sample.provider 0 GST_MAP_NOFLAGS
        (Sample.fresh GST_VAAPI_IMAGE_USAGE_FLAG_NATIVE_FORMATS)).1
        = MapData.surface_proxy Sample.proxy
    ∧ (gst_vaapi_video_memory_map Sample.provider 0 GST_MAP_NOFLAGS
        (Sample.fresh GST_VAAPI_IMAGE_USAGE_FLAG_NATIVE_FORMATS)).2.mem.map_type
        = GST_VAAPI_VIDEO_MEMORY_MAP_TYPE_SURFACE
    ∧ (gst_vaapi_video_memory_map Sample.provider 0 GST_MAP_NOFLAGS
        (Sample.fresh GST_VAAPI_IMAGE_USAGE_FLAG_NATIVE_FORMATS)).2.mem.map_count = 1
    ∧ (gst_vaapi_video_memory_map Sample.provider 0 GST_MAP_NOFLAGS
        (Sample.fresh GST_VAAPI_IMAGE_USAGE_FLAG_NATIVE_FORMATS)).2.trace.countP is_image_acquire
        = 0 :=
  have h := (C15_noflags_map Sample.provider 0
    (Sample.fresh GST_VAAPI_IMAGE_USAGE_FLAG_NATIVE_FORMATS) rfl rfl).2.1 Sample.proxy
    (by decide) (by decide)
  ⟨rfl, rfl, h.1, h.2.1, h.2.2.1, by decide⟩

/-! ### The unmap that brings the map count to zero -/

theorem unmap_vaapi_memory_effect (f : GstMapFlags) (s : State) :
    (∃ rest, (unmap_vaapi_memory f s).trace
        = s.trace ++ Call.image_unmap (image_id s.mem.image) :: rest)
    ∧ (unmap_vaapi_memory f s).mem.surface_is_current = s.mem.surface_is_current
    ∧ (unmap_vaapi_memory f s).mem.usage_flag = s.mem.usage_flag
    ∧ (s.mem.usage_flag = GST_VAAPI_IMAGE_USAGE_FLAG_NATIVE_FORMATS →
        (unmap_vaapi_memory f s).mem.image_is_current = (f.write || s.mem.image_is_current)
        ∧ (unmap_vaapi_memory f s).mem.image = s.mem.image
        ∧ (unmap_vaapi_memory f s).mem.meta = s.mem.meta
        ∧ (unmap_vaapi_memory f s).trace
            = s.trace ++ [Call.image_unmap (image_id s.mem.image)])
    ∧ (s.mem.usage_flag ≠ GST_VAAPI_IMAGE_USAGE_FLAG_NATIVE_FORMATS →
        (unmap_vaapi_memory f s).mem.image_is_current = false
        ∧ (unmap_vaapi_memory f s).mem.image = none
        ∧ (∀ m, (unmap_vaapi_memory f s).mem.meta = some m → m.image = none)
        ∧ (unmap_vaapi_memory f s).trace = s.trace ++
            Call.image_unmap (image_id s.mem.image) ::
              (match s.mem.image with
                | some im => [Call.object_unref_image im.id]
                | none => [])) := by
  unfold unmap_vaapi_memory gst_vaapi_video_memory_reset_image object_replace_image_null
  cases hu : s.mem.usage_flag <;> cases hw : f.write <;> cases hi : s.mem.image <;>
    cases hm : s.mem.meta <;>
    simp [use_native_formats, hu, hw, hi, hm, gst_vaapi_video_meta_set_image]

theorem meta_unmap_last_state (plane : Nat) (f : GstMapFlags) (s : State)
    (hm : s.mem.meta.isSome = true) (hs : s.mem.surface.isSome = true)
    (hi : s.mem.image.isSome = true) (hc : s.mem.map_count = 1)
    (hf : (f.read || f.write) = true) :
    (gst_video_meta_unmap_vaapi_memory plane f s).2
      = unmap_vaapi_memory f
          (s.setMem { s.mem with map_count := 0, map_type := MAP_TYPE_NONE }) := by
  unfold gst_video_meta_unmap_vaapi_memory
  have hm2 : s.mem.meta.isNone = false := by cases h : s.mem.meta <;> simp_all
  have hs2 : s.mem.surface.isNone = false := by cases h : s.mem.surface <;> simp_all
  have hi2 : s.mem.image.isNone = false := by cases h : s.mem.image <;> simp_all
  have hc2 : s.mem.map_count - 1 = 0 := by omega
  simp only [hm2, hs2, hi2, Bool.false_eq_true, if_false, setMem_mem, hc2, if_true, hf]
  rfl

/-- C16, amended: the unmap that brings the map count from one to zero.  With
write intent in its flags, after a PLANAR map (`gst_video_meta_unmap_vaapi_memory`
on a memory with metadata, surface and image) and after a LINEAR map
(`gst_vaapi_video_memory_unmap_full`), the image is unmapped and
surface-is-current is unchanged; under NATIVE_FORMATS image-is-current is set
on return and the image stays attached; under DIRECT_RENDER or DIRECT_UPLOAD
the image is discarded after its unmap (unreferenced, none attached) and
image-is-current is clear on return.  After a SURFACE map, whatever the flags
of the unmap (none included), `gst_vaapi_video_memory_unmap_full` releases the
held proxy, if any, makes no other call, and changes neither coherency flag,
nor the image, the surface, the metadata, the strategy or the pixels. -/
theorem C16_last_unmap (plane : Nat) (f : GstMapFlags) (s : State)
    (hc : s.mem.map_count = 1) :
    (s.mem.map_type = GST_VAAPI_VIDEO_MEMORY_MAP_TYPE_PLANAR → f.write = true →
      s.mem.meta.isSome = true → s.mem.surface.isSome = true → s.mem.image.isSome = true →
      (gst_video_meta_unmap_vaapi_memory plane f s).2.mem.map_count = 0
      ∧ (∃ rest, (gst_video_meta_unmap_vaapi_memory plane f s).2.trace
          = s.trace ++ Call.image_unmap (image_id s.mem.image) :: rest)
      ∧ (gst_video_meta_unmap_vaapi_memory plane f s).2.mem.surface_is_current
          = s.mem.surface_is_current
      ∧ (gst_video_meta_unmap_vaapi_memory plane f s).2.mem.image_is_current
          = use_native_formats s.mem.usage_flag
      ∧ (s.mem.usage_flag = GST_VAAPI_IMAGE_USAGE_FLAG_NATIVE_FORMATS →
          (gst_video_meta_unmap_vaapi_memory plane f s).2.mem.image_is_current = true
          ∧ (gst_video_meta_unmap_vaapi_memory plane f s).2.mem.image = s.mem.image)
      ∧ ((s.mem.usage_flag = GST_VAAPI_IMAGE_USAGE_FLAG_DIRECT_RENDER
            ∨ s.mem.usage_flag = GST_VAAPI_IMAGE_USAGE_FLAG_DIRECT_UPLOAD) →
          (gst_video_meta_unmap_vaapi_memory plane f s).2.mem.image_is_current = false
          ∧ (gst_video_meta_unmap_vaapi_memory plane f s).2.mem.image = none
          ∧ (gst_video_meta_unmap_vaapi_memory plane f s).2.trace = s.trace ++
              Call.image_unmap (image_id s.mem.image) ::
                (match s.mem.image with
                  | some im => [Call.object_unref_image im.id]
                  | none => [])))
    ∧ (s.mem.map_type = GST_VAAPI_VIDEO_MEMORY_MAP_TYPE_LINEAR → f.write = true →
      (gst_vaapi_video_memory_unmap_full f s).mem.map_count = 0
      ∧ (∃ rest, (gst_vaapi_video_memory_unmap_full f s).trace
          = s.trace ++ Call.image_unmap (image_id s.mem.image) :: rest)
      ∧ (gst_vaapi_video_memory_unmap_full f s).mem.surface_is_current
          = s.mem.surface_is_current
      ∧ (gst_vaapi_video_memory_unmap_full f s).mem.image_is_current
          = use_native_formats s.mem.usage_flag
      ∧ (s.mem.usage_flag = GST_VAAPI_IMAGE_USAGE_FLAG_NATIVE_FORMATS →
          (gst_vaapi_video_memory_unmap_full f s).mem.image_is_current = true
          ∧ (gst_vaapi_video_memory_unmap_full f s).mem.image = s.mem.image)
      ∧ ((s.mem.usage_flag = GST_VAAPI_IMAGE_USAGE_FLAG_DIRECT_RENDER
            ∨ s.mem.usage_flag = GST_VAAPI_IMAGE_USAGE_FLAG_DIRECT_UPLOAD) →
          (gst_vaapi_video_memory_unmap_full f s).mem.image_is_current = false
          ∧ (gst_vaapi_video_memory_unmap_full f s).mem.image = none
          ∧ (gst_vaapi_video_memory_unmap_full f s).trace = s.trace ++
              Call.image_unmap (image_id s.mem.image) ::
                (match s.mem.image with
                  | some im => [Call.object_unref_image im.id]
                  | none => [])))
    ∧ (s.mem.map_type = GST_VAAPI_VIDEO_MEMORY_MAP_TYPE_SURFACE →
      (gst_vaapi_video_memory_unmap_full f s).mem.map_count = 0
      ∧ (gst_vaapi_video_memory_unmap_full f s).mem.map_type = MAP_TYPE_NONE
      ∧ (gst_vaapi_video_memory_unmap_full f s).mem.proxy = none
      ∧ (gst_vaapi_video_memory_unmap_full f s).trace = s.trace ++
          (match s.mem.proxy with
            | some o => [Call.surface_proxy_unref o.id]
            | none => [])
      ∧ (gst_vaapi_video_memory_unmap_full f s).mem.surface_is_current
          = s.mem.surface_is_current
      ∧ (gst_vaapi_video_memory_unmap_full f s).mem.image_is_current = s.mem.image_is_current
      ∧ (gst_vaapi_video_memory_unmap_full f s).mem.image = s.mem.image
      ∧ (gst_vaapi_video_memory_unmap_full f s).mem.surface = s.mem.surface
      ∧ (gst_vaapi_video_memory_unmap_full f s).mem.meta = s.mem.meta
      ∧ (gst_vaapi_video_memory_unmap_full f s).mem.usage_flag = s.mem.usage_flag
      ∧ (gst_vaapi_video_memory_unmap_full f s).surface_pixels = s.surface_pixels
      ∧ (gst_vaapi_video_memory_unmap_full f s).image_pixels = s.image_pixels) := by
  refine ⟨?_, ?_, ?_⟩
  · intro _ hw hm hs hi
    rw [meta_unmap_last_state plane f s hm hs hi hc (by simp [hw])]
    obtain ⟨e1, e2, _, e4, e5⟩ := unmap_vaapi_memory_effect f
      (s.setMem { s.mem with map_count := 0, map_type := MAP_TYPE_NONE })
    have hf := (unmap_vaapi_memory_frame f
      (s.setMem { s.mem with map_count := 0, map_type := MAP_TYPE_NONE })).1
    refine ⟨hf.1, e1, e2, ?_, fun hn => ?_, fun hd => ?_⟩
    · cases hu : s.mem.usage_flag
      · rw [(e4 hu).1, hw]
        rfl
      · rw [(e5 (by simp [hu])).1]
        rfl
      · rw [(e5 (by simp [hu])).1]
        rfl
    · refine ⟨?_, (e4 hn).2.1⟩
      rw [(e4 hn).1, hw]
      rfl
    · have hne : s.mem.usage_flag ≠ GST_VAAPI_IMAGE_USAGE_FLAG_NATIVE_FORMATS := by
        rcases hd with h | h <;> simp [h]
      exact ⟨(e5 hne).1, (e5 hne).2.1, (e5 hne).2.2.2⟩
  · intro ht hw
    obtain ⟨e1, e2, _, e4, e5⟩ := unmap_vaapi_memory_effect f s
    have hf := (unmap_vaapi_memory_frame f s).1
    unfold gst_vaapi_video_memory_unmap_full
    simp only [hc, if_true, ht, setMem_mem, setMem_trace]
    refine ⟨by rw [hf.1, hc]; rfl, e1, e2, ?_, fun hn => ?_, fun hd => ?_⟩
    · cases hu : s.mem.usage_flag
      · rw [(e4 hu).1, hw]
        rfl
      · rw [(e5 (by simp [hu])).1]
        rfl
      · rw [(e5 (by simp [hu])).1]
        rfl
    · refine ⟨?_, (e4 hn).2.1⟩
      rw [(e4 hn).1, hw]
      rfl
    · have hne : s.mem.usage_flag ≠ GST_VAAPI_IMAGE_USAGE_FLAG_NATIVE_FORMATS := by
        rcases hd with h | h <;> simp [h]
      exact ⟨(e5 hne).1, (e5 hne).2.1, (e5 hne).2.2.2⟩
  · intro ht
    unfold gst_vaapi_video_memory_unmap_full surface_proxy_replace
    simp only [hc, if_true, ht]
    cases hp : s.mem.proxy <;> simp [hc, hp]

/-- C16 (amended), at concrete inputs: the sample memory under NATIVE_FORMATS
with a planar write map outstanding, whose unmap leaves image-is-current set;
and the sample memory with a SURFACE map outstanding, whose unmap without
flags releases the proxy and leaves both coherency flags as they were. -/
theorem C16_last_unmap_witness :
    (gst_video_meta_map_vaapi_memory Sample.provider 0 GST_MAP_WRITE
      (Sample.fresh GST_VAAPI_IMAGE_USAGE_FLAG_NATIVE_FORMATS)).2.mem.map_count = 1
    ∧ (gst_video_meta_unmap_vaapi_memory 0 GST_MAP_WRITE
        (gst_video_meta_map_vaapi_memory Sample.provider 0 GST_MAP_WRITE
          (Sample.fresh GST_VAAPI_IMAGE_USAGE_FLAG_NATIVE_FORMATS)).2).2.mem.image_is_current
        = true
    ∧ (gst_vaapi_video_memory_map Sample.provider 16 GST_MAP_NOFLAGS
      (Sample.fresh GST_VAAPI_IMAGE_USAGE_FLAG_NATIVE_FORMATS)).2.mem.map_count = 1
    ∧ (gst_vaapi_video_memory_map Sample.provider 16 GST_MAP_NOFLAGS
      (Sample.fresh GST_VAAPI_IMAGE_USAGE_FLAG_NATIVE_FORMATS)).2.mem.map_type
        = GST_VAAPI_VIDEO_MEMORY_MAP_TYPE_SURFACE
    ∧ (gst_vaapi_video_memory_unmap_full GST_MAP_NOFLAGS
        (gst_vaapi_video_memory_map Sample.provider 16 GST_MAP_NOFLAGS
          (Sample.fresh GST_VAAPI_IMAGE_USAGE_FLAG_NATIVE_FORMATS)).2).trace
        = [Call.surface_proxy_ref 5, Call.surface_proxy_unref 5]
    ∧ (gst_vaapi_video_memory_unmap_full GST_MAP_NOFLAGS
        (gst_vaapi_video_memory_map Sample.provider 16 GST_MAP_NOFLAGS
          (Sample.fresh GST_VAAPI_IMAGE_USAGE_FLAG_NATIVE_FORMATS)).2).mem.surface_is_current
        = true :=
  ⟨by decide,
    (((C16_last_unmap 0 GST_MAP_WRITE
      (gst_video_meta_map_vaapi_memory Sample.provider 0 GST_MAP_WRITE
        (Sample.fresh GST_VAAPI_IMAGE_USAGE_FLAG_NATIVE_FORMATS)).2 (by decide)).1
      (by decide) rfl (by decide) (by decide) (by decide)).2.2.2.2.1 (by decide)).1,
    by decide, by decide,
    (((C16_last_unmap 0 GST_MAP_NOFLAGS
      (gst_vaapi_video_memory_map Sample.provider 16 GST_MAP_NOFLAGS
        (Sample.fresh GST_VAAPI_IMAGE_USAGE_FLAG_NATIVE_FORMATS)).2 (by decide)).2.2
      (by decide)).2.2.2.1).trans (by decide),
    (((C16_last_unmap 0 GST_MAP_NOFLAGS
      (gst_vaapi_video_memory_map Sample.provider 16 GST_MAP_NOFLAGS
        (Sample.fresh GST_VAAPI_IMAGE_USAGE_FLAG_NATIVE_FORMATS)).2 (by decide)).2.2
      (by decide)).2.2.2.2.1).trans (by decide)⟩

/-- C16 as stated fails under a direct strategy: after a planar write map of
the sample memory under DIRECT_RENDER, the unmap that brings the map count to
zero returns with image-is-current clear. -/
theorem C16_direct_unmap_counterexample :
    (gst_video_meta_map_vaapi_memory Sample.provider 0 GST_MAP_WRITE
      (Sample.fresh GST_VAAPI_IMAGE_USAGE_FLAG_DIRECT_RENDER)).1.ret = true
    ∧ (gst_video_meta_map_vaapi_memory Sample.provider 0 GST_MAP_WRITE
      (Sample.fresh GST_VAAPI_IMAGE_USAGE_FLAG_DIRECT_RENDER)).2.mem.map_type
        = GST_VAAPI_VIDEO_MEMORY_MAP_TYPE_PLANAR
    ∧ (gst_video_meta_map_vaapi_memory Sample.provider 0 GST_MAP_WRITE
      (Sample.fresh GST_VAAPI_IMAGE_USAGE_FLAG_DIRECT_RENDER)).2.mem.map_count = 1
    ∧ (gst_video_meta_map_vaapi_memory Sample.provider 0 GST_MAP_WRITE
      (Sample.fresh GST_VAAPI_IMAGE_USAGE_FLAG_DIRECT_RENDER)).2.mem.usage_flag
        = GST_VAAPI_IMAGE_USAGE_FLAG_DIRECT_RENDER
    ∧ (gst_video_meta_unmap_vaapi_memory 0 GST_MAP_WRITE
        (gst_video_meta_map_vaapi_memory Sample.provider 0 GST_MAP_WRITE
          (Sample.fresh GST_VAAPI_IMAGE_USAGE_FLAG_DIRECT_RENDER)).2).1 = true
    ∧ (gst_video_meta_unmap_vaapi_memory 0 GST_MAP_WRITE
        (gst_video_meta_map_vaapi_memory Sample.provider 0 GST_MAP_WRITE
          (Sample.fresh GST_VAAPI_IMAGE_USAGE_FLAG_DIRECT_RENDER)).2).2.mem.map_count = 0
    ∧ (gst_video_meta_unmap_vaapi_memory 0 GST_MAP_WRITE
        (gst_video_meta_map_vaapi_memory Sample.provider 0 GST_MAP_WRITE
          (Sample.fresh GST_VAAPI_IMAGE_USAGE_FLAG_DIRECT_RENDER)).2).2.mem.image_is_current
        = false := by
  decide

/-- C17: the unmap that brings the map count from one to zero, with write
intent in its flags, after a PLANAR map (`gst_video_meta_unmap_vaapi_memory`
on a memory with metadata, surface and image) or a LINEAR map
(`gst_vaapi_video_memory_unmap_full`).  Under DIRECT_RENDER or DIRECT_UPLOAD
no image is attached on return: the image of the memory is `NULL`, the image
of the metadata is cleared, and the image that was attached has been
unreferenced after its unmap.  Under NATIVE_FORMATS the image stays attached
to the memory and to the metadata, and the only call made is the unmap of the
image. -/
theorem C17_last_unmap_image (plane : Nat) (f : GstMapFlags) (s : State)
    (hc : s.mem.map_count = 1) (hw : f.write = true) :
    (s.mem.map_type = GST_VAAPI_VIDEO_MEMORY_MAP_TYPE_PLANAR →
      s.mem.meta.isSome = true → s.mem.surface.isSome = true → s.mem.image.isSome = true →
      ((s.mem.usage_flag = GST_VAAPI_IMAGE_USAGE_FLAG_DIRECT_RENDER
          ∨ s.mem.usage_flag = GST_VAAPI_IMAGE_USAGE_FLAG_DIRECT_UPLOAD) →
        (gst_video_meta_unmap_vaapi_memory plane f s).2.mem.image = none
        ∧ (∀ m, (gst_video_meta_unmap_vaapi_memory plane f s).2.mem.meta = some m →
            m.image = none)
        ∧ (gst_video_meta_unmap_vaapi_memory plane f s).2.trace = s.trace ++
            Call.image_unmap (image_id s.mem.image) ::
              (match s.mem.image with
                | some im => [Call.object_unref_image im.id]
                | none => []))
      ∧ (s.mem.usage_flag = GST_VAAPI_IMAGE_USAGE_FLAG_NATIVE_FORMATS →
        (gst_video_meta_unmap_vaapi_memory plane f s).2.mem.image = s.mem.image
        ∧ (gst_video_meta_unmap_vaapi_memory plane f s).2.mem.image.isSome = true
        ∧ (gst_video_meta_unmap_vaapi_memory plane f s).2.mem.meta = s.mem.meta
        ∧ (gst_video_meta_unmap_vaapi_memory plane f s).2.trace
            = s.trace ++ [Call.image_unmap (image_id s.mem.image)]))
    ∧ (s.mem.map_type = GST_VAAPI_VIDEO_MEMORY_MAP_TYPE_LINEAR →
      ((s.mem.usage_flag = GST_VAAPI_IMAGE_USAGE_FLAG_DIRECT_RENDER
          ∨ s.mem.usage_flag = GST_VAAPI_IMAGE_USAGE_FLAG_DIRECT_UPLOAD) →
        (gst_vaapi_video_memory_unmap_full f s).mem.image = none
        ∧ (∀ m, (gst_vaapi_video_memory_unmap_full f s).mem.meta = some m → m.image = none)
        ∧ (gst_vaapi_video_memory_unmap_full f s).trace = s.trace ++
            Call.image_unmap (image_id s.mem.image) ::
              (match s.mem.image with
                | some im => [Call.object_unref_image im.id]
                | none => []))
      ∧ (s.mem.usage_flag = GST_VAAPI_IMAGE_USAGE_FLAG_NATIVE_FORMATS →
        (gst_vaapi_video_memory_unmap_full f s).mem.image = s.mem.image
        ∧ (gst_vaapi_video_memory_unmap_full f s).mem.meta = s.mem.meta
        ∧ (gst_vaapi_video_memory_unmap_full f s).trace
            = s.trace ++ [Call.image_unmap (image_id s.mem.image)])) := by
  refine ⟨?_, ?_⟩
  · intro _ hm hs hi
    rw [meta_unmap_last_state plane f s hm hs hi hc (by simp [hw])]
    obtain ⟨_, _, _, e4, e5⟩ := unmap_vaapi_memory_effect f
      (s.setMem { s.mem with map_count := 0, map_type := MAP_TYPE_NONE })
    refine ⟨fun hd => ?_, fun hn => ?_⟩
    · have hne : s.mem.usage_flag ≠ GST_VAAPI_IMAGE_USAGE_FLAG_NATIVE_FORMATS := by
        rcases hd with h | h <;> simp [h]
      exact (e5 hne).2
    · obtain ⟨_, a2, a3, a4⟩ := e4 hn
      exact ⟨a2, by rw [a2]; exact hi, a3, a4⟩
  · intro ht
    obtain ⟨_, _, _, e4, e5⟩ := unmap_vaapi_memory_effect f s
    unfold gst_vaapi_video_memory_unmap_full
    simp only [hc, if_true, ht, setMem_mem, setMem_trace]
    refine ⟨fun hd => ?_, fun hn => ?_⟩
    · have hne : s.mem.usage_flag ≠ GST_VAAPI_IMAGE_USAGE_FLAG_NATIVE_FORMATS := by
        rcases hd with h | h <;> simp [h]
      exact (e5 hne).2
    · exact (e4 hn).2

/-- C17 at a concrete input: the sample memory under DIRECT_RENDER with a
planar write map outstanding; after its unmap no image is attached. -/
theorem C17_last_unmap_image_witness :
    (gst_video_meta_map_vaapi_memory Sample.provider 0 GST_MAP_WRITE
      (Sample.fresh GST_VAAPI_IMAGE_USAGE_FLAG_DIRECT_RENDER)).2.mem.map_count = 1
    ∧ (gst_video_meta_map_vaapi_memory Sample.provider 0 GST_MAP_WRITE
      (Sample.fresh GST_VAAPI_IMAGE_USAGE_FLAG_DIRECT_RENDER)).2.mem.image.isSome = true
    ∧ (gst_video_meta_unmap_vaapi_memory 0 GST_MAP_WRITE
        (gst_video_meta_map_vaapi_memory Sample.provider 0 GST_MAP_WRITE
          (Sample.fresh GST_VAAPI_IMAGE_USAGE_FLAG_DIRECT_RENDER)).2).2.mem.image = none :=
  ⟨by decide, by decide,
    (((C17_last_unmap_image 0 GST_MAP_WRITE
      (gst_video_meta_map_vaapi_memory Sample.provider 0 GST_MAP_WRITE
        (Sample.fresh GST_VAAPI_IMAGE_USAGE_FLAG_DIRECT_RENDER)).2 (by decide) rfl).1
      (by decide) (by decide) (by decide) (by decide)).1 (Or.inl (by decide))).1⟩

/-! ### The fallback of `ensure_image` under a direct strategy -/

theorem ensure_image_direct_effect (p : Provider) (s : State)
    (hd : s.mem.usage_flag = GST_VAAPI_IMAGE_USAGE_FLAG_DIRECT_RENDER
      ∨ s.mem.usage_flag = GST_VAAPI_IMAGE_USAGE_FLAG_DIRECT_UPLOAD)
    (hi : s.mem.image = none) :
    ((p.surface_derive_image s.mem.surface = none
        ∨ gst_vaapi_surface_get_format s.mem.surface ≠ s.mem.image_info.format) →
      (ensure_image p s).2.mem.usage_flag = GST_VAAPI_IMAGE_USAGE_FLAG_NATIVE_FORMATS
      ∧ (ensure_image p s).1 = p.video_pool_get_object.isSome
      ∧ (ensure_image p s).2.mem.image = p.video_pool_get_object
      ∧ (ensure_image p s).2.trace = s.trace ++
          Call.surface_derive_image (surface_id s.mem.surface)
              (image_id (p.surface_derive_image s.mem.surface)) ::
            ((match p.surface_derive_image s.mem.surface with
              | some d => [Call.object_unref_image d.id]
              | none => [])
            ++ (match p.video_pool_get_object with
              | some im => [Call.video_pool_get_object im.id]
              | none => [])))
    ∧ (∀ d, p.surface_derive_image s.mem.surface = some d →
        gst_vaapi_surface_get_format s.mem.surface = s.mem.image_info.format →
        (ensure_image p s).1 = true
        ∧ (ensure_image p s).2.mem.image = some d
        ∧ (ensure_image p s).2.mem.usage_flag = s.mem.usage_flag
        ∧ (ensure_image p s).2.trace = s.trace ++
            [Call.surface_derive_image (surface_id s.mem.surface) (some d.id)]) := by
  have hn : use_native_formats s.mem.usage_flag = false := by
    rcases hd with h | h <;> rw [h] <;> rfl
  refine ⟨?_, ?_⟩
  · intro h
    cases hdv : p.surface_derive_image s.mem.surface with
    | none =>
      cases hp : p.video_pool_get_object <;>
        simp [ensure_image, ensure_image_derive, hi, hn, hdv, hp, reset_image_usage, image_id]
    | some d =>
      have hf : gst_vaapi_surface_get_format s.mem.surface ≠ s.mem.image_info.format := by
        rcases h with h | h
        · rw [hdv] at h
          cases h
        · exact h
      cases hp : p.video_pool_get_object <;>
        simp [ensure_image, ensure_image_derive, object_replace_image_null, hi, hn, hdv, hp,
          reset_image_usage, image_id, hf]
  · intro d hdv hf
    simp [ensure_image, ensure_image_derive, hi, hn, hdv, hf, image_id]

/-- C19: `ensure_image` on a memory under DIRECT_RENDER or DIRECT_UPLOAD with no
image attached, where an image derived from the surface aliases the memory of
the surface and so has the format that `gst_vaapi_surface_get_format` reports
for it.  If deriving an image from the surface fails, or the format of the
derived image differs from the format of `image_info` (the derived image is
then dropped), the strategy becomes NATIVE_FORMATS and an image is asked from
the image pool: the call returns `TRUE` exactly when the pool supplies one,
which is then attached.  If the derive succeeds and the derived image has the
expected format, the derived image is kept, the strategy is unchanged and no
pool call is made. -/
theorem C19_ensure_image_direct (p : Provider) (s : State)
    (hd : s.mem.usage_flag = GST_VAAPI_IMAGE_USAGE_FLAG_DIRECT_RENDER
      ∨ s.mem.usage_flag = GST_VAAPI_IMAGE_USAGE_FLAG_DIRECT_UPLOAD)
    (hi : s.mem.image = none)
    (hal : ∀ d, p.surface_derive_image s.mem.surface = some d →
      d.format = gst_vaapi_surface_get_format s.mem.surface) :
    ((p.surface_derive_image s.mem.surface = none
        ∨ ∃ d, p.surface_derive_image s.mem.surface = some d
            ∧ d.format ≠ s.mem.image_info.format) →
      (ensure_image p s).2.mem.usage_flag = GST_VAAPI_IMAGE_USAGE_FLAG_NATIVE_FORMATS
      ∧ (ensure_image p s).1 = p.video_pool_get_object.isSome
      ∧ (ensure_image p s).2.mem.image = p.video_pool_get_object
      ∧ (ensure_image p s).2.trace = s.trace ++
          Call.surface_derive_image (surface_id s.mem.surface)
              (image_id (p.surface_derive_image s.mem.surface)) ::
            ((match p.surface_derive_image s.mem.surface with
              | some d => [Call.object_unref_image d.id]
              | none => [])
            ++ (match p.video_pool_get_object with
              | some im => [Call.video_pool_get_object im.id]
              | none => [])))
    ∧ (∀ d, p.surface_derive_image s.mem.surface = some d →
        d.format = s.mem.image_info.format →
        (ensure_image p s).1 = true
        ∧ (ensure_image p s).2.mem.image = some d
        ∧ (ensure_image p s).2.mem.usage_flag = s.mem.usage_flag
        ∧ (ensure_image p s).2.trace = s.trace ++
            [Call.surface_derive_image (surface_id s.mem.surface) (some d.id)]) := by
  obtain ⟨e1, e2⟩ := ensure_image_direct_effect p s hd hi
  refine ⟨fun h => e1 ?_, fun d hdv hf => e2 d hdv ?_⟩
  · rcases h with h | ⟨d, hdv, hf⟩
    · exact Or.inl h
    · refine Or.inr ?_
      rw [← hal d hdv]
      exact hf
  · rw [← hal d hdv]
    exact hf

/-- C19 at concrete inputs: the sample memory under DIRECT_RENDER once its
surface is attached.  With a provider whose derive fails the strategy becomes
NATIVE_FORMATS and the pooled image is attached; with the sample provider,
whose derived image has the format 2 of the surface and of `image_info`, the
derived image is kept and the strategy stays DIRECT_RENDER. -/
theorem C19_ensure_image_direct_witness :
    ((ensure_surface Sample.provider
        (Sample.fresh GST_VAAPI_IMAGE_USAGE_FLAG_DIRECT_RENDER)).2.mem.usage_flag
          = GST_VAAPI_IMAGE_USAGE_FLAG_DIRECT_RENDER
      ∨ (ensure_surface Sample.provider
        (Sample.fresh GST_VAAPI_IMAGE_USAGE_FLAG_DIRECT_RENDER)).2.mem.usage_flag
          = GST_VAAPI_IMAGE_USAGE_FLAG_DIRECT_UPLOAD)
    ∧ (ensure_surface Sample.provider
        (Sample.fresh GST_VAAPI_IMAGE_USAGE_FLAG_DIRECT_RENDER)).2.mem.image = none
    ∧ (ensure_image Sample.provider_no_derive (ensure_surface Sample.provider
        (Sample.fresh GST_VAAPI_IMAGE_USAGE_FLAG_DIRECT_RENDER)).2).2.mem.usage_flag
        = GST_VAAPI_IMAGE_USAGE_FLAG_NATIVE_FORMATS
    ∧ (ensure_image Sample.provider_no_derive (ensure_surface Sample.provider
        (Sample.fresh GST_VAAPI_IMAGE_USAGE_FLAG_DIRECT_RENDER)).2).2.mem.image
        = some Sample.image
    ∧ Sample.image.format = gst_vaapi_surface_get_format (ensure_surface Sample.provider
        (Sample.fresh GST_VAAPI_IMAGE_USAGE_FLAG_DIRECT_RENDER)).2.mem.surface
    ∧ (ensure_image Sample.provider (ensure_surface Sample.provider
        (Sample.fresh GST_VAAPI_IMAGE_USAGE_FLAG_DIRECT_RENDER)).2).2.mem.image
        = some Sample.image
    ∧ (ensure_image Sample.provider (ensure_surface Sample.provider
        (Sample.fresh GST_VAAPI_IMAGE_USAGE_FLAG_DIRECT_RENDER)).2).2.mem.usage_flag
        = GST_VAAPI_IMAGE_USAGE_FLAG_DIRECT_RENDER :=
  have h := (C19_ensure_image_direct Sample.provider_no_derive
    (ensure_surface Sample.provider (Sample.fresh GST_VAAPI_IMAGE_USAGE_FLAG_DIRECT_RENDER)).2
    (Or.inl (by decide)) (by decide) (fun d hdv => Option.noConfusion hdv)).1 (Or.inl rfl)
  have k := (C19_ensure_image_direct Sample.provider
    (ensure_surface Sample.provider (Sample.fresh GST_VAAPI_IMAGE_USAGE_FLAG_DIRECT_RENDER)).2
    (Or.inl (by decide)) (by decide)
    (fun d hdv => (Option.some.inj hdv) ▸ (by decide))).2 Sample.image rfl (by decide)
  ⟨Or.inl (by decide), by decide, h.1, h.2.2.1, by decide, k.2.1, k.2.2.1.trans (by decide)⟩

/-! ### The plane layout read back from an image -/

theorem update_planes_spec (d : Provider) (image : GstVaapiImage) (data : Nat) (n : Nat)
    (v : GstVideoInfo) :
    (∀ i, i < n →
      (update_planes d image data n v).offset i
          = to_gsize (((d.image_get_plane image i : Nat) : Int) - (data : Int))
      ∧ (update_planes d image data n v).stride i = to_gint (d.image_get_pitch image i))
    ∧ (∀ i, n ≤ i → (update_planes d image data n v).offset i = v.offset i
      ∧ (update_planes d image data n v).stride i = v.stride i) := by
  induction n with
  | zero =>
    refine ⟨fun i hi => absurd hi (Nat.not_lt_zero i), fun i _ => ⟨rfl, rfl⟩⟩
  | succ n ih =>
    have hstep : update_planes d image data (n + 1) v =
        { update_planes d image data n v with
          offset := fun j =>
            if j = n then to_gsize (((d.image_get_plane image n : Nat) : Int) - (data : Int))
            else (update_planes d image data n v).offset j,
          stride := fun j =>
            if j = n then to_gint (d.image_get_pitch image n)
            else (update_planes d image data n v).stride j } := by
      unfold update_planes
      rw [List.range_succ, List.foldl_append]
      rfl
    rw [hstep]
    refine ⟨fun i hi => ?_, fun i hi => ?_⟩
    · by_cases h : i = n
      · subst h
        simp
      · have hlt : i < n := by omega
        simp only [h, if_false]
        exact ih.1 i hlt
    · have h : i ≠ n := by omega
      simp only [h, if_false]
      exact ih.2 i (by omega)

theorem has_disjoint_plane_false (d : Provider) (image : GstVaapiImage) (data data_size n : Nat) :
    has_disjoint_plane d image data data_size n = false
      ↔ ∀ i, i < n →
          to_ptrdiff (((d.image_get_plane image i : Nat) : Int) - (data : Int))
            ≤ (data_size : Int) := by
  unfold has_disjoint_plane
  rw [Bool.eq_false_iff]
  simp only [ne_eq, List.any_eq_true, List.mem_range, decide_eq_true_eq, not_exists, not_and,
    not_lt]

theorem to_gsize_of_lt (x : Nat) (h : x < 2 ^ 64) : to_gsize (x : Int) = x := by
  unfold to_gsize GSIZE_BITS
  have h2 : ((x : Int) % (2 ^ 64 : Int)) = (x : Int) :=
    Int.emod_eq_of_lt (Int.natCast_nonneg x) (by exact_mod_cast h)
  rw [h2]
  exact Int.toNat_natCast x

theorem to_ptrdiff_of_lt (x : Nat) (h : x < 2 ^ 63) : to_ptrdiff (x : Int) = (x : Int) := by
  unfold to_ptrdiff GSIZE_BITS
  have h1 : (0 : Int) ≤ (x : Int) := Int.natCast_nonneg x
  have h2 : (x : Int) < 2 ^ 63 := by exact_mod_cast h
  have h3 : ((x : Int) + 2 ^ (64 - 1)) % 2 ^ 64 = (x : Int) + 2 ^ 63 :=
    Int.emod_eq_of_lt (by norm_num; omega) (by norm_num; omega)
  rw [h3]
  norm_num

theorem to_gint_of_lt (x : Nat) (h : x < 2 ^ 31) : to_gint x = (x : Int) := by
  unfold to_gint
  have h2 : x % 2 ^ 32 = x := Nat.mod_eq_of_lt (by omega)
  rw [h2, if_pos h]

/-- C20: `gst_video_info_update_from_image` on a mapped image whose plane count
`n` (at least one) is that of its format, whose plane `i` lies at
`base + off i` for a non-null `base`, all within the 64-bit address space and
every `off i` below `2 ^ 63` (so that the pointer difference `plane - data` is
a `ptrdiff_t`), and whose first VA plane offset is `off 0`.  It returns `TRUE`
exactly when every
`off i` is at most the data size of the image.  On `TRUE` the video info left
records, for every plane `i < n`, the offset `off i` and as stride the pitch of
plane `i` (converted from `guint` to `gint`, so the pitch itself when it is
below `2 ^ 31`), and as total size the data size of the image. -/
theorem C20_update_from_image (d : Provider) (vip : GstVideoInfo) (image : GstVaapiImage)
    (base : Nat) (off va : Nat → Nat)
    (hn : image.num_planes
      = (d.video_info_set_format vip image.format image.width image.height).n_planes)
    (h1 : 1 ≤ image.num_planes) (hb : 0 < base)
    (hp : ∀ i, i < image.num_planes → d.image_get_plane image i = base + off i)
    (hg : d.image_get_image image = some va) (hv : va 0 = off 0)
    (h64 : ∀ i, i < image.num_planes → base + off i < 2 ^ 64)
    (h63 : ∀ i, i < image.num_planes → off i < 2 ^ 63) :
    ((gst_video_info_update_from_image d vip image).1 = true
      ↔ ∀ i, i < image.num_planes → off i ≤ image.data_size)
    ∧ ((gst_video_info_update_from_image d vip image).1 = true →
        (∀ i, i < image.num_planes →
          (gst_video_info_update_from_image d vip image).2.offset i = off i
          ∧ (gst_video_info_update_from_image d vip image).2.stride i
              = to_gint (d.image_get_pitch image i)
          ∧ (d.image_get_pitch image i < 2 ^ 31 →
              (gst_video_info_update_from_image d vip image).2.stride i
                = (d.image_get_pitch image i : Int)))
        ∧ (gst_video_info_update_from_image d vip image).2.size = image.data_size) := by
  have hdata : get_image_data d image = base := by
    unfold get_image_data
    have h0 := hp 0 (by omega)
    have hne : base + off 0 ≠ 0 := by omega
    simp only [hg, h0, hv, hne, if_false]
    have : ((base + off 0 : Nat) : Int) - (off 0 : Int) = (base : Int) := by
      push_cast
      omega
    rw [this]
    exact to_gsize_of_lt base (by have := h64 0 (by omega); omega)
  have hbne : base ≠ 0 := by omega
  have hdis := has_disjoint_plane_false d image base image.data_size image.num_planes
  have hup := (update_planes_spec d image base image.num_planes
    (d.video_info_set_format vip image.format image.width image.height)).1
  have hoff : ∀ i, i < image.num_planes →
      ((d.image_get_plane image i : Nat) : Int) - (base : Int) = (off i : Int) := by
    intro i hi
    rw [hp i hi]
    push_cast
    omega
  have hiff : has_disjoint_plane d image base image.data_size image.num_planes = false
      ↔ ∀ i, i < image.num_planes → off i ≤ image.data_size := by
    rw [hdis]
    constructor
    · intro h i hi
      have := h i hi
      rw [hoff i hi, to_ptrdiff_of_lt (off i) (h63 i hi)] at this
      exact_mod_cast this
    · intro h i hi
      rw [hoff i hi, to_ptrdiff_of_lt (off i) (h63 i hi)]
      exact_mod_cast h i hi
  unfold gst_video_info_update_from_image
  simp only [hdata, hbne, if_false, ← hn, bne_self_eq_false, Bool.false_eq_true]
  cases hd : has_disjoint_plane d image base image.data_size image.num_planes
  · simp only [Bool.false_eq_true, if_false, true_iff, true_implies, and_true]
    refine ⟨hiff.1 hd, fun i hi => ?_⟩
    obtain ⟨a1, a2⟩ := hup i hi
    refine ⟨?_, a2, fun hlt => ?_⟩
    · show (update_planes d image base image.num_planes
        (d.video_info_set_format vip image.format image.width image.height)).offset i = off i
      rw [a1, hoff i hi]
      exact to_gsize_of_lt (off i) (by have := h64 i hi; omega)
    · show (update_planes d image base image.num_planes
        (d.video_info_set_format vip image.format image.width image.height)).stride i
          = (d.image_get_pitch image i : Int)
      rw [a2]
      exact to_gint_of_lt _ hlt
  · simp only [if_true, Bool.false_eq_true, false_iff, false_implies, and_true]
    intro h
    rw [hiff.2 h] at hd
    cases hd

/-- C20 at the sample one-plane image, whose plane lies at address 4096 with
offset 0: the update succeeds and records offset 0, stride 4 and size 16. -/
theorem C20_update_from_image_witness :
    (gst_video_info_update_from_image Sample.provider Sample.info Sample.image).1 = true
    ∧ (gst_video_info_update_from_image Sample.provider Sample.info Sample.image).2.offset 0 = 0
    ∧ (gst_video_info_update_from_image Sample.provider Sample.info Sample.image).2.stride 0 = 4
    ∧ (gst_video_info_update_from_image Sample.provider Sample.info Sample.image).2.size = 16 :=
  have h := C20_update_from_image Sample.provider Sample.info Sample.image 4096 (fun _ => 0)
    (fun _ => 0) rfl (by decide) (by decide)
    (fun i hi => by
      have h0 : i < 1 := hi
      simp [Sample.provider, Sample.image, h0])
    rfl rfl
    (fun i _ => by norm_num) (fun i _ => by norm_num)
  have ht : (gst_video_info_update_from_image Sample.provider Sample.info Sample.image).1 = true :=
    h.1.2 (fun i _ => Nat.zero_le _)
  ⟨ht, ((h.2 ht).1 0 (by decide)).1, ((h.2 ht).1 0 (by decide)).2.2 (by decide), (h.2 ht).2⟩

/-! ### The origin of the attached image -/

theorem image_origin_append (tr : List Call) (c : Call) :
    image_origin (tr ++ [c]) = origin_step (image_origin tr) c := by
  unfold image_origin
  rw [List.foldl_append]
  rfl

theorem image_origin_append_list (tr l : List Call) :
    image_origin (tr ++ l) = l.foldl origin_step (image_origin tr) := by
  unfold image_origin
  rw [List.foldl_append]

theorem origin_step_neutral (o : Option ImageOrigin) (c : Call) (h : is_image_event c = false) :
    origin_step o c = o := by
  cases c <;> first | rfl | cases h

theorem is_pool_get_neutral (c : Call) (h : is_image_event c = false) :
    is_pool_get c = false := by
  cases c <;> first | rfl | cases h

theorem is_pool_put_neutral (c : Call) (h : is_image_event c = false) :
    is_pool_put c = false := by
  cases c <;> first | rfl | cases h

theorem SameImage.img_refl (s : State) : SameImage s s := ⟨rfl, rfl, rfl, rfl, rfl⟩

theorem SameImage.img_trans {s t u : State} (h1 : SameImage s t) (h2 : SameImage t u) :
    SameImage s u :=
  ⟨h2.1.trans h1.1, h2.2.1.trans h1.2.1, h2.2.2.1.trans h1.2.2.1,
    h2.2.2.2.1.trans h1.2.2.2.1, h2.2.2.2.2.trans h1.2.2.2.2⟩

theorem SameImage.img_setMem {s t : State} (h : SameImage s t) (m : GstVaapiVideoMemory)
    (hi : m.image = t.mem.image) (hu : m.usage_flag = t.mem.usage_flag) :
    SameImage s (t.setMem m) :=
  ⟨hi.trans h.1, hu.trans h.2.1, h.2.2.1, h.2.2.2.1, h.2.2.2.2⟩

theorem SameImage.img_log {s t : State} (h : SameImage s t) (c : Call)
    (hc : is_image_event c = false) : SameImage s (t.log c) := by
  refine ⟨h.1, h.2.1, ?_, ?_, ?_⟩
  · rw [log_trace, image_origin_append, origin_step_neutral _ c hc]
    exact h.2.2.1
  · rw [log_trace, List.countP_append, h.2.2.2.1]
    simp [List.countP_cons, is_pool_get_neutral c hc]
  · rw [log_trace, List.countP_append, h.2.2.2.2]
    simp [List.countP_cons, is_pool_put_neutral c hc]

theorem ImageTracked.of_same {s t : State} (h : ImageTracked s) (hs : SameImage s t) :
    ImageTracked t := by
  obtain ⟨a1, a2, a3, a4⟩ := h
  obtain ⟨b1, b2, b3, b4, b5⟩ := hs
  unfold ImageTracked
  rw [b1, b2, b3, b4, b5]
  exact ⟨a1, a2, a3, a4⟩

theorem new_state_tracked (s : State) (h : NewState s) : ImageTracked s := by
  obtain ⟨⟨a, m, hm⟩, ht⟩ := h
  unfold ImageTracked
  rw [ht, hm]
  simp [image_origin, gst_vaapi_video_memory_new]

theorem surface_proxy_replace_same_image (n : Option GstVaapiSurfaceProxy) (s : State) :
    SameImage s (surface_proxy_replace n s) := by
  have h0 := SameImage.img_refl s
  unfold surface_proxy_replace
  split
  · exact h0
  · cases n with
    | none =>
      cases hp : s.mem.proxy with
      | none => exact h0.img_setMem _ rfl rfl
      | some o => exact ((h0.img_log (Call.surface_proxy_unref o.id) rfl).img_setMem _ rfl rfl)
    | some x =>
      cases hp : s.mem.proxy with
      | none => exact ((h0.img_log (Call.surface_proxy_ref x.id) rfl).img_setMem _ rfl rfl)
      | some o =>
        exact (((h0.img_log (Call.surface_proxy_ref x.id) rfl).img_log
          (Call.surface_proxy_unref o.id) rfl).img_setMem _ rfl rfl)

theorem ensure_surface_proxy_same_image (p : Provider) (s : State) :
    SameImage s (ensure_surface_proxy p s).2 := by
  have h := surface_proxy_replace_same_image (gst_vaapi_video_meta_get_surface_proxy s.mem.meta) s
  unfold ensure_surface_proxy
  split
  · exact SameImage.img_refl s
  · dsimp only
    split
    · exact h
    · split
      · exact h
      · exact ((h.img_log (Call.surface_proxy_new_from_pool _) rfl).img_setMem _ rfl rfl).img_setMem _ rfl rfl

theorem ensure_surface_same_image (p : Provider) (s : State) :
    SameImage s (ensure_surface p s).2 := by
  have h := ensure_surface_proxy_same_image p s
  unfold ensure_surface
  dsimp only
  cases (ensure_surface_proxy p s).1
  · exact h
  · exact h.img_setMem _ rfl rfl

theorem pixels_to_image_same_image (s : State) : SameImage s (pixels_to_image s) := by
  unfold pixels_to_image
  split
  · exact ⟨rfl, rfl, rfl, rfl, rfl⟩
  · exact SameImage.img_refl s

theorem pixels_to_surface_same_image (s : State) : SameImage s (pixels_to_surface s) := by
  unfold pixels_to_surface
  split
  · exact ⟨rfl, rfl, rfl, rfl, rfl⟩
  · exact SameImage.img_refl s

theorem ensure_image_is_current_same_image (p : Provider) (s : State) :
    SameImage s (ensure_image_is_current p s).2 := by
  have h0 : SameImage s (s.log (Call.surface_get_image (surface_id s.mem.surface)
      (image_id s.mem.image))) := (SameImage.img_refl s).img_log _ rfl
  unfold ensure_image_is_current gst_vaapi_surface_get_image
  split
  · exact SameImage.img_refl s
  · split
    · dsimp only
      cases p.surface_get_image s.mem.surface s.mem.image
      · exact h0
      · exact (h0.img_trans (pixels_to_image_same_image _)).img_setMem _ rfl rfl
    · exact SameImage.img_refl s

theorem ensure_surface_is_current_same_image (p : Provider) (s : State) :
    SameImage s (ensure_surface_is_current p s).2 := by
  have h0 : SameImage s (s.log (Call.surface_put_image (surface_id s.mem.surface)
      (image_id s.mem.image))) := (SameImage.img_refl s).img_log _ rfl
  unfold ensure_surface_is_current gst_vaapi_surface_put_image
  split
  · exact SameImage.img_refl s
  · split
    · split
      · dsimp only
        cases p.surface_put_image s.mem.surface s.mem.image
        · exact h0
        · exact (h0.img_trans (pixels_to_surface_same_image _)).img_setMem _ rfl rfl
      · exact (SameImage.img_refl s).img_setMem _ rfl rfl
    · exact SameImage.img_refl s

theorem ensure_image_tracked (p : Provider) (s : State) (h : ImageTracked s) :
    ImageTracked (ensure_image p s).2 := by
  obtain ⟨a1, a2, a3, a4⟩ := h
  cases hi : s.mem.image with
  | some im =>
    have he : (ensure_image p s).2
        = s.setMem { s.mem with meta := gst_vaapi_video_meta_set_image s.mem.meta s.mem.image } := by
      simp [ensure_image, ensure_image_derive, hi]
    rw [he]
    exact ⟨a1, a2, a3, a4⟩
  | none =>
    rw [hi] at a1
    have ho : image_origin s.trace = none := by
      cases h : image_origin s.trace with
      | none => rfl
      | some o => rw [h] at a1; cases a1
    rw [ho] at a4
    unfold ImageTracked
    cases hu : s.mem.usage_flag <;> cases hd : p.surface_derive_image s.mem.surface <;>
      cases hp : p.video_pool_get_object <;>
      by_cases hf : gst_vaapi_surface_get_format s.mem.surface = s.mem.image_info.format <;>
      simp [ensure_image, ensure_image_derive, object_replace_image_null, use_native_formats,
        reset_image_usage, hi, hu, hd, hp, hf, ho, a4, image_origin_append_list, List.foldl_cons, List.foldl_nil, origin_step,
        List.countP_append, List.countP_cons, is_pool_get, is_pool_put, image_id]

theorem reset_image_tracked (s : State) (h : ImageTracked s) :
    ImageTracked (gst_vaapi_video_memory_reset_image s)
    ∧ (gst_vaapi_video_memory_reset_image s).mem.image = none
    ∧ (gst_vaapi_video_memory_reset_image s).trace.countP is_pool_get
        = (gst_vaapi_video_memory_reset_image s).trace.countP is_pool_put
    ∧ (∀ im, s.mem.image = some im → image_origin s.trace = some ImageOrigin.pooled →
        (gst_vaapi_video_memory_reset_image s).trace
          = s.trace ++ [Call.video_pool_put_object im.id])
    ∧ (∀ im, s.mem.image = some im → image_origin s.trace = some ImageOrigin.derived →
        (gst_vaapi_video_memory_reset_image s).trace
          = s.trace ++ [Call.object_unref_image im.id]) := by
  obtain ⟨a1, a2, a3, a4⟩ := h
  unfold ImageTracked
  cases ho : image_origin s.trace with
  | none =>
    rw [ho] at a1 a4
    have hi : s.mem.image = none := by
      cases h : s.mem.image with
      | none => rfl
      | some o => rw [h] at a1; cases a1
    cases hu : s.mem.usage_flag <;>
      simp [gst_vaapi_video_memory_reset_image, object_replace_image_null, use_native_formats,
        hi, hu, ho, a4]
  | some o =>
    rw [ho] at a1 a4
    cases hi : s.mem.image with
    | none => rw [hi] at a1; cases a1
    | some im =>
      cases o with
      | pooled =>
        have hu := a2 ho
        simp [gst_vaapi_video_memory_reset_image, object_replace_image_null, use_native_formats,
          hi, hu, ho, a4, image_origin_append_list, List.foldl_cons, List.foldl_nil, origin_step, List.countP_append,
          List.countP_cons, is_pool_get, is_pool_put]
      | derived =>
        have hu := a3 ho
        cases hu2 : s.mem.usage_flag with
        | GST_VAAPI_IMAGE_USAGE_FLAG_NATIVE_FORMATS => exact absurd hu2 hu
        | GST_VAAPI_IMAGE_USAGE_FLAG_DIRECT_RENDER =>
          simp [gst_vaapi_video_memory_reset_image, object_replace_image_null,
            use_native_formats, hi, hu2, ho, a4, image_origin_append_list, List.foldl_cons, List.foldl_nil, origin_step,
            List.countP_append, List.countP_cons, is_pool_get, is_pool_put]
        | GST_VAAPI_IMAGE_USAGE_FLAG_DIRECT_UPLOAD =>
          simp [gst_vaapi_video_memory_reset_image, object_replace_image_null,
            use_native_formats, hi, hu2, ho, a4, image_origin_append_list, List.foldl_cons, List.foldl_nil, origin_step,
            List.countP_append, List.countP_cons, is_pool_get, is_pool_put]

theorem map_vaapi_memory_tracked (p : Provider) (flags : GstMapFlags) (s : State)
    (h : ImageTracked s) : ImageTracked (map_vaapi_memory p flags s).2 := by
  have h1 : ImageTracked (ensure_surface p s).2 := h.of_same (ensure_surface_same_image p s)
  have h2 := ensure_image_tracked p (ensure_surface p s).2 h1
  have h3 : ImageTracked (ensure_image_is_current p (ensure_image p (ensure_surface p s).2).2).2 :=
    h2.of_same (ensure_image_is_current_same_image p _)
  unfold map_vaapi_memory
  dsimp only
  split
  · exact h1
  · split
    · exact h2
    · cases flags.read
      · simp only [Bool.false_eq_true, if_false, Bool.not_true]
        have h4 := h2.of_same ((SameImage.img_refl _).img_log
          (Call.image_map (image_id (ensure_image p (ensure_surface p s).2).2.mem.image)) rfl)
        split
        · exact h4
        · split
          · exact h4.of_same ((SameImage.img_refl _).img_setMem _ rfl rfl)
          · exact h4
      · simp only [if_true]
        have h4 := h3.of_same ((SameImage.img_refl _).img_log
          (Call.image_map (image_id
            (ensure_image_is_current p (ensure_image p (ensure_surface p s).2).2).2.mem.image)) rfl)
        split
        · exact h3
        · split
          · exact h4
          · split
            · exact h4.of_same ((SameImage.img_refl _).img_setMem _ rfl rfl)
            · exact h4

theorem unmap_vaapi_memory_tracked (f : GstMapFlags) (s : State) (h : ImageTracked s) :
    ImageTracked (unmap_vaapi_memory f s) := by
  have h1 := h.of_same ((SameImage.img_refl s).img_log (Call.image_unmap (image_id s.mem.image)) rfl)
  unfold unmap_vaapi_memory
  cases f.write <;> cases hn : use_native_formats s.mem.usage_flag <;>
    simp only [Bool.false_eq_true, if_false, if_true, setMem_mem, log_mem, hn, Bool.not_false,
      Bool.not_true]
  · refine (reset_image_tracked _ ?_).1
    exact ⟨h1.1, h1.2.1, h1.2.2.1, h1.2.2.2⟩
  · exact h1
  · refine (reset_image_tracked _ ?_).1
    exact ⟨h1.1, h1.2.1, h1.2.2.1, h1.2.2.2⟩
  · exact ⟨h1.1, h1.2.1, h1.2.2.1, h1.2.2.2⟩

theorem meta_map_tracked (p : Provider) (plane : Nat) (f : GstMapFlags) (s : State)
    (h : ImageTracked s) : ImageTracked (gst_video_meta_map_vaapi_memory p plane f s).2 := by
  have hm := map_vaapi_memory_tracked p f s h
  unfold gst_video_meta_map_vaapi_memory
  split
  · exact h
  · split
    · exact h
    · by_cases hc : s.mem.map_count = 0
      · simp only [hc, if_true]
        cases (map_vaapi_memory p f s).1
        · simp only [Bool.not_false, if_true]
          exact hm
        · simp only [Bool.not_true, Bool.false_eq_true, if_false, setMem_mem]
          split <;> exact hm
      · simp only [hc, if_false, Bool.not_true, Bool.false_eq_true, setMem_mem]
        split <;> exact h

theorem meta_unmap_tracked (plane : Nat) (f : GstMapFlags) (s : State) (h : ImageTracked s) :
    ImageTracked (gst_video_meta_unmap_vaapi_memory plane f s).2 := by
  unfold gst_video_meta_unmap_vaapi_memory
  split
  · exact h
  · split
    · exact h
    · split
      · exact h
      · dsimp only
        split
        · split
          · exact unmap_vaapi_memory_tracked f _ h
          · exact h
        · exact h

theorem memory_map_first_tracked (p : Provider) (f : GstMapFlags) (s : State)
    (h : ImageTracked s) : ImageTracked (gst_vaapi_video_memory_map_first p f s).2 := by
  unfold gst_vaapi_video_memory_map_first
  split
  · dsimp only
    have h1 := h.of_same
      (surface_proxy_replace_same_image (gst_vaapi_video_meta_get_surface_proxy s.mem.meta) s)
    have h2 := h1.of_same (ensure_surface_is_current_same_image p
      (surface_proxy_replace (gst_vaapi_video_meta_get_surface_proxy s.mem.meta) s))
    split
    · exact h1
    · split
      · exact h2
      · exact h2
  · have hm := map_vaapi_memory_tracked p f s h
    dsimp only
    split <;> exact hm
  · exact h

theorem memory_map_tracked (p : Provider) (ms : Nat) (f : GstMapFlags) (s : State)
    (h : ImageTracked s) : ImageTracked (gst_vaapi_video_memory_map p ms f s).2 := by
  unfold gst_vaapi_video_memory_map
  split
  · exact h
  · generalize hr : (if s.mem.map_count = 0 then gst_vaapi_video_memory_map_first p f s
        else (true, s)) = r
    have hr2 : ImageTracked r.2 := by
      rw [← hr]
      split
      · exact memory_map_first_tracked p f s h
      · exact h
    dsimp only
    split
    · exact hr2
    · split
      · split <;> exact hr2
      · split <;> exact hr2
      · exact hr2

theorem memory_unmap_tracked (f : GstMapFlags) (s : State) (h : ImageTracked s) :
    ImageTracked (gst_vaapi_video_memory_unmap_full f s) := by
  unfold gst_vaapi_video_memory_unmap_full
  split
  · split
    · exact h.of_same (surface_proxy_replace_same_image none s)
    · exact unmap_vaapi_memory_tracked f s h
    · exact h
  · exact h

theorem copy_tracked (p : Provider) (offset size : Int) (s : State) (h : ImageTracked s) :
    ImageTracked (gst_vaapi_video_memory_copy p offset size s).2 := by
  have h1 := h.of_same (ensure_surface_is_current_same_image p s)
  unfold gst_vaapi_video_memory_copy
  split
  · exact h
  · dsimp only
    split
    · exact h
    · split
      · exact h1
      · split
        · exact h1
        · exact h1.of_same ((SameImage.img_refl _).img_log Call.video_meta_unref rfl)

theorem reset_surface_tracked (s : State) (h : ImageTracked s) :
    ImageTracked (gst_vaapi_video_memory_reset_surface s) := by
  have h1 : ImageTracked (s.setMem { s.mem with surface := none }) := h
  have h2 := (reset_image_tracked _ h1).1
  have h3 := h2.of_same (surface_proxy_replace_same_image none _)
  exact h3

theorem op_tracked (op : Op) (s : State) (h : ImageTracked s) : ImageTracked (op.apply s) := by
  cases op with
  | memory_map p f => exact memory_map_tracked p _ f s h
  | meta_map p plane f => exact meta_map_tracked p plane f s h
  | memory_unmap f => exact memory_unmap_tracked f s h
  | meta_unmap plane f => exact meta_unmap_tracked plane f s h
  | sync p => exact h.of_same (ensure_surface_is_current_same_image p s)
  | copy p offset size => exact copy_tracked p offset size s h
  | reset_image => exact (reset_image_tracked s h).1
  | reset_surface => exact reset_surface_tracked s h

theorem run_ops_tracked (ops : List Op) (s : State) (h : ImageTracked s) :
    ImageTracked (run_ops ops s) := by
  induction ops generalizing s with
  | nil => exact h
  | cons op ops ih => exact ih (op.apply s) (op_tracked op s h)

theorem allocator_free_effect (s : State) :
    (gst_vaapi_video_allocator_free s).mem.image = none
    ∧ (gst_vaapi_video_allocator_free s).mem.surface = none
    ∧ (gst_vaapi_video_allocator_free s).mem.proxy = none
    ∧ (gst_vaapi_video_allocator_free s).mem.meta = none
    ∧ (gst_vaapi_video_allocator_free s).trace = (gst_vaapi_video_memory_reset_image s).trace
        ++ (match s.mem.proxy with
            | some px => [Call.surface_proxy_unref px.id]
            | none => [])
        ++ (match s.mem.meta with
            | some _ => [Call.video_meta_unref]
            | none => []) := by
  cases hu : s.mem.usage_flag <;> cases hi : s.mem.image <;> cases hp : s.mem.proxy <;>
    cases hm : s.mem.meta <;>
    simp [gst_vaapi_video_allocator_free, gst_vaapi_video_memory_reset_image,
      object_replace_image_null, surface_proxy_replace, video_meta_replace_null,
      use_native_formats, hu, hi, hp, hm]

/-- C18: in every state `s` reached from a newly created video memory by a run
of calls (maps, unmaps, sync, copy, reset-image, reset-surface), an image is
attached exactly when the calls made give it an origin; an image from the
image pool is attached only under NATIVE_FORMATS and a derived image only
under DIRECT_RENDER or DIRECT_UPLOAD; and the pool acquisitions made are the
pool releases made plus the pooled image attached, if any.  Hence
`gst_vaapi_video_memory_reset_image` on `s` puts an attached pooled image back
into the pool (that is the one call it makes), leaves no image attached and
every pool acquisition matched by a release; and
`gst_vaapi_video_allocator_free` on `s` does the same, then releases the
surface proxy held and the metadata reference held, leaving none of them. -/
theorem C18_pooled_image_returned (s0 : State) (ops : List Op) (s : State)
    (h0 : NewState s0) (hs : s = run_ops ops s0) :
    (s.mem.image.isSome = (image_origin s.trace).isSome
      ∧ (image_origin s.trace = some ImageOrigin.pooled →
          s.mem.usage_flag = GST_VAAPI_IMAGE_USAGE_FLAG_NATIVE_FORMATS)
      ∧ (image_origin s.trace = some ImageOrigin.derived →
          s.mem.usage_flag = GST_VAAPI_IMAGE_USAGE_FLAG_DIRECT_RENDER
          ∨ s.mem.usage_flag = GST_VAAPI_IMAGE_USAGE_FLAG_DIRECT_UPLOAD)
      ∧ s.trace.countP is_pool_get = s.trace.countP is_pool_put
          + (if image_origin s.trace = some ImageOrigin.pooled then 1 else 0))
    ∧ ((gst_vaapi_video_memory_reset_image s).mem.image = none
      ∧ (gst_vaapi_video_memory_reset_image s).trace.countP is_pool_get
          = (gst_vaapi_video_memory_reset_image s).trace.countP is_pool_put
      ∧ (∀ im, s.mem.image = some im → image_origin s.trace = some ImageOrigin.pooled →
          (gst_vaapi_video_memory_reset_image s).trace
            = s.trace ++ [Call.video_pool_put_object im.id]))
    ∧ ((gst_vaapi_video_allocator_free s).mem.image = none
      ∧ (gst_vaapi_video_allocator_free s).mem.proxy = none
      ∧ (gst_vaapi_video_allocator_free s).mem.meta = none
      ∧ (gst_vaapi_video_allocator_free s).trace.countP is_pool_get
          = (gst_vaapi_video_allocator_free s).trace.countP is_pool_put
      ∧ (∀ im, s.mem.image = some im → image_origin s.trace = some ImageOrigin.pooled →
          ∃ rest, (gst_vaapi_video_allocator_free s).trace
            = s.trace ++ Call.video_pool_put_object im.id :: rest)
      ∧ (gst_vaapi_video_allocator_free s).trace = (gst_vaapi_video_memory_reset_image s).trace
          ++ (match s.mem.proxy with
              | some px => [Call.surface_proxy_unref px.id]
              | none => [])
          ++ (match s.mem.meta with
              | some _ => [Call.video_meta_unref]
              | none => [])) := by
  have ht : ImageTracked s := by
    rw [hs]
    exact run_ops_tracked ops s0 (new_state_tracked s0 h0)
  obtain ⟨r1, r2, r3, r4, _⟩ := reset_image_tracked s ht
  obtain ⟨f1, _, f3, f4, f5⟩ := allocator_free_effect s
  obtain ⟨a1, a2, a3, a4⟩ := ht
  refine ⟨⟨a1, a2, fun h => ?_, a4⟩, ⟨r2, r3, r4⟩, f1, f3, f4, ?_, ?_, f5⟩
  · have hne := a3 h
    cases hu : s.mem.usage_flag with
    | GST_VAAPI_IMAGE_USAGE_FLAG_NATIVE_FORMATS => exact absurd hu hne
    | GST_VAAPI_IMAGE_USAGE_FLAG_DIRECT_RENDER => exact Or.inl rfl
    | GST_VAAPI_IMAGE_USAGE_FLAG_DIRECT_UPLOAD => exact Or.inr rfl
  · rw [f5]
    cases s.mem.proxy <;> cases s.mem.meta <;>
      simp [List.countP_append, List.countP_cons, is_pool_get, is_pool_put, r3]
  · intro im hi ho
    rw [f5, r4 im hi ho]
    refine ⟨(match s.mem.proxy with
        | some px => [Call.surface_proxy_unref px.id]
        | none => [])
      ++ (match s.mem.meta with
        | some _ => [Call.video_meta_unref]
        | none => []), ?_⟩
    simp

/-- C18 at a concrete run: the sample memory under NATIVE_FORMATS after a
write map and its unmap holds a pooled image; freeing it puts the image back
into the pool, then releases the proxy and the metadata. -/
theorem C18_pooled_image_returned_witness :
    NewState (Sample.fresh GST_VAAPI_IMAGE_USAGE_FLAG_NATIVE_FORMATS)
    ∧ image_origin (run_ops [Op.meta_map Sample.provider 0 GST_MAP_WRITE,
          Op.meta_unmap 0 GST_MAP_WRITE]
        (Sample.fresh GST_VAAPI_IMAGE_USAGE_FLAG_NATIVE_FORMATS)).trace
        = some ImageOrigin.pooled
    ∧ (gst_vaapi_video_allocator_free (run_ops [Op.meta_map Sample.provider 0 GST_MAP_WRITE,
          Op.meta_unmap 0 GST_MAP_WRITE]
        (Sample.fresh GST_VAAPI_IMAGE_USAGE_FLAG_NATIVE_FORMATS))).trace
        = [Call.surface_proxy_ref 5, Call.video_pool_get_object 7, Call.image_map (some 7),
            Call.image_unmap (some 7), Call.video_pool_put_object 7, Call.surface_proxy_unref 5,
            Call.video_meta_unref]
    ∧ (gst_vaapi_video_allocator_free (run_ops [Op.meta_map Sample.provider 0 GST_MAP_WRITE,
          Op.meta_unmap 0 GST_MAP_WRITE]
        (Sample.fresh GST_VAAPI_IMAGE_USAGE_FLAG_NATIVE_FORMATS))).trace.countP is_pool_get
        = (gst_vaapi_video_allocator_free (run_ops [Op.meta_map Sample.provider 0 GST_MAP_WRITE,
          Op.meta_unmap 0 GST_MAP_WRITE]
        (Sample.fresh GST_VAAPI_IMAGE_USAGE_FLAG_NATIVE_FORMATS))).trace.countP is_pool_put :=
  ⟨⟨⟨_, _, rfl⟩, rfl⟩, by decide, by decide,
    (C18_pooled_image_returned (Sample.fresh GST_VAAPI_IMAGE_USAGE_FLAG_NATIVE_FORMATS)
      [Op.meta_map Sample.provider 0 GST_MAP_WRITE, Op.meta_unmap 0 GST_MAP_WRITE] _
      ⟨⟨_, _, rfl⟩, rfl⟩ rfl).2.2.2.2.2.1⟩

/-! ### Maps that fail -/

/-- C23: on a memory with no map outstanding, `gst_vaapi_video_memory_map`
called with GST_MAP_WRITE in its flags (with or without GST_MAP_READ) returns
`NULL` and leaves the whole state as it was (every field of the memory, the
pixels, and no call made), whatever the usage strategy and the provider.
Write access is obtained through `gst_video_meta_map_vaapi_memory`: on the
sample memory its write map succeeds and hands out the plane pointer. -/
theorem C23_memory_map_write_refused (p : Provider) (maxsize : Nat) (f : GstMapFlags)
    (s : State) (hc : s.mem.map_count = 0) (hw : f.write = true) :
    gst_vaapi_video_memory_map p maxsize f s = (MapData.null, s)
    ∧ (∀ u, (gst_video_meta_map_vaapi_memory Sample.provider 0 GST_MAP_WRITE (Sample.fresh u)).1
        = ⟨true, 4096, 4, some GST_MAP_WRITE⟩
      ∧ (gst_video_meta_map_vaapi_memory Sample.provider 0 GST_MAP_WRITE
          (Sample.fresh u)).2.mem.map_type = GST_VAAPI_VIDEO_MEMORY_MAP_TYPE_PLANAR) := by
  refine ⟨?_, ?_⟩
  · unfold gst_vaapi_video_memory_map gst_vaapi_video_memory_map_first
    cases hm : s.mem.meta.isNone
    · cases hr : f.read <;> simp [hm, hc, hw, hr]
    · simp [hm]
  · intro u
    cases u <;> decide

/-- C23 at the sample memory under DIRECT_RENDER, for GST_MAP_READWRITE: the
map returns `NULL` and the state is unchanged. -/
theorem C23_memory_map_write_refused_witness :
    (Sample.fresh GST_VAAPI_IMAGE_USAGE_FLAG_DIRECT_RENDER).mem.map_count = 0
    ∧ GST_MAP_READWRITE.write = true
    ∧ gst_vaapi_video_memory_map Sample.provider 16 GST_MAP_READWRITE
        (Sample.fresh GST_VAAPI_IMAGE_USAGE_FLAG_DIRECT_RENDER)
        = (MapData.null, Sample.fresh GST_VAAPI_IMAGE_USAGE_FLAG_DIRECT_RENDER) :=
  ⟨rfl, rfl, (C23_memory_map_write_refused Sample.provider 16 GST_MAP_READWRITE
    (Sample.fresh GST_VAAPI_IMAGE_USAGE_FLAG_DIRECT_RENDER) rfl rfl).1⟩

/-- C22 (the code departs from the claim): a map that fails after the image
was mapped keeps its map reference.  On a newly created memory under
NATIVE_FORMATS, `gst_video_meta_map_vaapi_memory` for plane 5 of the one-plane
sample image returns `FALSE` with the map count raised to one and the map
type set to PLANAR, the image left mapped; and `gst_vaapi_video_memory_map`
with GST_MAP_READ, when `get_image_data` returns `NULL`, returns `NULL` with the
map count raised to one and the map type set to LINEAR. -/
theorem C22_failed_map_keeps_reference :
    (Sample.fresh GST_VAAPI_IMAGE_USAGE_FLAG_NATIVE_FORMATS).mem.map_count = 0
    ∧ (Sample.fresh GST_VAAPI_IMAGE_USAGE_FLAG_NATIVE_FORMATS).mem.map_type = MAP_TYPE_NONE
    ∧ (gst_video_meta_map_vaapi_memory Sample.provider 5 GST_MAP_READ
        (Sample.fresh GST_VAAPI_IMAGE_USAGE_FLAG_NATIVE_FORMATS)).1.ret = false
    ∧ (gst_video_meta_map_vaapi_memory Sample.provider 5 GST_MAP_READ
        (Sample.fresh GST_VAAPI_IMAGE_USAGE_FLAG_NATIVE_FORMATS)).2.mem.map_count = 1
    ∧ (gst_video_meta_map_vaapi_memory Sample.provider 5 GST_MAP_READ
        (Sample.fresh GST_VAAPI_IMAGE_USAGE_FLAG_NATIVE_FORMATS)).2.mem.map_type
        = GST_VAAPI_VIDEO_MEMORY_MAP_TYPE_PLANAR
    ∧ (gst_video_meta_map_vaapi_memory Sample.provider 5 GST_MAP_READ
        (Sample.fresh GST_VAAPI_IMAGE_USAGE_FLAG_NATIVE_FORMATS)).2.trace
        = [Call.surface_proxy_ref 5, Call.video_pool_get_object 7,
            Call.surface_get_image (some 3) (some 7), Call.image_map (some 7)]
    ∧ (gst_vaapi_video_memory_map Sample.provider_no_va_image 16 GST_MAP_READ
        (Sample.fresh GST_VAAPI_IMAGE_USAGE_FLAG_NATIVE_FORMATS)).1 = MapData.null
    ∧ (gst_vaapi_video_memory_map Sample.provider_no_va_image 16 GST_MAP_READ
        (Sample.fresh GST_VAAPI_IMAGE_USAGE_FLAG_NATIVE_FORMATS)).2.mem.map_count = 1
    ∧ (gst_vaapi_video_memory_map Sample.provider_no_va_image 16 GST_MAP_READ
        (Sample.fresh GST_VAAPI_IMAGE_USAGE_FLAG_NATIVE_FORMATS)).2.mem.map_type
        = GST_VAAPI_VIDEO_MEMORY_MAP_TYPE_LINEAR := by
  decide

/-! ### The map count is zero exactly when the map type is none -/

theorem MapBalanced.of_frame {s t : State} (h : SameMapState s t) (hs : MapBalanced s) :
    MapBalanced t := by
  unfold MapBalanced
  rw [h.1, h.2.1]
  exact hs

theorem map_balanced_new (s : State) (h : NewState s) : MapBalanced s := by
  obtain ⟨⟨a, m, hm⟩, _⟩ := h
  unfold MapBalanced
  rw [hm]
  simp [gst_vaapi_video_memory_new]

theorem map_balanced_incr (s : State) (hs : MapBalanced s) (hc : s.mem.map_count ≠ 0) :
    MapBalanced (s.setMem { s.mem with map_count := s.mem.map_count + 1 }) := by
  obtain ⟨h0, h1⟩ := hs
  refine ⟨?_, ?_⟩
  · show 0 ≤ s.mem.map_count + 1
    omega
  · show s.mem.map_count + 1 = 0 ↔ s.mem.map_type = MAP_TYPE_NONE
    constructor
    · intro h
      omega
    · intro h
      exact absurd (h1.2 h) hc

theorem meta_map_balanced (p : Provider) (plane : Nat) (f : GstMapFlags) (s : State)
    (hs : MapBalanced s) : MapBalanced (gst_video_meta_map_vaapi_memory p plane f s).2 := by
  have hf := (map_vaapi_memory_frame p f s).1
  unfold gst_video_meta_map_vaapi_memory
  split
  · exact hs
  · split
    · exact hs
    · by_cases hc : s.mem.map_count = 0
      · simp only [hc, if_true]
        cases he : (map_vaapi_memory p f s).1
        · simp only [Bool.not_false, if_true]
          exact MapBalanced.of_frame hf hs
        · simp only [Bool.not_true, Bool.false_eq_true, if_false, setMem_mem]
          have h1 : MapBalanced
              (((map_vaapi_memory p f s).2.setMem
                { (map_vaapi_memory p f s).2.mem with
                  map_type := GST_VAAPI_VIDEO_MEMORY_MAP_TYPE_PLANAR }).setMem
                { (map_vaapi_memory p f s).2.mem with
                  map_type := GST_VAAPI_VIDEO_MEMORY_MAP_TYPE_PLANAR,
                  map_count := (map_vaapi_memory p f s).2.mem.map_count + 1 }) := by
            refine ⟨?_, ?_⟩
            · show 0 ≤ (map_vaapi_memory p f s).2.mem.map_count + 1
              rw [hf.1, hc]
              decide
            · show (map_vaapi_memory p f s).2.mem.map_count + 1 = 0
                ↔ GST_VAAPI_VIDEO_MEMORY_MAP_TYPE_PLANAR = MAP_TYPE_NONE
              rw [hf.1, hc]
              simp [MAP_TYPE_NONE]
          split <;> exact h1
      · simp only [hc, if_false, Bool.not_true, Bool.false_eq_true, setMem_mem]
        have h1 := map_balanced_incr s hs hc
        split <;> exact h1

theorem map_balanced_decr (s : State) (hs : MapBalanced s) (h1 : 1 ≤ s.mem.map_count)
    (hc : s.mem.map_count ≠ 1) :
    MapBalanced (s.setMem { s.mem with map_count := s.mem.map_count - 1 }) := by
  obtain ⟨_, h2⟩ := hs
  refine ⟨?_, ?_⟩
  · show 0 ≤ s.mem.map_count - 1
    omega
  · show s.mem.map_count - 1 = 0 ↔ s.mem.map_type = MAP_TYPE_NONE
    constructor
    · intro h
      omega
    · intro h
      have := h2.2 h
      omega

theorem map_balanced_cleared (q : State) (hc : q.mem.map_count = 0)
    (ht : q.mem.map_type = MAP_TYPE_NONE) : MapBalanced q :=
  ⟨by rw [hc], fun _ => ht, fun _ => hc⟩

theorem meta_unmap_balanced (plane : Nat) (f : GstMapFlags) (s : State) (hs : MapBalanced s)
    (h1 : 1 ≤ s.mem.map_count) :
    MapBalanced (gst_video_meta_unmap_vaapi_memory plane f s).2 := by
  unfold gst_video_meta_unmap_vaapi_memory
  split
  · exact hs
  · split
    · exact hs
    · split
      · exact hs
      · by_cases hc : s.mem.map_count - 1 = 0
        · simp only [setMem_mem, hc, if_true]
          split
          · refine MapBalanced.of_frame (unmap_vaapi_memory_frame f _).1 ?_
            exact map_balanced_cleared _ rfl rfl
          · exact map_balanced_cleared _ rfl rfl
        · simp only [setMem_mem, hc, if_false]
          exact map_balanced_decr s hs h1 (by omega)

theorem memory_unmap_balanced (f : GstMapFlags) (s : State) (hs : MapBalanced s)
    (h1 : 1 ≤ s.mem.map_count) :
    MapBalanced (gst_vaapi_video_memory_unmap_full f s) := by
  have hp := surface_proxy_replace_frame none s
  have hu := (unmap_vaapi_memory_frame f s).1
  unfold gst_vaapi_video_memory_unmap_full
  by_cases hc : s.mem.map_count = 1
  · simp only [hc, if_true]
    split
    · refine map_balanced_cleared _ ?_ rfl
      show (surface_proxy_replace none s).mem.map_count - 1 = 0
      rw [hp.1, hc]
      rfl
    · refine map_balanced_cleared _ ?_ rfl
      show (unmap_vaapi_memory f s).mem.map_count - 1 = 0
      rw [hu.1, hc]
      rfl
    · exact hs
  · simp only [hc, if_false]
    exact map_balanced_decr s hs h1 hc

theorem memory_map_first_balanced (p : Provider) (f : GstMapFlags) (s : State)
    (hs : MapBalanced s) (hc : s.mem.map_count = 0) :
    ((gst_vaapi_video_memory_map_first p f s).1 = false →
      MapBalanced (gst_vaapi_video_memory_map_first p f s).2)
    ∧ ((gst_vaapi_video_memory_map_first p f s).1 = true →
      (gst_vaapi_video_memory_map_first p f s).2.mem.map_count = 0
      ∧ (((gst_vaapi_video_memory_map_first p f s).2.mem.map_type
            = GST_VAAPI_VIDEO_MEMORY_MAP_TYPE_SURFACE
          ∧ (gst_vaapi_video_memory_map_first p f s).2.mem.proxy.isSome = true)
        ∨ ((gst_vaapi_video_memory_map_first p f s).2.mem.map_type
            = GST_VAAPI_VIDEO_MEMORY_MAP_TYPE_LINEAR
          ∧ (gst_vaapi_video_memory_map_first p f s).2.mem.image.isSome = true))) := by
  obtain ⟨fr, fw⟩ := f
  cases fr <;> cases fw
  · have h1 := surface_proxy_replace_frame
      (gst_vaapi_video_meta_get_surface_proxy s.mem.meta) s
    have h2 := ensure_surface_is_current_frame p
      (surface_proxy_replace (gst_vaapi_video_meta_get_surface_proxy s.mem.meta) s)
    simp only [gst_vaapi_video_memory_map_first]
    cases hp : (surface_proxy_replace
        (gst_vaapi_video_meta_get_surface_proxy s.mem.meta) s).mem.proxy with
    | none =>
      simp only [Option.isNone_none, if_true, Bool.false_eq_true, false_implies, and_true,
        true_implies]
      exact MapBalanced.of_frame h1 hs
    | some px =>
      simp only [Option.isNone_some, Bool.false_eq_true, if_false]
      cases he : (ensure_surface_is_current p (surface_proxy_replace
          (gst_vaapi_video_meta_get_surface_proxy s.mem.meta) s)).1
      · simp only [Bool.not_false, if_true, Bool.false_eq_true, false_implies, and_true,
          true_implies]
        exact MapBalanced.of_frame (h1.trans h2.1) hs
      · simp only [Bool.not_true, Bool.false_eq_true, if_false, Bool.true_eq_false,
          false_implies, true_and, true_implies, setMem_mem]
        simp [h2.1.1, h1.1, hc, h2.2.1, hp]
  · simp only [gst_vaapi_video_memory_map_first]
    exact ⟨fun _ => hs, fun h => by cases h⟩
  · have h1 := map_vaapi_memory_frame p ⟨true, false⟩ s
    simp only [gst_vaapi_video_memory_map_first]
    cases he : (map_vaapi_memory p ⟨true, false⟩ s).1
    · simp only [Bool.not_false, if_true, Bool.false_eq_true, false_implies, and_true,
        true_implies]
      exact MapBalanced.of_frame h1.1 hs
    · simp only [Bool.not_true, Bool.false_eq_true, if_false, Bool.true_eq_false,
        false_implies, true_and, true_implies, setMem_mem]
      simp [h1.1.1, hc, (h1.2 he).2]
  · simp only [gst_vaapi_video_memory_map_first]
    exact ⟨fun _ => hs, fun h => by cases h⟩

theorem memory_map_balanced (p : Provider) (ms : Nat) (f : GstMapFlags) (s : State)
    (hs : MapBalanced s) : MapBalanced (gst_vaapi_video_memory_map p ms f s).2 := by
  unfold gst_vaapi_video_memory_map
  split
  · exact hs
  · by_cases hc : s.mem.map_count = 0
    · obtain ⟨k1, k2⟩ := memory_map_first_balanced p f s hs hc
      simp only [hc, if_true]
      cases he : (gst_vaapi_video_memory_map_first p f s).1
      · simp only [Bool.not_false, if_true]
        exact k1 he
      · simp only [Bool.not_true, Bool.false_eq_true, if_false]
        obtain ⟨c0, hty⟩ := k2 he
        rcases hty with ⟨ht, hp⟩ | ⟨ht, hi⟩
        · rw [ht]
          dsimp only
          cases hpx : (gst_vaapi_video_memory_map_first p f s).2.mem.proxy with
          | none => rw [hpx] at hp; cases hp
          | some px =>
            unfold MapBalanced
            simp [c0]
        · rw [ht]
          dsimp only
          cases him : (gst_vaapi_video_memory_map_first p f s).2.mem.image with
          | none => rw [him] at hi; cases hi
          | some im =>
            unfold MapBalanced
            simp [c0]
    · simp only [hc, if_false, Bool.not_true, Bool.false_eq_true]
      have h1 := map_balanced_incr s hs hc
      split
      · split
        · exact hs
        · exact h1
      · split
        · exact hs
        · exact h1
      · exact hs

theorem op_balanced (op : Op) (s : State) (hs : MapBalanced s)
    (hm : op.is_map_or_unmap = true) (hu : op.is_unmap = true → 1 ≤ s.mem.map_count) :
    MapBalanced (op.apply s) := by
  cases op with
  | memory_map p f => exact memory_map_balanced p _ f s hs
  | meta_map p plane f => exact meta_map_balanced p plane f s hs
  | memory_unmap f => exact memory_unmap_balanced f s hs (hu rfl)
  | meta_unmap plane f => exact meta_unmap_balanced plane f s hs (hu rfl)
  | sync p => cases hm
  | copy p offset size => cases hm
  | reset_image => cases hm
  | reset_surface => cases hm

theorem guarded_run_balanced (ops : List Op) (s : State) (hs : MapBalanced s)
    (hg : GuardedMapRun ops s) : MapBalanced (run_ops ops s) := by
  induction ops generalizing s with
  | nil => exact hs
  | cons op ops ih =>
    obtain ⟨h1, h2, h3⟩ := hg
    exact ih (op.apply s) (op_balanced op s hs h1 h2) h3

theorem guarded_run_take (ops : List Op) (s : State) (k : Nat) (hg : GuardedMapRun ops s) :
    GuardedMapRun (ops.take k) s := by
  induction ops generalizing s k with
  | nil =>
    rw [List.take_nil]
    trivial
  | cons op ops ih =>
    cases k with
    | zero => trivial
    | succ k =>
      obtain ⟨h1, h2, h3⟩ := hg
      exact ⟨h1, h2, ih (op.apply s) k h3⟩

/-- C21: take a newly created video memory and any run of map and unmap calls
(`gst_vaapi_video_memory_map`, `gst_video_meta_map_vaapi_memory`,
`gst_vaapi_video_memory_unmap_full`, `gst_video_meta_unmap_vaapi_memory`, with
any arguments and providers) in which every unmap is issued while the map
count is at least one.  In the state after each prefix of the run the map
count is not negative, and it is zero exactly when the map type is none. -/
theorem C21_count_zero_iff_type_none (s0 : State) (ops : List Op) (h0 : NewState s0)
    (hg : GuardedMapRun ops s0) :
    ∀ k, 0 ≤ (run_ops (ops.take k) s0).mem.map_count
      ∧ ((run_ops (ops.take k) s0).mem.map_count = 0
          ↔ (run_ops (ops.take k) s0).mem.map_type = MAP_TYPE_NONE) := by
  intro k
  exact guarded_run_balanced (ops.take k) s0 (map_balanced_new s0 h0)
    (guarded_run_take ops s0 k hg)

/-- C21 at a concrete run on the sample memory: a write map, a read map of
plane 5 (which returns `FALSE`), and two unmaps; after the first three calls
the map count is one and the map type is PLANAR. -/
theorem C21_count_zero_iff_type_none_witness :
    NewState (Sample.fresh GST_VAAPI_IMAGE_USAGE_FLAG_NATIVE_FORMATS)
    ∧ GuardedMapRun [Op.meta_map Sample.provider 0 GST_MAP_WRITE,
          Op.meta_map Sample.provider 5 GST_MAP_READ, Op.meta_unmap 5 GST_MAP_READ,
          Op.meta_unmap 0 GST_MAP_WRITE]
        (Sample.fresh GST_VAAPI_IMAGE_USAGE_FLAG_NATIVE_FORMATS)
    ∧ (run_ops (List.take 3 [Op.meta_map Sample.provider 0 GST_MAP_WRITE,
          Op.meta_map Sample.provider 5 GST_MAP_READ, Op.meta_unmap 5 GST_MAP_READ,
          Op.meta_unmap 0 GST_MAP_WRITE])
        (Sample.fresh GST_VAAPI_IMAGE_USAGE_FLAG_NATIVE_FORMATS)).mem.map_count = 1
    ∧ ((run_ops (List.take 3 [Op.meta_map Sample.provider 0 GST_MAP_WRITE,
          Op.meta_map Sample.provider 5 GST_MAP_READ, Op.meta_unmap 5 GST_MAP_READ,
          Op.meta_unmap 0 GST_MAP_WRITE])
        (Sample.fresh GST_VAAPI_IMAGE_USAGE_FLAG_NATIVE_FORMATS)).mem.map_count = 0
      ↔ (run_ops (List.take 3 [Op.meta_map Sample.provider 0 GST_MAP_WRITE,
          Op.meta_map Sample.provider 5 GST_MAP_READ, Op.meta_unmap 5 GST_MAP_READ,
          Op.meta_unmap 0 GST_MAP_WRITE])
        (Sample.fresh GST_VAAPI_IMAGE_USAGE_FLAG_NATIVE_FORMATS)).mem.map_type
          = MAP_TYPE_NONE) :=
  have hg : GuardedMapRun [Op.meta_map Sample.provider 0 GST_MAP_WRITE,
        Op.meta_map Sample.provider 5 GST_MAP_READ, Op.meta_unmap 5 GST_MAP_READ,
        Op.meta_unmap 0 GST_MAP_WRITE]
      (Sample.fresh GST_VAAPI_IMAGE_USAGE_FLAG_NATIVE_FORMATS) :=
    ⟨rfl, (fun h => Bool.noConfusion h), rfl, (fun h => Bool.noConfusion h), rfl,
      (fun _ => (by decide)), rfl, (fun _ => (by decide)), trivial⟩
  ⟨⟨⟨_, _, rfl⟩, rfl⟩, hg, by decide,
    (C21_count_zero_iff_type_none (Sample.fresh GST_VAAPI_IMAGE_USAGE_FLAG_NATIVE_FORMATS) _
      ⟨⟨_, _, rfl⟩, rfl⟩ hg 3).2⟩

/-! ### One coherency flag is set while no map is outstanding -/

end GstVaapi
